import Mathlib

/-! # G2D job scheduler: interrupt, timeout and submission paths

A shallow embedding of `drivers/gpu/exynos/g2d/g2d_drv.c` and of
`g2d_stamp_task` from `drivers/gpu/exynos/g2d/g2d_debug.c` (namespace `G2D`),
followed by the ramp-delay and over-current warning code of
`drivers/regulator/s2mpg10-regulator.c` (namespace `S2mpg10`) and the
contaminant detection of `drivers/usb/typec/tcpm/max77759_contaminant.c`
(namespace `Max77759`).  The definitions of the three come first, the
theorems after them.

The handlers of `g2d_drv.c` are control flow around functions, macros and
constants that live in headers and translation units outside the sources at
hand (`g2d.h`, `g2d_task.[ch]`, `g2d_regs.[ch]`, `g2d_uapi_process.[ch]`) and
around kernel primitives.  Those are the fields of `G2dEnv`: every theorem
quantifies over them.  What the embedded code does is recorded twice: as the
memory it leaves behind (`Mem`) and as the ordered record of the calls it
made (`World.trace`).  The record lists the calls that the embedded code makes
itself, with their arguments; what a callee of the missing units calls in
turn is part of that callee and shows in the memory only.  A run of a handler
ends in one of two ways (`Outcome`): it returns a value, or it dereferences a
NULL task, as `g2d_dump_task` and the `pr_info` of `g2d_stamp_task` do when
they are reached with a NULL task, and goes no further.
-/

namespace G2D

/-! ## Data model -/

/-- A `struct g2d_task *` that is not NULL: the tasks of the pool are told
apart by a handle. -/
abbrev TaskRef := Nat

/-- The `dev_err` messages of `g2d_drv.c`, one constructor per format string. -/
inductive ErrMsg
  /-- The message "%s: Time is up: %d msec for job %d". -/
  | time_is_up (msec : Nat) (job_id : Nat)
  /-- The message "GLOBAL RESET: killed task not dead in %d msec.". -/
  | global_reset_not_dead (msec : Nat)
  /-- The message "No task is running in HW". -/
  | no_task_running
  /-- The message "%s: Current job %d in HW is not active". -/
  | current_job_not_active (job_id : Int)
  /-- The message "%s: Error occurred during running job %d". -/
  | error_during_job (job_id : Int)
  /-- The message "%s: Failed to read g2d_task_data". -/
  | failed_to_read_task_data
  /-- The message "debugfs : failed to create root directory". -/
  | debugfs_root_failed
  /-- The message "debugfs : failed to create debug file". -/
  | debugfs_debug_failed
  /-- The message "debugfs : failed to create debug logs file". -/
  | debugfs_logs_failed
  deriving DecidableEq, Repr

/-- One call made by the embedded code, with its arguments (the device
argument `g2d_dev` is left out: there is one device). -/
inductive Call
  | dev_err (msg : ErrMsg)
  | spin_lock_irqsave
  | spin_unlock_irqrestore
  | spin_lock
  | spin_unlock
  | wake_up_freeze_wait
  | mod_timer (task : TaskRef) (msec : Nat)
  | mark_task_state_killed (task : TaskRef)
  | g2d_hw_get_job_state (job_id : Nat)
  | g2d_hw_global_reset
  | g2d_hw_kill_task (job_id : Nat)
  | g2d_hw_push_task (task : TaskRef)
  | g2d_hw_finished_job_ids
  | g2d_hw_clear_job_ids (mask : Nat)
  | g2d_hw_errint_status
  | g2d_hw_get_current_task
  | g2d_hw_clear_int (mask : Nat)
  | g2d_flush_all_tasks
  | g2d_finish_task_with_id (id : Nat) (success : Bool)
  | g2d_get_active_task_from_id (job_id : Int)
  | g2d_stamp_task (task : Option TaskRef) (val : Nat)
  | g2d_dump_task (task : Option TaskRef)
  | pr_info_job_took (task : Option TaskRef)
  | copy_from_user (uptr : Nat)
  | g2d_get_free_task
  | kref_init (task : TaskRef)
  | g2d_get_userdata (task : TaskRef)
  | g2d_put_free_task (task : TaskRef)
  | g2d_start_task (task : TaskRef)
  | g2d_wait_put_user (task : TaskRef) (uptr : Nat) (flags : Nat)
  | g2d_prepare_suspend
  | schedule
  | test_and_set_bit (nr : Nat)
  | iovmm_deactivate
  | debugfs_create_dir
  | debugfs_create_u32
  | debugfs_create_file
  deriving DecidableEq, Repr

/-- The record `struct g2d_stamp` of `g2d_debug.c`. -/
structure G2dStamp where
  time : Nat
  task : Option TaskRef
  state : Nat
  job_id : Nat
  val : Nat
  cpu : Nat
  deriving DecidableEq, Repr

/-- The size of the stamp log: `#define G2D_MAX_STAMP_SIZE 1024`. -/
def G2D_MAX_STAMP_SIZE : Nat := 1024

/-- The memory the driver works on: the device with its tasks and registers
(`dev`, owned by code outside the sources at hand) and the three file-scope
variables of `g2d_debug.c`. -/
structure Mem (σ : Type) where
  dev : σ
  /-- The counter `static atomic_t p_stamp` (signed, 32 bits). -/
  p_stamp : Int
  /-- The log `g2d_stamp_list[G2D_MAX_STAMP_SIZE]`. -/
  g2d_stamp_list : Nat → G2dStamp
  /-- The switch `static unsigned int g2d_debug`. -/
  g2d_debug : Nat

/-- Memory together with the record of the calls made so far. -/
structure World (σ : Type) where
  mem : Mem σ
  trace : List Call

/-- What `g2d_drv.c` and `g2d_debug.c` use and do not define: constants and
macros of the missing headers, the functions of `g2d_task.c`, `g2d_regs.c`
and `g2d_uapi_process.c`, and the kernel primitives that read or change
memory.  `σ` is the device state, `δ` is `struct g2d_task_data`. -/
structure G2dEnv (σ δ : Type) where
  G2D_MAX_JOBS : Nat
  G2D_HW_TIMEOUT_MSEC : Nat
  G2D_JOB_STATE_DONE : Nat
  G2D_JOB_STATE_RUNNING : Nat
  G2D_STAMP_STATE_BEGIN : Nat
  G2D_STAMP_STATE_PUSH : Nat
  G2D_STAMP_STATE_DONE : Nat
  G2D_STAMP_STATE_TIMEOUT_HW : Nat
  G2D_STAMP_STATE_ERR_INT : Nat
  G2D_STAMP_STATE_MMUFAULT : Nat
  G2D_STAMP_STATE_SHUTDOWN_S : Nat
  G2D_STAMP_STATE_SHUTDOWN_E : Nat
  /-- The number of the bit `G2D_DEVICE_STATE_IOVMM_DISABLED` of `g2d_dev->state`. -/
  G2D_DEVICE_STATE_IOVMM_DISABLED : Nat
  G2D_FLAG_NONBLOCK : Nat
  G2D_IOC_PROCESS : Nat
  /-- The field `task->job_id`. -/
  task_job_id : σ → TaskRef → Nat
  /-- The field `task->state`. -/
  task_state : σ → TaskRef → Nat
  /-- The field `task->flags`. -/
  task_flags : σ → TaskRef → Nat
  /-- The field `data.flags`. -/
  data_flags : δ → Nat
  is_task_state_active : σ → TaskRef → Bool
  is_task_state_killed : σ → TaskRef → Bool
  mark_task_state_killed : σ → TaskRef → σ
  /-- The call `mod_timer(&task->timer, jiffies + msecs_to_jiffies(msec))`. -/
  mod_timer : σ → TaskRef → Nat → σ
  ktime_get : σ → Nat
  smp_processor_id : σ → Nat
  /-- The call `copy_from_user(&data, uptr, sizeof(data))`: the number of bytes left
  uncopied and the contents of `data` afterwards -/
  copy_from_user : σ → Nat → Nat × δ
  kref_init : σ → TaskRef → σ
  g2d_hw_get_job_state : σ → Nat → Nat
  g2d_hw_finished_job_ids : σ → Nat
  g2d_hw_errint_status : σ → Nat
  g2d_hw_get_current_task : σ → Int
  g2d_hw_global_reset : Mem σ → Mem σ
  g2d_hw_kill_task : Mem σ → Nat → Mem σ
  g2d_hw_push_task : Mem σ → TaskRef → Mem σ
  g2d_hw_clear_job_ids : Mem σ → Nat → Mem σ
  g2d_hw_clear_int : Mem σ → Nat → Mem σ
  g2d_flush_all_tasks : Mem σ → Mem σ
  g2d_finish_task_with_id : Mem σ → Nat → Bool → Mem σ
  g2d_get_active_task_from_id : σ → Int → Option TaskRef
  g2d_get_free_task : Mem σ → Option TaskRef × Mem σ
  g2d_put_free_task : Mem σ → TaskRef → Mem σ
  g2d_get_userdata : Mem σ → TaskRef → δ → Int × Mem σ
  g2d_start_task : Mem σ → TaskRef → Mem σ
  g2d_wait_put_user : Mem σ → TaskRef → Nat → Nat → Int × Mem σ
  /-- The word `g2d_dev->state`. -/
  dev_state : σ → Nat
  /-- A store to `g2d_dev->state`. -/
  set_dev_state : σ → Nat → σ
  /-- The test `list_empty(&g2d_dev->tasks_active)`. -/
  list_empty_tasks_active : σ → Bool
  g2d_prepare_suspend : Mem σ → Mem σ
  iovmm_deactivate : Mem σ → Mem σ
  /-- What the other contexts (interrupt handler, timers, other callers) do to
  the memory while the caller sleeps in `wait_event`, until the next wake-up. -/
  schedule : Mem σ → Mem σ
  /-- The call `debugfs_create_dir("g2d", NULL)` with the store of its result to
  `g2d_dev->debug_root`. -/
  debugfs_create_dir : σ → σ
  /-- The test `!g2d_dev->debug_root`. -/
  debug_root_null : σ → Bool
  /-- The call `debugfs_create_u32("debug", ...)` with the store of its result to
  `g2d_dev->debug`. -/
  debugfs_create_u32 : σ → σ
  /-- The test `!g2d_dev->debug`. -/
  debug_null : σ → Bool
  /-- The call `debugfs_create_file("logs", ...)` with the store of its result to
  `g2d_dev->debug_logs`. -/
  debugfs_create_file : σ → σ
  /-- The test `!g2d_dev->debug_logs`. -/
  debug_logs_null : σ → Bool

variable {σ δ : Type}

/-- Append one call to the record. -/
def World.call (w : World σ) (c : Call) : World σ :=
  { w with trace := w.trace ++ [c] }

/-- Change the memory, leave the record. -/
def World.update (w : World σ) (f : Mem σ → Mem σ) : World σ :=
  { w with mem := f w.mem }

/-- Change the device part of the memory, leave the record. -/
def World.updateDev (w : World σ) (f : σ → σ) : World σ :=
  { w with mem := { w.mem with dev := f w.mem.dev } }

/-- How a run of driver code ends. -/
inductive Outcome (σ α : Type) where
  /-- The code returned the value `a` and left the world `w`. -/
  | returned (a : α) (w : World σ)
  /-- The code dereferenced a NULL pointer: the run goes no further and returns
  nothing; `w` is the world at that point. -/
  | oops (w : World σ)

/-- The world in which a run ended, whether it returned or not. -/
def Outcome.world {α : Type} : Outcome σ α → World σ
  | Outcome.returned _ w => w
  | Outcome.oops w => w

/-- The value a run returned; `none` when it did not return. -/
def Outcome.value {α : Type} : Outcome σ α → Option α
  | Outcome.returned a _ => some a
  | Outcome.oops _ => none

/-- The record of calls when a run ended, whether it returned or not. -/
def Outcome.trace {α : Type} (r : Outcome σ α) : List Call := r.world.trace

/-- The memory when a run ended, whether it returned or not. -/
def Outcome.mem {α : Type} (r : Outcome σ α) : Mem σ := r.world.mem

/-- Sequencing: what follows a run happens only if the run returned. -/
def Outcome.andThen {α β : Type} (r : Outcome σ α) (f : α → World σ → Outcome σ β) :
    Outcome σ β :=
  match r with
  | Outcome.returned a w => f a w
  | Outcome.oops w => Outcome.oops w

/-- Values of C type `u32`. -/
def u32 (n : Nat) : Nat := n % 4294967296

/-- Values of C type `u8`. -/
def u8 (n : Nat) : Nat := n % 256

/-- Values of C type `int` after a wrapping increment (`atomic_inc_return`). -/
def wrapInt32 (i : Int) : Int := (i + 2147483648) % 4294967296 - 2147483648

/-- Linux `EFAULT`. -/
def EFAULT : Int := 14

/-- Linux `EBUSY`. -/
def EBUSY : Int := 16

/-- Linux `IRQ_HANDLED`. -/
def IRQ_HANDLED : Nat := 1

/-! ## g2d_debug.c -/

/-- The function `g2d_dump_task(task)`: it prints the registers and the command
list of the task; only its entry is recorded.  Its first statement reads
`task->g2d_dev`: entered with a NULL task it dereferences NULL. -/
def g2d_dump_task (w : World σ) (task : Option TaskRef) : Outcome σ Unit :=
  let w := w.call (Call.g2d_dump_task task)
  match task with
  -- struct g2d_device *g2d_dev = task->g2d_dev;
  | none => Outcome.oops w
  | some _ => Outcome.returned () w

/-- The function `g2d_stamp_task(task, val)` of `g2d_debug.c`. -/
def g2d_stamp_task (env : G2dEnv σ δ) (w : World σ) (task : Option TaskRef)
    (val : Nat) : Outcome σ Unit :=
  let w := w.call (Call.g2d_stamp_task task val)
  -- int ptr = atomic_inc_return(&p_stamp) & (G2D_MAX_STAMP_SIZE - 1);
  let p := wrapInt32 (w.mem.p_stamp + 1)
  let ptr := (p % (G2D_MAX_STAMP_SIZE : Int)).toNat
  let stamp := w.mem.g2d_stamp_list ptr
  let stamp : G2dStamp :=
    match task with
    | some t =>
        { stamp with
          state := u32 (env.task_state w.mem.dev t)
          job_id := u32 (env.task_job_id w.mem.dev t)
          task := some t }
    | none => { stamp with task := none }
  let stamp : G2dStamp :=
    { stamp with
      time := env.ktime_get w.mem.dev
      val := u32 val
      cpu := u8 (env.smp_processor_id w.mem.dev) }
  let w := w.update fun m =>
    { m with p_stamp := p, g2d_stamp_list := Function.update m.g2d_stamp_list ptr stamp }
  -- when error status, dump the task
  let dumped : Outcome σ Unit :=
    if stamp.val = env.G2D_STAMP_STATE_TIMEOUT_HW ∨
        stamp.val = env.G2D_STAMP_STATE_ERR_INT ∨
        stamp.val = env.G2D_STAMP_STATE_MMUFAULT then
      g2d_dump_task w task
    else Outcome.returned () w
  dumped.andThen fun _ w =>
    if stamp.val = env.G2D_STAMP_STATE_DONE then
      if w.mem.g2d_debug = 1 then
        match task with
        -- the argument task->job_id of the pr_info
        | none => Outcome.oops w
        | some _ => Outcome.returned () (w.call (Call.pr_info_job_took task))
      else if w.mem.g2d_debug = 2 then
        g2d_dump_task w task
      else Outcome.returned () w
    else Outcome.returned () w

/-- The function `g2d_init_debug(g2d_dev)` of `g2d_debug.c`. -/
def g2d_init_debug (env : G2dEnv σ δ) (w : World σ) : World σ :=
  -- atomic_set(&p_stamp, -1);
  let w := w.update fun m => { m with p_stamp := -1 }
  let w := (w.call Call.debugfs_create_dir).updateDev env.debugfs_create_dir
  if env.debug_root_null w.mem.dev then
    w.call (Call.dev_err ErrMsg.debugfs_root_failed)
  else
    let w := (w.call Call.debugfs_create_u32).updateDev env.debugfs_create_u32
    if env.debug_null w.mem.dev then
      w.call (Call.dev_err ErrMsg.debugfs_debug_failed)
    else
      let w := (w.call Call.debugfs_create_file).updateDev env.debugfs_create_file
      if env.debug_logs_null w.mem.dev then
        w.call (Call.dev_err ErrMsg.debugfs_logs_failed)
      else w

/-- One line of the file `logs`, the arguments of the `seq_printf` of
`g2d_stamp_show` in their order: the index, then `cpu`, `job_id`, `val`, `state`
and `ktime_to_us(time)` of the slot. -/
structure ShowLine where
  index : Nat
  cpu : Nat
  job_id : Nat
  val : Nat
  state : Nat
  time_us : Nat
  deriving DecidableEq, Repr

/-- The `seq_printf` of `g2d_stamp_show` for slot `i` holding `stamp`
(`ktime_to_us` divides the nanoseconds by 1000). -/
def g2d_stamp_show_line (i : Nat) (stamp : G2dStamp) : ShowLine :=
  { index := i, cpu := stamp.cpu, job_id := stamp.job_id, val := stamp.val,
    state := stamp.state, time_us := stamp.time / 1000 }

/-- The loop `while (1)` of `g2d_stamp_show`, started with index `i` and the
lines `out` printed so far; `fuel` bounds the number of iterations, and the
result is `none` when the loop has not left by then. -/
def g2d_stamp_show_loop (list : Nat → G2dStamp) (ptr : Nat) :
    Nat → Nat → List ShowLine → Option (List ShowLine)
  | 0, _, _ => none
  | fuel + 1, i, out =>
    -- stamp = &g2d_stamp_list[i]; seq_printf(s, ..., i++, ...);
    let out := out ++ [g2d_stamp_show_line i (list i)]
    let i := i + 1
    -- i &= (G2D_MAX_STAMP_SIZE - 1);
    let i := i &&& (G2D_MAX_STAMP_SIZE - 1)
    if i = ptr then
      -- break
      some out
    else g2d_stamp_show_loop list ptr fuel i out

/-- The function `g2d_stamp_show(s, unused)` of `g2d_debug.c`: the return value
and the lines printed to `s`; `none` when the loop has not left within `fuel`
iterations. -/
def g2d_stamp_show (m : Mem σ) (fuel : Nat) : Option (Int × List ShowLine) :=
  -- int ptr = atomic_read(&p_stamp);
  let ptr := m.p_stamp
  if ptr < 0 then
    some (0, [])
  else
    -- ptr = (ptr + 1) & (G2D_MAX_STAMP_SIZE - 1);
    let ptr := (wrapInt32 (ptr + 1) % (G2D_MAX_STAMP_SIZE : Int)).toNat
    let i := ptr
    match g2d_stamp_show_loop m.g2d_stamp_list ptr fuel i [] with
    | none => none
    | some out => some (0, out)

/-! ## g2d_drv.c -/

/-- The function `g2d_hw_timeout_handler(arg)` with `task = (struct g2d_task *)arg`. -/
def g2d_hw_timeout_handler (env : G2dEnv σ δ) (w : World σ) (task : TaskRef) :
    Outcome σ Unit :=
  let w := w.call (Call.dev_err
    (ErrMsg.time_is_up env.G2D_HW_TIMEOUT_MSEC (env.task_job_id w.mem.dev task)))
  let w := w.call Call.spin_lock_irqsave
  if !env.is_task_state_active w.mem.dev task then
    -- goto out
    Outcome.returned () (w.call Call.spin_unlock_irqrestore)
  else
    let job_id := env.task_job_id w.mem.dev task
    let w := w.call (Call.g2d_hw_get_job_state job_id)
    let job_state := u32 (env.g2d_hw_get_job_state w.mem.dev job_id)
    if job_state = env.G2D_JOB_STATE_DONE then
      -- goto out
      Outcome.returned () (w.call Call.spin_unlock_irqrestore)
    else if env.is_task_state_killed w.mem.dev task then
      let w := (w.call Call.g2d_hw_global_reset).update env.g2d_hw_global_reset
      let w := (w.call Call.g2d_flush_all_tasks).update env.g2d_flush_all_tasks
      let w := w.call (Call.dev_err (ErrMsg.global_reset_not_dead env.G2D_HW_TIMEOUT_MSEC))
      -- goto out
      Outcome.returned () (w.call Call.spin_unlock_irqrestore)
    else
      let w := (w.call (Call.mod_timer task env.G2D_HW_TIMEOUT_MSEC)).updateDev
        fun d => env.mod_timer d task env.G2D_HW_TIMEOUT_MSEC
      if job_state ≠ env.G2D_JOB_STATE_RUNNING then
        -- goto out
        Outcome.returned () (w.call Call.spin_unlock_irqrestore)
      else
        (g2d_stamp_task env w (some task) env.G2D_STAMP_STATE_TIMEOUT_HW).andThen fun _ w =>
          let w := (w.call (Call.mark_task_state_killed task)).updateDev
            fun d => env.mark_task_state_killed d task
          let w := (w.call (Call.g2d_hw_kill_task (env.task_job_id w.mem.dev task))).update
            fun m => env.g2d_hw_kill_task m (env.task_job_id m.dev task)
          Outcome.returned () (w.call Call.spin_unlock_irqrestore)

/-- The function `g2d_device_run(g2d_dev, task)`. -/
def g2d_device_run (env : G2dEnv σ δ) (w : World σ) (task : TaskRef) : Outcome σ Int :=
  let w := (w.call (Call.g2d_hw_push_task task)).update fun m => env.g2d_hw_push_task m task
  (g2d_stamp_task env w (some task) env.G2D_STAMP_STATE_PUSH).andThen fun _ w =>
    Outcome.returned 0 w

/-- The body of `for (id = 0; id < G2D_MAX_JOBS; id++)` in `g2d_irq_handler`,
for one value of `id`. -/
def g2d_irq_finish_step (env : G2dEnv σ δ) (intflags : Nat) (w : World σ) (id : Nat) :
    World σ :=
  if intflags &&& (1 <<< id) = 0 then
    -- continue
    w
  else
    (w.call (Call.g2d_finish_task_with_id id true)).update
      fun m => env.g2d_finish_task_with_id m id true

/-- Lines 112-122 of `g2d_irq_handler`: the finished jobs. -/
def g2d_irq_finished (env : G2dEnv σ δ) (w : World σ) : World σ :=
  let w := w.call Call.g2d_hw_finished_job_ids
  let intflags := u32 (env.g2d_hw_finished_job_ids w.mem.dev)
  if intflags ≠ 0 then
    let w := (List.range env.G2D_MAX_JOBS).foldl (g2d_irq_finish_step env intflags) w
    (w.call (Call.g2d_hw_clear_job_ids intflags)).update
      fun m => env.g2d_hw_clear_job_ids m intflags
  else w

/-- Lines 124-149 of `g2d_irq_handler`: the error interrupt. -/
def g2d_irq_error (env : G2dEnv σ δ) (w : World σ) : Outcome σ Unit :=
  let w := w.call Call.g2d_hw_errint_status
  let errstatus := u32 (env.g2d_hw_errint_status w.mem.dev)
  if errstatus ≠ 0 then
    let w := w.call Call.g2d_hw_get_current_task
    let job_id := env.g2d_hw_get_current_task w.mem.dev
    let w := w.call (Call.g2d_get_active_task_from_id job_id)
    let task := env.g2d_get_active_task_from_id w.mem.dev job_id
    let logged : Outcome σ Unit :=
      if job_id < 0 then
        Outcome.returned () (w.call (Call.dev_err ErrMsg.no_task_running))
      else
        match task with
        | none =>
            Outcome.returned () (w.call (Call.dev_err (ErrMsg.current_job_not_active job_id)))
        | some t =>
            let w := w.call (Call.dev_err (ErrMsg.error_during_job job_id))
            g2d_stamp_task env w (some t) env.G2D_STAMP_STATE_ERR_INT
    logged.andThen fun _ w =>
      let w := (w.call Call.g2d_flush_all_tasks).update env.g2d_flush_all_tasks
      let w := (w.call Call.g2d_hw_global_reset).update env.g2d_hw_global_reset
      Outcome.returned ()
        ((w.call (Call.g2d_hw_clear_int errstatus)).update
          fun m => env.g2d_hw_clear_int m errstatus)
  else Outcome.returned () w

/-- The function `g2d_irq_handler(irq, priv)` with `g2d_dev = priv`. -/
def g2d_irq_handler (env : G2dEnv σ δ) (w : World σ) : Outcome σ Nat :=
  let w := w.call Call.spin_lock
  let w := g2d_irq_finished env w
  (g2d_irq_error env w).andThen fun _ w =>
    let w := w.call Call.spin_unlock
    let w := w.call Call.wake_up_freeze_wait
    Outcome.returned IRQ_HANDLED w

/-- The function `g2d_ioctl(filp, cmd, arg)` with `g2d_dev = filp->private_data->g2d_dev`. -/
def g2d_ioctl (env : G2dEnv σ δ) (w : World σ) (cmd : Nat) (arg : Nat) : Outcome σ Int :=
  -- int ret = 0; switch (cmd), case G2D_IOC_PROCESS
  if cmd = env.G2D_IOC_PROCESS then
    let uptr := arg
    let w := w.call (Call.copy_from_user uptr)
    let copied := env.copy_from_user w.mem.dev uptr
    let data := copied.2
    if copied.1 ≠ 0 then
      let w := w.call (Call.dev_err ErrMsg.failed_to_read_task_data)
      Outcome.returned (-EFAULT) w
    else
      let w := w.call Call.g2d_get_free_task
      let got := env.g2d_get_free_task w.mem
      let w := w.update fun _ => got.2
      match got.1 with
      | none => Outcome.returned (-EBUSY) w
      | some task =>
          let w := (w.call (Call.kref_init task)).updateDev fun d => env.kref_init d task
          let w := w.call (Call.g2d_get_userdata task)
          let filled := env.g2d_get_userdata w.mem task data
          let w := w.update fun _ => filled.2
          let ret := filled.1
          if ret < 0 then
            let w := (w.call (Call.g2d_put_free_task task)).update
              fun m => env.g2d_put_free_task m task
            Outcome.returned ret w
          else
            (g2d_stamp_task env w (some task) env.G2D_STAMP_STATE_BEGIN).andThen fun _ w =>
              let w := (w.call (Call.g2d_start_task task)).update
                fun m => env.g2d_start_task m task
              if env.task_flags w.mem.dev task &&& env.G2D_FLAG_NONBLOCK = 0 then
                let flags := env.data_flags data
                let w := w.call (Call.g2d_wait_put_user task uptr flags)
                let waited := env.g2d_wait_put_user w.mem task uptr flags
                Outcome.returned waited.1 (w.update fun _ => waited.2)
              else
                Outcome.returned ret w
  else
    Outcome.returned 0 w

/-- The function `g2d_iommu_fault_handler(domain, dev, fault_addr, fault_flags,
token)` with `g2d_dev = token`. -/
def g2d_iommu_fault_handler (env : G2dEnv σ δ) (w : World σ) : Outcome σ Int :=
  -- int job_id = g2d_hw_get_current_task(g2d_dev);
  let w := w.call Call.g2d_hw_get_current_task
  let job_id := env.g2d_hw_get_current_task w.mem.dev
  let w := w.call Call.spin_lock_irqsave
  let w := w.call (Call.g2d_get_active_task_from_id job_id)
  let task := env.g2d_get_active_task_from_id w.mem.dev job_id
  let w := w.call Call.spin_unlock_irqrestore
  (g2d_stamp_task env w task env.G2D_STAMP_STATE_MMUFAULT).andThen fun _ w =>
    Outcome.returned 0 w

/-- The kernel primitive `test_and_set_bit(nr, addr)` on the word at `addr`:
the old value of bit `nr` and the word with the bit set. -/
def test_and_set_bit (nr : Nat) (word : Nat) : Bool × Nat :=
  (word.testBit nr, word ||| (1 <<< nr))

/-- The kernel macro `wait_event(g2d_dev->freeze_wait,
list_empty(&g2d_dev->tasks_active))`: the condition is tested, and while it is
false the caller sleeps (`schedule`) and tests again.  `fuel` bounds the number
of sleeps; the second component tells whether the wait has ended by then. -/
def wait_event_tasks_active_empty (env : G2dEnv σ δ) : Nat → World σ → World σ × Bool
  | 0, w => (w, env.list_empty_tasks_active w.mem.dev)
  | fuel + 1, w =>
    if env.list_empty_tasks_active w.mem.dev then (w, true)
    else wait_event_tasks_active_empty env fuel ((w.call Call.schedule).update env.schedule)

/-- Lines 420-423 of `g2d_shutdown`: up to the end of the wait.  The value
tells whether the wait has ended within `fuel` sleeps. -/
def g2d_shutdown_wait (env : G2dEnv σ δ) (fuel : Nat) (w : World σ) : Outcome σ Bool :=
  (g2d_stamp_task env w none env.G2D_STAMP_STATE_SHUTDOWN_S).andThen fun _ w =>
    let w := (w.call Call.g2d_prepare_suspend).update env.g2d_prepare_suspend
    let waited := wait_event_tasks_active_empty env fuel w
    Outcome.returned waited.2 waited.1

/-- Lines 425-428 of `g2d_shutdown`: after the wait. -/
def g2d_shutdown_finish (env : G2dEnv σ δ) (w : World σ) : Outcome σ Unit :=
  let w := w.call (Call.test_and_set_bit env.G2D_DEVICE_STATE_IOVMM_DISABLED)
  let tested := test_and_set_bit env.G2D_DEVICE_STATE_IOVMM_DISABLED (env.dev_state w.mem.dev)
  let w := w.updateDev fun d => env.set_dev_state d tested.2
  let w :=
    if tested.1 then (w.call Call.iovmm_deactivate).update env.iovmm_deactivate
    else w
  g2d_stamp_task env w none env.G2D_STAMP_STATE_SHUTDOWN_E

/-- The function `g2d_shutdown(pdev)` with `g2d_dev = platform_get_drvdata(pdev)`.
The value `true` tells that the function has returned; the value `false` that
it has not left its `wait_event` within `fuel` sleeps, the world being the one
in which it still waits. -/
def g2d_shutdown (env : G2dEnv σ δ) (fuel : Nat) (w : World σ) : Outcome σ Bool :=
  (g2d_shutdown_wait env fuel w).andThen fun ended w =>
    if ended then
      (g2d_shutdown_finish env w).andThen fun _ w => Outcome.returned true w
    else Outcome.returned false w

/-! ## Observations on the record of calls -/

/-- The calls that only print: `g2d_dump_task` and the `pr_info` of
`g2d_stamp_task`. -/
def Call.isDebugPrint : Call → Bool
  | Call.g2d_dump_task _ => true
  | Call.pr_info_job_took _ => true
  | _ => false

/-- A record of calls without the prints. -/
def noPrints (l : List Call) : List Call :=
  l.filter fun c => !c.isDebugPrint

/-- The calls that retire finished jobs: `g2d_finish_task_with_id` and
`g2d_hw_clear_job_ids`. -/
def Call.isFinishOrClear : Call → Bool
  | Call.g2d_finish_task_with_id _ _ => true
  | Call.g2d_hw_clear_job_ids _ => true
  | _ => false

/-- The calls of the error recovery: `g2d_flush_all_tasks`,
`g2d_hw_global_reset` and `g2d_hw_clear_int`. -/
def Call.isErrorRecovery : Call → Bool
  | Call.g2d_flush_all_tasks => true
  | Call.g2d_hw_global_reset => true
  | Call.g2d_hw_clear_int _ => true
  | _ => false

/-- The calls of `g2d_stamp_task`. -/
def Call.isStamp : Call → Bool
  | Call.g2d_stamp_task _ _ => true
  | _ => false

/-- The calls that arm a timer or mark a task killed: `mod_timer` and
`mark_task_state_killed`. -/
def Call.isTimerOrKillMark : Call → Bool
  | Call.mod_timer _ _ => true
  | Call.mark_task_state_killed _ => true
  | _ => false

/-- The calls with which `g2d_hw_timeout_handler` acts on a task or on the
hardware: `mod_timer`, `mark_task_state_killed`, `g2d_hw_kill_task`,
`g2d_hw_global_reset` and `g2d_flush_all_tasks`. -/
def Call.isTimeoutAction : Call → Bool
  | Call.mod_timer _ _ => true
  | Call.mark_task_state_killed _ => true
  | Call.g2d_hw_kill_task _ => true
  | Call.g2d_hw_global_reset => true
  | Call.g2d_flush_all_tasks => true
  | _ => false

/-- The values `val` for which `g2d_stamp_task(task, val)` goes on to read its
task after it wrote the log: the three for which it dumps the task, and DONE,
for which it prints or dumps the task when `g2d_debug` is 1 or 2. -/
def g2d_stamp_reads_task (env : G2dEnv σ δ) (val : Nat) : Prop :=
  u32 val = env.G2D_STAMP_STATE_TIMEOUT_HW ∨ u32 val = env.G2D_STAMP_STATE_ERR_INT ∨
    u32 val = env.G2D_STAMP_STATE_MMUFAULT ∨ u32 val = env.G2D_STAMP_STATE_DONE

instance g2d_stamp_reads_task_decidable (env : G2dEnv σ δ) (val : Nat) :
    Decidable (g2d_stamp_reads_task env val) :=
  inferInstanceAs (Decidable
    (u32 val = env.G2D_STAMP_STATE_TIMEOUT_HW ∨ u32 val = env.G2D_STAMP_STATE_ERR_INT ∨
      u32 val = env.G2D_STAMP_STATE_MMUFAULT ∨ u32 val = env.G2D_STAMP_STATE_DONE))

/-- The slot of `g2d_stamp_list` that `g2d_stamp_task` writes when it finds the
counter `p_stamp` at `c`. -/
def g2d_stamp_slot (c : Int) : Nat :=
  (wrapInt32 (c + 1) % (G2D_MAX_STAMP_SIZE : Int)).toNat

/-- The calls `g2d_stamp_task(task, val)` for the pairs `(task, val)` of a list,
one after the other, each in the world in which the one before it ended: a
call writes the log and the counter before it reads its task. -/
def g2d_stamp_tasks (env : G2dEnv σ δ) (w : World σ) (stamps : List (Option TaskRef × Nat)) :
    World σ :=
  stamps.foldl (fun w a => (g2d_stamp_task env w a.1 a.2).world) w

/-- The value `intflags` that `g2d_irq_handler` reads when started in `w`. -/
def g2d_irq_intflags (env : G2dEnv σ δ) (w : World σ) : Nat :=
  u32 (env.g2d_hw_finished_job_ids w.mem.dev)

/-- The value `errstatus` that `g2d_irq_handler` reads when started in `w`:
the register is read after the finished jobs were retired. -/
def g2d_irq_errstatus (env : G2dEnv σ δ) (w : World σ) : Nat :=
  u32 (env.g2d_hw_errint_status (g2d_irq_finished env (w.call Call.spin_lock)).mem.dev)

/-- The world after `n` runs of `g2d_irq_handler` in a row, started in `w`. -/
def g2d_irq_handler_times (env : G2dEnv σ δ) : Nat → World σ → World σ
  | 0, w => w
  | n + 1, w => g2d_irq_handler_times env n (g2d_irq_handler env w).world

/-- The value `job_state` that `g2d_hw_timeout_handler` reads for `task` when
started in `w`. -/
def g2d_timeout_job_state (env : G2dEnv σ δ) (w : World σ) (task : TaskRef) : Nat :=
  u32 (env.g2d_hw_get_job_state w.mem.dev (env.task_job_id w.mem.dev task))

/-- The memory in which `g2d_ioctl` calls `g2d_get_userdata` for the task it
acquired: after `g2d_get_free_task` and `kref_init`. -/
def g2d_ioctl_acquired_mem (env : G2dEnv σ δ) (w : World σ) (task : TaskRef) : Mem σ :=
  { (env.g2d_get_free_task w.mem).2 with
    dev := env.kref_init (env.g2d_get_free_task w.mem).2.dev task }

/-- What `g2d_get_userdata` answers to `g2d_ioctl(G2D_IOC_PROCESS, arg)` started
in `w` once it acquired `task`: the return code and the memory it leaves. -/
def g2d_ioctl_userdata (env : G2dEnv σ δ) (w : World σ) (arg : Nat) (task : TaskRef) :
    Int × Mem σ :=
  env.g2d_get_userdata (g2d_ioctl_acquired_mem env w task) task
    (env.copy_from_user w.mem.dev arg).2

namespace Demo

/-- Modelled from the spec: `struct g2d_task` (g2d_task.h is not among the
sources).  A task has a job identifier, flags, a state and at most one pending
timeout timer (spec section 3). -/
structure Task where
  job_id : Nat
  flags : Nat
  active : Bool
  killed : Bool
  done : Bool
  error : Bool
  /-- the pending timer, as the delay in msec it was armed with -/
  timer : Option Nat
  deriving DecidableEq, Repr

/-- Modelled from the spec: `struct g2d_device` with the job registers of the
accelerator (g2d.h and g2d_regs.h are not among the sources): the task pool,
the free list, and what the hardware interface of spec section 4.2 reports.
The fields from `user_unreadable` on script the user's side of an ioctl, the
clock, the word `g2d_dev->state` and the debugfs. -/
structure Dev where
  tasks : TaskRef → Task
  tasks_free : List TaskRef
  finished_job_ids : Nat
  errint_status : Nat
  current_task : Int
  job_state : Nat → Nat
  user_unreadable : Bool
  user_data : Nat → Nat
  userdata_ret : Int
  wait_ret : Int
  now : Nat
  /-- the word `g2d_dev->state` -/
  state : Nat := 0
  /-- whether the debugfs entries could be created -/
  debugfs_ok : Bool := true

/-- Set one task of the pool. -/
def Dev.setTask (d : Dev) (t : TaskRef) (v : Task) : Dev :=
  { d with tasks := fun i => if i = t then v else d.tasks i }

/-- Apply a change of the device to the memory. -/
def onDev (f : Dev → Dev) (m : Mem Dev) : Mem Dev := { m with dev := f m.dev }

/-- Modelled from the spec: `g2d_finish_task_with_id` of g2d_task.c (not among
the sources): the active task with this job id is retired, "mark DONE, ...
cancel its timeout timer" (spec 4.3); a job id with no active task is
ignored (spec section 7). -/
def finish_task_with_id (d : Dev) (id : Nat) (success : Bool) : Dev :=
  { d with tasks := fun i =>
      let t := d.tasks i
      if t.active ∧ t.job_id = id then
        { t with active := false, done := success, error := !success, timer := none }
      else t }

/-- Modelled from the spec: `g2d_flush_all_tasks` of g2d_task.c (not among the
sources): "move every active task to a terminal failed state" (spec 4.3). -/
def flush_all_tasks (d : Dev) : Dev :=
  { d with tasks := fun i =>
      let t := d.tasks i
      if t.active then { t with active := false, error := true, timer := none } else t }

/-- Modelled from the spec: `g2d_get_free_task` of g2d_task.c (not among the
sources): "removes and returns a task from the free list, or returns nothing
if none are available" (spec 4.1). -/
def get_free_task (d : Dev) : Option TaskRef × Dev :=
  match d.tasks_free with
  | [] => (none, d)
  | t :: rest => (some t, { d with tasks_free := rest })

/-- Modelled from the spec: `g2d_put_free_task` of g2d_task.c (not among the
sources): "clears task state and returns it to the free list" (spec 4.1). -/
def put_free_task (d : Dev) (t : TaskRef) : Dev :=
  { (d.setTask t { d.tasks t with
        active := false, killed := false, done := false, error := false, timer := none }) with
    tasks_free := t :: d.tasks_free }

/-- Modelled from the spec: the constants, macros and functions that
`g2d_drv.c` takes from g2d.h, g2d_task.[ch], g2d_regs.[ch] and
g2d_uapi_process.[ch] (none among the sources), over `Dev`.  The numeric
values of the constants are chosen here, distinct from one another; they are
not taken from the missing headers.  While the caller of `wait_event` sleeps,
the hardware completes its current job, the job is retired and the next job
becomes the current one. -/
def env : G2dEnv Dev Nat where
  G2D_MAX_JOBS := 16
  G2D_HW_TIMEOUT_MSEC := 500
  G2D_JOB_STATE_DONE := 0
  G2D_JOB_STATE_RUNNING := 3
  G2D_STAMP_STATE_BEGIN := 2
  G2D_STAMP_STATE_PUSH := 3
  G2D_STAMP_STATE_DONE := 5
  G2D_STAMP_STATE_TIMEOUT_HW := 7
  G2D_STAMP_STATE_ERR_INT := 8
  G2D_STAMP_STATE_MMUFAULT := 9
  G2D_STAMP_STATE_SHUTDOWN_S := 10
  G2D_STAMP_STATE_SHUTDOWN_E := 11
  G2D_DEVICE_STATE_IOVMM_DISABLED := 2
  G2D_FLAG_NONBLOCK := 4
  G2D_IOC_PROCESS := 4
  task_job_id := fun d t => (d.tasks t).job_id
  task_state := fun d t =>
    (d.tasks t).active.toNat * 16 + (d.tasks t).done.toNat * 32 +
      (d.tasks t).error.toNat * 64 + (d.tasks t).killed.toNat * 128
  task_flags := fun d t => (d.tasks t).flags
  data_flags := fun data => data
  is_task_state_active := fun d t => (d.tasks t).active
  is_task_state_killed := fun d t => (d.tasks t).killed
  mark_task_state_killed := fun d t => d.setTask t { d.tasks t with killed := true }
  mod_timer := fun d t msec => d.setTask t { d.tasks t with timer := some msec }
  ktime_get := fun d => d.now
  smp_processor_id := fun _ => 0
  copy_from_user := fun d uptr => (if d.user_unreadable then 1 else 0, d.user_data uptr)
  kref_init := fun d _ => d
  g2d_hw_get_job_state := fun d id => d.job_state id
  g2d_hw_finished_job_ids := fun d => d.finished_job_ids
  g2d_hw_errint_status := fun d => d.errint_status
  g2d_hw_get_current_task := fun d => d.current_task
  g2d_hw_global_reset := onDev fun d =>
    { d with finished_job_ids := 0, errint_status := 0, current_task := -1,
             job_state := fun _ => 0 }
  g2d_hw_kill_task := fun m id => onDev
    (fun d => { d with job_state := fun i => if i = id then 0 else d.job_state i }) m
  g2d_hw_push_task := fun m t => onDev
    (fun d => { d with job_state := fun i => if i = (d.tasks t).job_id then 3 else d.job_state i })
    m
  g2d_hw_clear_job_ids := fun m mask => onDev
    (fun d => { d with finished_job_ids := d.finished_job_ids &&& (mask ^^^ 4294967295) }) m
  g2d_hw_clear_int := fun m mask => onDev
    (fun d => { d with errint_status := d.errint_status &&& (mask ^^^ 4294967295) }) m
  g2d_flush_all_tasks := onDev flush_all_tasks
  g2d_finish_task_with_id := fun m id success => onDev (fun d => finish_task_with_id d id success) m
  g2d_get_active_task_from_id := fun d id =>
    (List.range 4).find? fun t => (d.tasks t).active && decide (((d.tasks t).job_id : Int) = id)
  g2d_get_free_task := fun m => ((get_free_task m.dev).1, onDev (fun d => (get_free_task d).2) m)
  g2d_put_free_task := fun m t => onDev (fun d => put_free_task d t) m
  g2d_get_userdata := fun m t data =>
    (m.dev.userdata_ret, onDev (fun d => d.setTask t { d.tasks t with flags := data }) m)
  g2d_start_task := fun m t => onDev
    (fun d => d.setTask t { d.tasks t with active := true, timer := some 500 }) m
  g2d_wait_put_user := fun m t _ _ => (m.dev.wait_ret, onDev (fun d => put_free_task d t) m)
  dev_state := fun d => d.state
  set_dev_state := fun d v => { d with state := v }
  list_empty_tasks_active := fun d => (List.range 4).all fun t => !(d.tasks t).active
  g2d_prepare_suspend := fun m => m
  iovmm_deactivate := fun m => m
  schedule := onDev fun d =>
    { finish_task_with_id d d.current_task.toNat true with current_task := d.current_task + 1 }
  debugfs_create_dir := fun d => d
  debug_root_null := fun d => !d.debugfs_ok
  debugfs_create_u32 := fun d => d
  debug_null := fun d => !d.debugfs_ok
  debugfs_create_file := fun d => d
  debug_logs_null := fun d => !d.debugfs_ok

/-- A task that is in the free pool. -/
def freeTask (job_id : Nat) : Task :=
  { job_id := job_id, flags := 0, active := false, killed := false, done := false,
    error := false, timer := none }

/-- A task that was started: active, with its timeout timer pending. -/
def runningTask (job_id : Nat) : Task :=
  { freeTask job_id with active := true, timer := some 500 }

/-- A pool of four tasks with job ids 0..3: tasks 0 and 1 are running (the
hardware executes job 0 and queues job 1), tasks 2 and 3 are free. -/
def dev0 : Dev where
  tasks := fun t => if t < 2 then runningTask t else freeTask t
  tasks_free := [2, 3]
  finished_job_ids := 0
  errint_status := 0
  current_task := 0
  job_state := fun id => if id = 0 then 3 else if id = 1 then 1 else 0
  user_unreadable := false
  user_data := fun _ => 0
  userdata_ret := 0
  wait_ret := 0
  now := 0

/-- A world around a device state: an empty stamp log (`g2d_init_debug` sets
`p_stamp` to -1) and an empty record of calls. -/
def world (d : Dev) : World Dev where
  mem :=
    { dev := d
      p_stamp := -1
      g2d_stamp_list := fun _ =>
        { time := 0, task := none, state := 0, job_id := 0, val := 0, cpu := 0 }
      g2d_debug := 0 }
  trace := []

/-- As `dev0`, with task 0 already marked killed by an earlier expiry while
the hardware still reports its job RUNNING. -/
def devKilled : Dev :=
  { dev0 with tasks := fun t => if t = 0 then { runningTask 0 with killed := true }
                                else dev0.tasks t }

/-- As `dev0`, with the hardware reporting every job DONE. -/
def devDone : Dev := { dev0 with job_state := fun _ => 0 }

/-- As `dev0`, with an empty free list. -/
def devNoFree : Dev := { dev0 with tasks_free := [] }

/-- As `dev0`, with a task description that `g2d_get_userdata` rejects with
`-EINVAL`. -/
def devBadData : Dev := { dev0 with userdata_ret := -22 }

/-- As `dev0`, with an unreadable user pointer. -/
def devFault : Dev := { dev0 with user_unreadable := true }

/-- The memory `m` with the hardware reporting job 0 RUNNING: what a
`g2d_hw_kill_task` without effect on the job leaves when the timer expires
again. -/
def stillRunning (m : Mem Dev) : Mem Dev :=
  onDev (fun d => { d with job_state := fun id => if id = 0 then 3 else d.job_state id }) m

/-- Whether the timeout timer of task `t` is pending in the device `d`. -/
def timer_pending (t : TaskRef) (d : Dev) : Bool := (d.tasks t).timer.isSome

/-- The world `w` with the hardware raising the finished-job bits `mask`
again; everything else is as `w` has it. -/
def redeliver (w : World Dev) (mask : Nat) : World Dev :=
  w.updateDev fun d => { d with finished_job_ids := mask }

/-- As `dev0`, with the hardware reporting job 0 finished. -/
def devFinished : Dev := { dev0 with finished_job_ids := 1 }

/-- As `dev0`, with no job current in the hardware: `g2d_hw_get_current_task`
answers -1. -/
def devNoJob : Dev := { dev0 with current_task := -1 }

end Demo

end G2D

namespace S2mpg10

/-! ## s2mpg10-regulator.c

The ramp-delay path and the over-current warning setup of the S2MPG10
regulator driver.  The header with the regulator ids, the register addresses
and the field shifts, and the register access functions `s2mpg10_update_reg`
and `s2mpg10_write_reg`, are outside the sources at hand: they are the fields
of `PmicEnv`. -/

/-- The six over-current warning channels that `s2mpg10_ocp_warn` programs, in
the order of the source. -/
inductive OcpChannel
  | b2m
  | b3m
  | b10m
  | b2m_soft
  | b3m_soft
  | b10m_soft
  deriving DecidableEq, Repr

/-- One call made by the embedded regulator code, with its arguments (the bus
handle `s2mpg10->i2c` is left out: there is one chip). -/
inductive Call
  /-- The message "%s: LDOs don't need ramp delay, id : %d". -/
  | pr_info_ldo_no_ramp (reg_id : Int)
  /-- The message "%s: ramp_delay: %d not supported". -/
  | pr_warn_ramp_not_supported (ramp_delay : Int)
  | s2mpg10_update_reg (reg : Nat) (val : Nat) (mask : Nat)
  /-- The messages "B2M_OCP_WARN : 0x%x" to "B10M_SOFT_OCP_WARN : 0x%x". -/
  | pr_info_ocp_warn (channel : OcpChannel) (val : Nat)
  | s2mpg10_write_reg (reg : Nat) (val : Nat)
  /-- The messages "i2c write error setting b2m_ocp_warn" to
  "i2c write error setting b10m_soft_ocp_warn". -/
  | pr_err_ocp_warn (channel : OcpChannel)
  deriving DecidableEq, Repr

/-- The over-current warning fields of `struct s2mpg10_platform_data` that
`s2mpg10_ocp_warn` reads. -/
structure PlatformData where
  b2_ocp_warn_en : Nat
  b2_ocp_warn_cnt : Nat
  b2_ocp_warn_dvs_mask : Nat
  b2_ocp_warn_lvl : Nat
  b3_ocp_warn_en : Nat
  b3_ocp_warn_cnt : Nat
  b3_ocp_warn_dvs_mask : Nat
  b3_ocp_warn_lvl : Nat
  b10_ocp_warn_en : Nat
  b10_ocp_warn_cnt : Nat
  b10_ocp_warn_dvs_mask : Nat
  b10_ocp_warn_lvl : Nat
  b2_soft_ocp_warn_en : Nat
  b2_soft_ocp_warn_cnt : Nat
  b2_soft_ocp_warn_dvs_mask : Nat
  b2_soft_ocp_warn_lvl : Nat
  b3_soft_ocp_warn_en : Nat
  b3_soft_ocp_warn_cnt : Nat
  b3_soft_ocp_warn_dvs_mask : Nat
  b3_soft_ocp_warn_lvl : Nat
  b10_soft_ocp_warn_en : Nat
  b10_soft_ocp_warn_cnt : Nat
  b10_soft_ocp_warn_dvs_mask : Nat
  b10_soft_ocp_warn_lvl : Nat
  deriving DecidableEq, Repr

/-- The chip behind the bus (`ρ`, owned by code outside the sources at hand)
together with the record of the calls made so far. -/
structure World (ρ : Type) where
  chip : ρ
  trace : List Call

/-- What `s2mpg10-regulator.c` uses and does not define in the functions
embedded here: the regulator ids and register addresses of the missing
header, the shifts of the over-current warning fields, and the two register
access functions. -/
structure PmicEnv (ρ : Type) where
  S2MPG10_LDO1 : Int
  S2MPG10_LDO31 : Int
  S2MPG10_BUCK1 : Int
  S2MPG10_BUCK2 : Int
  S2MPG10_BUCK3 : Int
  S2MPG10_BUCK4 : Int
  S2MPG10_BUCK5 : Int
  S2MPG10_BUCK6 : Int
  S2MPG10_BUCK7 : Int
  S2MPG10_BUCK8 : Int
  S2MPG10_BUCK9 : Int
  S2MPG10_BUCK10 : Int
  S2MPG10_PM_DVS_RAMP1 : Nat
  S2MPG10_PM_DVS_RAMP2 : Nat
  S2MPG10_PM_DVS_RAMP3 : Nat
  S2MPG10_OCP_WARN_EN_SHIFT : Nat
  S2MPG10_OCP_WARN_CNT_SHIFT : Nat
  S2MPG10_OCP_WARN_DVS_MASK_SHIFT : Nat
  S2MPG10_OCP_WARN_LVL_SHIFT : Nat
  S2MPG10_PM_B2M_OCP_WARN : Nat
  S2MPG10_PM_B3M_OCP_WARN : Nat
  S2MPG10_PM_B10M_OCP_WARN : Nat
  S2MPG10_PM_B2M_SOFT_OCP_WARN : Nat
  S2MPG10_PM_B3M_SOFT_OCP_WARN : Nat
  S2MPG10_PM_B10M_SOFT_OCP_WARN : Nat
  /-- The call `s2mpg10_update_reg(i2c, reg, val, mask)`: the return code and
  the chip afterwards. -/
  s2mpg10_update_reg : ρ → Nat → Nat → Nat → Int × ρ
  /-- The call `s2mpg10_write_reg(i2c, reg, val)`: the return code and the chip
  afterwards. -/
  s2mpg10_write_reg : ρ → Nat → Nat → Int × ρ

variable {ρ : Type}

/-- Append one call to the record. -/
def World.call (w : World ρ) (c : Call) : World ρ :=
  { w with trace := w.trace ++ [c] }

/-- Linux `EINVAL`. -/
def EINVAL : Int := 22

/-- The loop `while (true)` of `get_ramp_delay`, entered with the values
`ramp_delay` and `cnt` of the two variables; `fuel` bounds the number of
iterations, and the result is `none` when the loop has not left by then.
The shift of a signed `int` is the arithmetic one. -/
def get_ramp_delay_loop : Nat → Int → Nat → Option Nat
  | 0, _, _ => none
  | fuel + 1, ramp_delay, cnt =>
    -- ramp_delay = ramp_delay >> 1;
    let ramp_delay := ramp_delay >>> (1 : Nat)
    if ramp_delay = 0 then
      -- break
      some cnt
    else
      -- cnt++ on an unsigned char
      get_ramp_delay_loop fuel ramp_delay ((cnt + 1) % 256)

/-- The function `get_ramp_delay(ramp_delay)`; `none` when its loop has not
left within `fuel` iterations.  The division of C truncates towards zero. -/
def get_ramp_delay (fuel : Nat) (ramp_delay : Int) : Option Int :=
  -- ramp_delay /= 6;
  let ramp_delay := Int.tdiv ramp_delay 6
  match get_ramp_delay_loop fuel ramp_delay 0 with
  | none => none
  | some cnt => some (cnt : Int)

/-- The first `switch (reg_id)` of `s2m_set_ramp_delay`: the value it gives to
`ramp_shift`, or `none` on the `default` label. -/
def ramp_shift_switch (env : PmicEnv ρ) (reg_id : Int) : Option Nat :=
  if reg_id = env.S2MPG10_BUCK4 ∨ reg_id = env.S2MPG10_BUCK8 then some 6
  else if reg_id = env.S2MPG10_BUCK3 ∨ reg_id = env.S2MPG10_BUCK7 then some 4
  else if reg_id = env.S2MPG10_BUCK2 ∨ reg_id = env.S2MPG10_BUCK6 ∨
      reg_id = env.S2MPG10_BUCK10 then some 2
  else if reg_id = env.S2MPG10_BUCK1 ∨ reg_id = env.S2MPG10_BUCK5 ∨
      reg_id = env.S2MPG10_BUCK9 then some 0
  else none

/-- The second `switch (reg_id)` of `s2m_set_ramp_delay`: the value it gives to
`ramp_addr`, or `none` on the `default` label. -/
def ramp_addr_switch (env : PmicEnv ρ) (reg_id : Int) : Option Nat :=
  if reg_id = env.S2MPG10_BUCK1 ∨ reg_id = env.S2MPG10_BUCK2 ∨
      reg_id = env.S2MPG10_BUCK3 ∨ reg_id = env.S2MPG10_BUCK4 then
    some env.S2MPG10_PM_DVS_RAMP1
  else if reg_id = env.S2MPG10_BUCK5 ∨ reg_id = env.S2MPG10_BUCK6 ∨
      reg_id = env.S2MPG10_BUCK7 ∨ reg_id = env.S2MPG10_BUCK8 then
    some env.S2MPG10_PM_DVS_RAMP2
  else if reg_id = env.S2MPG10_BUCK9 ∨ reg_id = env.S2MPG10_BUCK10 then
    some env.S2MPG10_PM_DVS_RAMP3
  else none

/-- The function `s2m_set_ramp_delay(rdev, ramp_delay)` with
`reg_id = rdev_get_id(rdev)`: the return code and the world afterwards;
`none` when the loop of `get_ramp_delay` has not left within `fuel`
iterations. -/
def s2m_set_ramp_delay (env : PmicEnv ρ) (fuel : Nat) (w : World ρ) (reg_id : Int)
    (ramp_delay : Int) : Option (Int × World ρ) :=
  let ramp_mask : Nat := 0x03
  if env.S2MPG10_LDO1 ≤ reg_id ∧ reg_id ≤ env.S2MPG10_LDO31 then
    some (0, w.call (Call.pr_info_ldo_no_ramp reg_id))
  else
    -- ramp_value = get_ramp_delay(ramp_delay / 1000);
    match get_ramp_delay fuel (Int.tdiv ramp_delay 1000) with
    | none => none
    | some ret =>
      let ramp_value : Nat := (ret % 4294967296).toNat
      let w := if ramp_value > 4 then w.call (Call.pr_warn_ramp_not_supported ramp_delay) else w
      match ramp_shift_switch env reg_id with
      | none => some (-EINVAL, w)
      | some ramp_shift =>
        match ramp_addr_switch env reg_id with
        | none => some (-EINVAL, w)
        | some ramp_addr =>
          let w := w.call (Call.s2mpg10_update_reg ramp_addr
            ((ramp_value <<< ramp_shift) % 4294967296) (ramp_mask <<< ramp_shift))
          let r := env.s2mpg10_update_reg w.chip ramp_addr
            ((ramp_value <<< ramp_shift) % 4294967296) (ramp_mask <<< ramp_shift)
          some (r.1, { w with chip := r.2 })

/-- The three statements that follow each computation of `val` in
`s2mpg10_ocp_warn`: the `pr_info` of the value, the `s2mpg10_write_reg` to the
register of the channel, and the `pr_err` when the write fails. -/
def ocp_warn_write (env : PmicEnv ρ) (w : World ρ) (channel : OcpChannel) (reg : Nat)
    (val : Nat) : World ρ :=
  let w := w.call (Call.pr_info_ocp_warn channel val)
  let w := w.call (Call.s2mpg10_write_reg reg val)
  let r := env.s2mpg10_write_reg w.chip reg val
  let w := { w with chip := r.2 }
  if r.1 ≠ 0 then w.call (Call.pr_err_ocp_warn channel) else w

/-- The function `s2mpg10_ocp_warn(s2mpg10, pdata)`; `val` is a `u8`. -/
def s2mpg10_ocp_warn (env : PmicEnv ρ) (w : World ρ) (pdata : PlatformData) : World ρ :=
  let val := ((pdata.b2_ocp_warn_en <<< env.S2MPG10_OCP_WARN_EN_SHIFT) |||
    (pdata.b2_ocp_warn_cnt <<< env.S2MPG10_OCP_WARN_CNT_SHIFT) |||
    (pdata.b2_ocp_warn_dvs_mask <<< env.S2MPG10_OCP_WARN_DVS_MASK_SHIFT) |||
    (pdata.b2_ocp_warn_lvl <<< env.S2MPG10_OCP_WARN_LVL_SHIFT)) % 256
  let w := ocp_warn_write env w OcpChannel.b2m env.S2MPG10_PM_B2M_OCP_WARN val
  let val := ((pdata.b3_ocp_warn_en <<< env.S2MPG10_OCP_WARN_EN_SHIFT) |||
    (pdata.b3_ocp_warn_cnt <<< env.S2MPG10_OCP_WARN_CNT_SHIFT) |||
    (pdata.b3_ocp_warn_dvs_mask <<< env.S2MPG10_OCP_WARN_DVS_MASK_SHIFT) |||
    (pdata.b3_ocp_warn_lvl <<< env.S2MPG10_OCP_WARN_LVL_SHIFT)) % 256
  let w := ocp_warn_write env w OcpChannel.b3m env.S2MPG10_PM_B3M_OCP_WARN val
  let val := ((pdata.b10_ocp_warn_en <<< env.S2MPG10_OCP_WARN_EN_SHIFT) |||
    (pdata.b10_ocp_warn_cnt <<< env.S2MPG10_OCP_WARN_CNT_SHIFT) |||
    (pdata.b10_ocp_warn_dvs_mask <<< env.S2MPG10_OCP_WARN_DVS_MASK_SHIFT) |||
    (pdata.b10_ocp_warn_lvl <<< env.S2MPG10_OCP_WARN_LVL_SHIFT)) % 256
  let w := ocp_warn_write env w OcpChannel.b10m env.S2MPG10_PM_B10M_OCP_WARN val
  let val := ((pdata.b2_soft_ocp_warn_en <<< env.S2MPG10_OCP_WARN_EN_SHIFT) |||
    (pdata.b2_soft_ocp_warn_cnt <<< env.S2MPG10_OCP_WARN_CNT_SHIFT) |||
    (pdata.b2_soft_ocp_warn_dvs_mask <<< env.S2MPG10_OCP_WARN_DVS_MASK_SHIFT) |||
    (pdata.b2_soft_ocp_warn_lvl <<< env.S2MPG10_OCP_WARN_LVL_SHIFT)) % 256
  let w := ocp_warn_write env w OcpChannel.b2m_soft env.S2MPG10_PM_B2M_SOFT_OCP_WARN val
  let val := ((pdata.b3_soft_ocp_warn_en <<< env.S2MPG10_OCP_WARN_EN_SHIFT) |||
    (pdata.b3_soft_ocp_warn_cnt <<< env.S2MPG10_OCP_WARN_CNT_SHIFT) |||
    (pdata.b3_soft_ocp_warn_dvs_mask <<< env.S2MPG10_OCP_WARN_DVS_MASK_SHIFT) |||
    (pdata.b3_soft_ocp_warn_lvl <<< env.S2MPG10_OCP_WARN_LVL_SHIFT)) % 256
  let w := ocp_warn_write env w OcpChannel.b3m_soft env.S2MPG10_PM_B3M_SOFT_OCP_WARN val
  -- the source reads pdata->b10_ocp_warn_en here
  let val := ((pdata.b10_ocp_warn_en <<< env.S2MPG10_OCP_WARN_EN_SHIFT) |||
    (pdata.b10_soft_ocp_warn_cnt <<< env.S2MPG10_OCP_WARN_CNT_SHIFT) |||
    (pdata.b10_soft_ocp_warn_dvs_mask <<< env.S2MPG10_OCP_WARN_DVS_MASK_SHIFT) |||
    (pdata.b10_soft_ocp_warn_lvl <<< env.S2MPG10_OCP_WARN_LVL_SHIFT)) % 256
  ocp_warn_write env w OcpChannel.b10m_soft env.S2MPG10_PM_B10M_SOFT_OCP_WARN val

/-! ### Observations -/

/-- The calls that change a register of the chip. -/
def Call.isRegisterUpdate : Call → Bool
  | Call.s2mpg10_update_reg _ _ _ => true
  | Call.s2mpg10_write_reg _ _ => true
  | _ => false

/-- The id of buck `n`, for `n` from 1 to 10 (`S2MPG10_BUCK1` to
`S2MPG10_BUCK10`). -/
def PmicEnv.buck (env : PmicEnv ρ) (n : Nat) : Int :=
  match n with
  | 1 => env.S2MPG10_BUCK1
  | 2 => env.S2MPG10_BUCK2
  | 3 => env.S2MPG10_BUCK3
  | 4 => env.S2MPG10_BUCK4
  | 5 => env.S2MPG10_BUCK5
  | 6 => env.S2MPG10_BUCK6
  | 7 => env.S2MPG10_BUCK7
  | 8 => env.S2MPG10_BUCK8
  | 9 => env.S2MPG10_BUCK9
  | _ => env.S2MPG10_BUCK10

/-- The register of the ramp field of buck `n` as the claim has it:
`DVS_RAMP1` for bucks 1 to 4, `DVS_RAMP2` for bucks 5 to 8, `DVS_RAMP3` for
bucks 9 and 10. -/
def PmicEnv.buck_ramp_reg (env : PmicEnv ρ) (n : Nat) : Nat :=
  if n ≤ 4 then env.S2MPG10_PM_DVS_RAMP1
  else if n ≤ 8 then env.S2MPG10_PM_DVS_RAMP2
  else env.S2MPG10_PM_DVS_RAMP3

/-- The shift of the ramp field of buck `n` as the claim has it:
`2 * ((n - 1) mod 4)`. -/
def buck_ramp_shift (n : Nat) : Nat := 2 * ((n - 1) % 4)

/-- The value that `s2mpg10_ocp_warn` builds from four fields, as a `u8`. -/
def ocp_warn_val (env : PmicEnv ρ) (en cnt dvs_mask lvl : Nat) : Nat :=
  ((en <<< env.S2MPG10_OCP_WARN_EN_SHIFT) ||| (cnt <<< env.S2MPG10_OCP_WARN_CNT_SHIFT) |||
    (dvs_mask <<< env.S2MPG10_OCP_WARN_DVS_MASK_SHIFT) |||
    (lvl <<< env.S2MPG10_OCP_WARN_LVL_SHIFT)) % 256

namespace Demo

/-- A chip behind the bus for running the code: its register file (the
register map of the S2MPG10 is not among the sources). -/
structure Chip where
  regs : Nat → Nat

/-- An instance of `PmicEnv` over `Chip`: the constants of the missing header
and the two register access functions.  The numeric values are chosen here,
the LDO ids before the BUCK ids and all registers distinct; they are not
taken from the missing header.  A write stores the low eight bits, an update
replaces the bits of the mask; neither fails. -/
def env : PmicEnv Chip where
  S2MPG10_LDO1 := 0
  S2MPG10_LDO31 := 30
  S2MPG10_BUCK1 := 31
  S2MPG10_BUCK2 := 32
  S2MPG10_BUCK3 := 33
  S2MPG10_BUCK4 := 34
  S2MPG10_BUCK5 := 35
  S2MPG10_BUCK6 := 36
  S2MPG10_BUCK7 := 37
  S2MPG10_BUCK8 := 38
  S2MPG10_BUCK9 := 39
  S2MPG10_BUCK10 := 40
  S2MPG10_PM_DVS_RAMP1 := 17
  S2MPG10_PM_DVS_RAMP2 := 18
  S2MPG10_PM_DVS_RAMP3 := 19
  S2MPG10_OCP_WARN_EN_SHIFT := 7
  S2MPG10_OCP_WARN_CNT_SHIFT := 6
  S2MPG10_OCP_WARN_DVS_MASK_SHIFT := 5
  S2MPG10_OCP_WARN_LVL_SHIFT := 0
  S2MPG10_PM_B2M_OCP_WARN := 64
  S2MPG10_PM_B3M_OCP_WARN := 65
  S2MPG10_PM_B10M_OCP_WARN := 66
  S2MPG10_PM_B2M_SOFT_OCP_WARN := 67
  S2MPG10_PM_B3M_SOFT_OCP_WARN := 68
  S2MPG10_PM_B10M_SOFT_OCP_WARN := 69
  s2mpg10_update_reg := fun c reg val mask =>
    (0, { regs := fun r =>
      if r = reg then (c.regs r &&& (mask ^^^ 255)) ||| (val &&& mask) else c.regs r })
  s2mpg10_write_reg := fun c reg val =>
    (0, { regs := fun r => if r = reg then val % 256 else c.regs r })

/-- A chip with every register zero, and an empty record of calls. -/
def world : World Chip where
  chip := { regs := fun _ => 0 }
  trace := []

/-- Platform data with every over-current warning field zero. -/
def pdata0 : PlatformData where
  b2_ocp_warn_en := 0
  b2_ocp_warn_cnt := 0
  b2_ocp_warn_dvs_mask := 0
  b2_ocp_warn_lvl := 0
  b3_ocp_warn_en := 0
  b3_ocp_warn_cnt := 0
  b3_ocp_warn_dvs_mask := 0
  b3_ocp_warn_lvl := 0
  b10_ocp_warn_en := 0
  b10_ocp_warn_cnt := 0
  b10_ocp_warn_dvs_mask := 0
  b10_ocp_warn_lvl := 0
  b2_soft_ocp_warn_en := 0
  b2_soft_ocp_warn_cnt := 0
  b2_soft_ocp_warn_dvs_mask := 0
  b2_soft_ocp_warn_lvl := 0
  b3_soft_ocp_warn_en := 0
  b3_soft_ocp_warn_cnt := 0
  b3_soft_ocp_warn_dvs_mask := 0
  b3_soft_ocp_warn_lvl := 0
  b10_soft_ocp_warn_en := 0
  b10_soft_ocp_warn_cnt := 0
  b10_soft_ocp_warn_dvs_mask := 0
  b10_soft_ocp_warn_lvl := 0

/-- As `pdata0`, with the enable of the B10M channel set and the enable of the
B10M_SOFT channel clear. -/
def pdataHard : PlatformData := { pdata0 with b10_ocp_warn_en := 1 }

/-- As `pdata0`, with the enable of the B10M_SOFT channel set and the enable of
the B10M channel clear. -/
def pdataSoft : PlatformData := { pdata0 with b10_soft_ocp_warn_en := 1 }

end Demo

end S2mpg10

namespace Max77759

/-! ## max77759_contaminant.c

The contaminant detection of the MAX77759 Type-C port controller.  The
register map (`tcpci.h`, `tcpci_max77759_vendor_reg.h`), the register access
helpers (`max77759_helper.h`), the log buffer and `maxq_query_contaminant`
are outside the sources at hand: they are the fields of `TcpcEnv`.  The
record of calls lists the calls to them and the entries of the functions of
the file itself. -/

/-- The messages of `logbuffer_log` in `max77759_contaminant.c`, one
constructor per format string, with the values printed. -/
inductive LogMsg
  /-- The message "ADC ERROR: SCALE UNKNOWN". -/
  | adc_error_scale_unknown
  /-- The message "Contaminant: ADC %u". -/
  | adc (fladc : Nat)
  /-- The message "Contaminant: SBU read". -/
  | sbu_read
  /-- The message "Contaminant: SBU read %#x". -/
  | sbu_read_mv (mv : Int)
  /-- The message "Contaminant: enable comparators". -/
  | enable_comparators
  /-- The message "Contaminant: VENDOR_CC_STATUS2: %u". -/
  | vendor_cc_status2 (val : Nat)
  /-- The message "Contaminant: vcc2_cc1:%u vcc2_cc2:%u". -/
  | vcc2 (cc1 cc2 : Nat)
  /-- The message "Contaminant: AP SINK detected". -/
  | ap_sink_detected
  /-- The message "Contaminant: cc1_k:%u cc2_k:%u". -/
  | cc_k (cc1_k cc2_k : Int)
  /-- The message "Contaminant: sbu1_k:%u sbu2_k:%u". -/
  | sbu_k (sbu1_k sbu2_k : Int)
  /-- The message "Contaminant: AP contaminant detected". -/
  | ap_contaminant_detected
  /-- The message "Contaminant: AP floating cable detected". -/
  | ap_floating_cable_detected
  /-- The message "Contaminant: AP contaminant NOT detected". -/
  | ap_contaminant_not_detected
  /-- The message "Contaminant: TCPC_VENDOR_CC_CTRL1 %u". -/
  | vendor_cc_ctrl1 (val : Nat)
  /-- The message "Contaminant: TCPC_VENDOR_CC_CTRL2 %u". -/
  | vendor_cc_ctrl2 (val : Nat)
  /-- The message "Contaminant: Dry detecion enabled". -/
  | dry_detection_enabled
  /-- The message "Contaminant: Query Maxq". -/
  | query_maxq
  /-- The message "Contaminant: Query Maxq vcc2_1:%u vcc2_2:%u". -/
  | query_maxq_vcc2 (cc1 cc2 : Nat)
  /-- The message "Contaminant: Maxq errors". -/
  | maxq_errors
  /-- The message "Contaminant: CC_STATUS: %#x". -/
  | cc_status (val : Nat)
  /-- The message "Contaminant: Looking for connection". -/
  | looking_for_connection
  /-- The message "Contaminant: Check if wet". -/
  | check_if_wet
  /-- The message "Contaminant: Check if dry". -/
  | check_if_dry
  /-- The message "Contaminant: Contaminant detection enabled". -/
  | contaminant_detection_enabled
  deriving DecidableEq, Repr

/-- One call made by the embedded code, with its arguments (the handles
`regmap` and `log` are left out: there is one chip). -/
inductive Call
  | max77759_update_bits8 (reg mask val : Nat)
  | max77759_read8 (reg : Nat)
  | max77759_write8 (reg val : Nat)
  | MAX77759_LOG_REGISTER (reg : Nat)
  | usleep_range (min max : Int)
  | logbuffer_log (msg : LogMsg)
  | maxq_query_contaminant (cc1_raw cc2_raw sbu1_raw sbu2_raw : Int)
      (cc1_vufp_rd0p5 cc2_vufp_rd0p5 : Nat) (detect_type : Nat)
  | read_resistance_kohm (channel : Nat) (sleep_msec : Int) (raw : Bool)
  | read_comparators
  | detect_contaminant
  | maxq_detect_contaminant
  | enable_dry_detection
  | enable_contaminant_detection
  deriving DecidableEq, Repr

/-- The chip behind the register map (`ρ`, owned by code outside the sources at
hand), the field `contaminant->state`, the file-scope switch
`contaminant_detect_maxq`, and the record of the calls made so far. -/
structure World (ρ : Type) where
  chip : ρ
  /-- The field `contaminant->state`, an `enum contamiant_state`. -/
  state : Int
  /-- The variable `static bool contaminant_detect_maxq`. -/
  contaminant_detect_maxq : Bool
  trace : List Call

/-- What `max77759_contaminant.c` uses and does not define: the registers,
masks and values of the missing headers, the register access helpers, the
sleep, and the query to the MAXQ firmware. -/
structure TcpcEnv (ρ : Type) where
  TCPC_VENDOR_ADC_CTRL1 : Nat
  ADCINSEL_MASK : Nat
  ADC_CHANNEL_OFFSET : Nat
  ADCEN : Nat
  TCPC_VENDOR_FLADC_STATUS : Nat
  TCPC_VENDOR_CC_CTRL1 : Nat
  TCPC_VENDOR_CC_CTRL2 : Nat
  TCPC_VENDOR_CC_CTRL3 : Nat
  CCLPMODESEL_MASK : Nat
  ULTRA_LOW_POWER_MODE : Nat
  LOW_POWER_MODE_DISABLE : Nat
  AUTO_ULTRA_LOWER_MODE : Nat
  CCOVPDIS : Nat
  SBUOVPDIS : Nat
  SBURPCTRL : Nat
  TCPC_VENDOR_SBUSW_CTRL : Nat
  CCRPCTRL_MASK : Nat
  UA_80_SRC : Nat
  CCCOMPEN : Nat
  CCCONNDRY : Nat
  TCPC_TCPC_CTRL : Nat
  TCPC_TCPC_CTRL_ORIENTATION : Nat
  TCPC_TCPC_CTRL_EN_LK4CONN_ALRT : Nat
  PLUG_ORNT_CC1 : Nat
  PLUG_ORNT_CC2 : Nat
  VENDOR_CC_STATUS2 : Nat
  CC1_VUFP_RD0P5 : Nat
  CC2_VUFP_RD0P5 : Nat
  TCPC_COMMAND : Nat
  TCPC_CMD_LOOK4CONNECTION : Nat
  MAXQ_DETECT_TYPE_CC_AND_SBU : Nat
  MAXQ_DETECT_TYPE_SBU_ONLY : Nat
  TCPC_CC_STATUS : Nat
  TCPC_CC_STATUS_TOGGLING : Nat
  TCPC_CC_STATUS_TERM : Nat
  TCPC_CC_STATUS_TERM_RP : Nat
  TCPC_CC_STATUS_CC1_MASK : Nat
  TCPC_CC_STATUS_CC2_MASK : Nat
  TCPC_CC_STATE_WTRSEL : Nat
  TCPC_CC_STATE_SRC_OPEN : Nat
  CCWTRDEB_MASK : Nat
  CCWTRDEB_1MS : Nat
  CCWTRDEB_SHIFT : Nat
  CCWTRSEL_MASK : Nat
  CCWTRSEL_1V : Nat
  CCWTRSEL_SHIFT : Nat
  TCPC_VENDOR_ALERT_MASK2 : Nat
  MSK_FLASH_ADCINT : Nat
  /-- The call `max77759_update_bits8(regmap, reg, mask, val)`: the return code
  and the chip afterwards. -/
  max77759_update_bits8 : ρ → Nat → Nat → Nat → Int × ρ
  /-- The call `max77759_read8(regmap, reg, &var)` with `var` holding `old`: the
  return code, the content of `var` afterwards, and the chip afterwards. -/
  max77759_read8 : ρ → Nat → Nat → Int × Nat × ρ
  /-- The call `max77759_write8(regmap, reg, val)`: the return code and the chip
  afterwards. -/
  max77759_write8 : ρ → Nat → Nat → Int × ρ
  /-- The statement `MAX77759_LOG_REGISTER(regmap, reg, log)`. -/
  MAX77759_LOG_REGISTER : ρ → Nat → ρ
  /-- The call `usleep_range(min, max)`: what the chip does while the caller
  sleeps. -/
  usleep_range : ρ → Int → Int → ρ
  /-- The call `maxq_query_contaminant(cc1_raw, cc2_raw, sbu1_raw, sbu2_raw,
  cc1_vufp_rd0p5, cc2_vufp_rd0p5, detect_type, 0)`: the return code and the chip
  afterwards. -/
  maxq_query_contaminant : ρ → Int → Int → Int → Int → Nat → Nat → Nat → Int × ρ
  /-- The content of a local `u8` that was declared without an initial value,
  before its first store. -/
  indeterminate : ρ → Nat

variable {ρ : Type}

/-- The state `NOT_DETECTED` of `enum contamiant_state`. -/
def NOT_DETECTED : Int := 0

/-- The state `DETECTED` of `enum contamiant_state`. -/
def DETECTED : Int := 1

/-- The state `FLOATING_CABLE` of `enum contamiant_state`. -/
def FLOATING_CABLE : Int := 2

/-- The state `SINK` of `enum contamiant_state`. -/
def SINK : Int := 3

/-- The state `DISABLED` of `enum contamiant_state`. -/
def DISABLED : Int := 4

/-- The channel `CC1_SCALE1` of `enum fladc_select`. -/
def CC1_SCALE1 : Nat := 1

/-- The channel `CC1_SCALE2` of `enum fladc_select`. -/
def CC1_SCALE2 : Nat := 2

/-- The channel `CC2_SCALE1` of `enum fladc_select`. -/
def CC2_SCALE1 : Nat := 3

/-- The channel `CC2_SCALE2` of `enum fladc_select`. -/
def CC2_SCALE2 : Nat := 4

/-- The channel `SBU1` of `enum fladc_select`. -/
def SBU1 : Nat := 5

/-- The channel `SBU2` of `enum fladc_select`. -/
def SBU2 : Nat := 6

/-- The constant `FLADC_1uA_LSB_MV`. -/
def FLADC_1uA_LSB_MV : Int := 100

/-- The constant `FLADC_CC_HIGH_RANGE_LSB_MV`. -/
def FLADC_CC_HIGH_RANGE_LSB_MV : Int := 208

/-- The constant `FLADC_CC_LOW_RANGE_LSB_MV`. -/
def FLADC_CC_LOW_RANGE_LSB_MV : Int := 126

/-- The constant `FLADC_1uA_CC_OFFSET_MV`. -/
def FLADC_1uA_CC_OFFSET_MV : Int := 300

/-- The constant `FLADC_CC_HIGH_RANGE_OFFSET_MV`. -/
def FLADC_CC_HIGH_RANGE_OFFSET_MV : Int := 624

/-- The constant `FLADC_CC_LOW_RANGE_OFFSET_MV`. -/
def FLADC_CC_LOW_RANGE_OFFSET_MV : Int := 378

/-- The constant `CONTAMINANT_THRESHOLD_SBU_K`. -/
def CONTAMINANT_THRESHOLD_SBU_K : Int := 1000

/-- The constant `CONTAMINANT_THRESHOLD_CC_K`. -/
def CONTAMINANT_THRESHOLD_CC_K : Int := 1000

/-- The constant `READ1_SLEEP_MS`. -/
def READ1_SLEEP_MS : Int := 10

/-- The constant `READ2_SLEEP_MS`. -/
def READ2_SLEEP_MS : Int := 5

/-- Append one call to the record. -/
def World.call (w : World ρ) (c : Call) : World ρ :=
  { w with trace := w.trace ++ [c] }

/-- The call `max77759_update_bits8(regmap, reg, mask, val)`, recorded. -/
def update_bits8 (env : TcpcEnv ρ) (w : World ρ) (reg mask val : Nat) : Int × World ρ :=
  let w := w.call (Call.max77759_update_bits8 reg mask val)
  let r := env.max77759_update_bits8 w.chip reg mask val
  (r.1, { w with chip := r.2 })

/-- The call `max77759_read8(regmap, reg, &var)` with `var` a `u8` holding `old`,
recorded: the return code, the content of `var` afterwards, and the world. -/
def read8 (env : TcpcEnv ρ) (w : World ρ) (reg : Nat) (old : Nat) : Int × Nat × World ρ :=
  let w := w.call (Call.max77759_read8 reg)
  let r := env.max77759_read8 w.chip reg old
  (r.1, r.2.1 % 256, { w with chip := r.2.2 })

/-- The call `max77759_write8(regmap, reg, val)`, recorded. -/
def write8 (env : TcpcEnv ρ) (w : World ρ) (reg val : Nat) : Int × World ρ :=
  let w := w.call (Call.max77759_write8 reg val)
  let r := env.max77759_write8 w.chip reg val
  (r.1, { w with chip := r.2 })

/-- The statement `MAX77759_LOG_REGISTER(regmap, reg, log)`, recorded. -/
def log_register (env : TcpcEnv ρ) (w : World ρ) (reg : Nat) : World ρ :=
  let w := w.call (Call.MAX77759_LOG_REGISTER reg)
  { w with chip := env.MAX77759_LOG_REGISTER w.chip reg }

/-- The call `usleep_range(min, max)`, recorded. -/
def usleep_range (env : TcpcEnv ρ) (w : World ρ) (min max : Int) : World ρ :=
  let w := w.call (Call.usleep_range min max)
  { w with chip := env.usleep_range w.chip min max }

/-- The call `logbuffer_log(log, ...)`, recorded. -/
def logbuffer_log (w : World ρ) (msg : LogMsg) : World ρ :=
  w.call (Call.logbuffer_log msg)

/-- The function `adc_to_mv(contaminant, channel, ua_src, fladc)`. -/
def adc_to_mv (w : World ρ) (channel : Nat) (ua_src : Bool) (fladc : Nat) : Int × World ρ :=
  -- SBU channels only have 1 scale with 1uA.
  if ua_src = true ∧ (channel = CC1_SCALE1 ∨ channel = CC2_SCALE1 ∨ channel = SBU1 ∨
      channel = SBU2) then
    (FLADC_1uA_CC_OFFSET_MV + (fladc : Int) * FLADC_1uA_LSB_MV, w)
  else if ua_src = false ∧ (channel = CC1_SCALE1 ∨ channel = CC2_SCALE1) then
    (FLADC_CC_HIGH_RANGE_OFFSET_MV + (fladc : Int) * FLADC_CC_HIGH_RANGE_LSB_MV, w)
  else if ua_src = false ∧ (channel = CC1_SCALE2 ∨ channel = CC2_SCALE2) then
    (FLADC_CC_LOW_RANGE_OFFSET_MV + (fladc : Int) * FLADC_CC_LOW_RANGE_LSB_MV, w)
  else
    ((fladc : Int), logbuffer_log w LogMsg.adc_error_scale_unknown)

/-- The function `status_check(reg, mask, val)` on three `u8`. -/
def status_check (reg mask val : Nat) : Bool :=
  ((reg % 256) &&& (mask % 256)) == val % 256

/-- The function `read_adc_mv(contaminant, channel, sleep_msec, raw, ua_src)`. -/
def read_adc_mv (env : TcpcEnv ρ) (w : World ρ) (channel : Nat) (sleep_msec : Int)
    (raw ua_src : Bool) : Int × World ρ :=
  -- Channel & scale select
  let r := update_bits8 env w env.TCPC_VENDOR_ADC_CTRL1 env.ADCINSEL_MASK
    (channel <<< env.ADC_CHANNEL_OFFSET)
  if r.1 < 0 then r
  else
    -- Enable ADC
    let r := update_bits8 env r.2 env.TCPC_VENDOR_ADC_CTRL1 env.ADCEN env.ADCEN
    if r.1 < 0 then r
    else
      let w := log_register env r.2 env.TCPC_VENDOR_ADC_CTRL1
      let w := usleep_range env w (sleep_msec * 1000) ((sleep_msec + 1) * 1000)
      let rd := read8 env w env.TCPC_VENDOR_FLADC_STATUS (env.indeterminate w.chip)
      if rd.1 < 0 then (rd.1, rd.2.2)
      else
        let fladc := rd.2.1
        let w := logbuffer_log rd.2.2 (LogMsg.adc fladc)
        -- Disable ADC
        let r := update_bits8 env w env.TCPC_VENDOR_ADC_CTRL1 env.ADCEN 0
        if r.1 < 0 then r
        else
          let r := update_bits8 env r.2 env.TCPC_VENDOR_ADC_CTRL1 env.ADCINSEL_MASK 0
          if r.1 < 0 then r
          else if !raw then adc_to_mv r.2 channel ua_src fladc
          else ((fladc : Int), r.2)

/-- The function `read_resistance_kohm(contaminant, channel, sleep_msec, raw)`. -/
def read_resistance_kohm (env : TcpcEnv ρ) (w : World ρ) (channel : Nat) (sleep_msec : Int)
    (raw : Bool) : Int × World ρ :=
  let w := w.call (Call.read_resistance_kohm channel sleep_msec raw)
  if channel = CC1_SCALE1 ∨ channel = CC2_SCALE1 ∨ channel = CC1_SCALE2 ∨
      channel = CC2_SCALE2 then
    -- Enable 1uA current source
    let w := (update_bits8 env w env.TCPC_VENDOR_CC_CTRL2 env.CCLPMODESEL_MASK
      env.ULTRA_LOW_POWER_MODE).2
    -- OVP disable
    let r := update_bits8 env w env.TCPC_VENDOR_CC_CTRL2 env.CCOVPDIS env.CCOVPDIS
    if r.1 < 0 then r
    else
      let w := log_register env r.2 env.TCPC_VENDOR_CC_CTRL2
      let mv := read_adc_mv env w channel sleep_msec raw true
      -- OVP enable
      let r := update_bits8 env mv.2 env.TCPC_VENDOR_CC_CTRL2 env.CCOVPDIS 0
      if r.1 < 0 then r
      else
        -- returns KOhm as 1uA source is used.
        (mv.1, r.2)
  else
    let w := logbuffer_log w LogMsg.sbu_read
    -- SBU measurement, OVP disable
    let r := update_bits8 env w env.TCPC_VENDOR_CC_CTRL2 env.SBUOVPDIS env.SBUOVPDIS
    if r.1 < 0 then r
    else
      -- Cache switch setting
      let rd := read8 env r.2 env.TCPC_VENDOR_SBUSW_CTRL (env.indeterminate r.2.chip)
      if rd.1 < 0 then (rd.1, rd.2.2)
      else
        let switch_setting := rd.2.1
        let w := log_register env rd.2.2 env.TCPC_VENDOR_SBUSW_CTRL
        -- Enable 1ua current source
        let r := update_bits8 env w env.TCPC_VENDOR_CC_CTRL2 env.SBURPCTRL env.SBURPCTRL
        if r.1 < 0 then r
        else
          let w := log_register env r.2 env.TCPC_VENDOR_CC_CTRL2
          let mv := read_adc_mv env w channel sleep_msec raw true
          -- Disable current source
          let r := update_bits8 env mv.2 env.TCPC_VENDOR_CC_CTRL2 env.SBURPCTRL 0
          if r.1 < 0 then r
          else
            -- Set switch to original setting
            let r := write8 env r.2 env.TCPC_VENDOR_SBUSW_CTRL switch_setting
            if r.1 < 0 then r
            else
              -- OVP disable
              let r := update_bits8 env r.2 env.TCPC_VENDOR_CC_CTRL2 env.SBUOVPDIS 0
              if r.1 < 0 then r
              else
                -- 1ua current source on sbu; return KOhm
                (mv.1, logbuffer_log r.2 (LogMsg.sbu_read_mv mv.1))

/-- The function `read_comparators(contaminant, &vendor_cc_status2_cc1,
&vendor_cc_status2_cc2)`, entered with the two `u8` holding `cc1` and `cc2`: their
contents on return, and the world. -/
def read_comparators (env : TcpcEnv ρ) (w : World ρ) (cc1 cc2 : Nat) : Nat × Nat × World ρ :=
  let w := w.call Call.read_comparators
  let w := logbuffer_log w LogMsg.enable_comparators
  -- Enable 80uA source
  let r := update_bits8 env w env.TCPC_VENDOR_CC_CTRL2 env.CCRPCTRL_MASK env.UA_80_SRC
  if r.1 < 0 then (cc1, cc2, r.2)
  else
    -- Enable comparators
    let r := update_bits8 env r.2 env.TCPC_VENDOR_CC_CTRL1 env.CCCOMPEN env.CCCOMPEN
    if r.1 < 0 then (cc1, cc2, r.2)
    else
      let w := log_register env r.2 env.TCPC_VENDOR_CC_CTRL1
      -- Disable low power mode
      let r := update_bits8 env w env.TCPC_VENDOR_CC_CTRL2 env.CCLPMODESEL_MASK
        env.LOW_POWER_MODE_DISABLE
      if r.1 < 0 then (cc1, cc2, r.2)
      else
        let w := log_register env r.2 env.TCPC_VENDOR_CC_CTRL2
        -- Sleep to allow comparators settle
        let w := usleep_range env w 5000 6000
        let r := update_bits8 env w env.TCPC_TCPC_CTRL env.TCPC_TCPC_CTRL_ORIENTATION
          env.PLUG_ORNT_CC1
        if r.1 < 0 then (cc1, cc2, r.2)
        else
          let w := log_register env r.2 env.TCPC_TCPC_CTRL
          let w := usleep_range env w 5000 6000
          let rd := read8 env w env.VENDOR_CC_STATUS2 cc1
          let cc1 := rd.2.1
          if rd.1 < 0 then (cc1, cc2, rd.2.2)
          else
            let w := logbuffer_log rd.2.2 (LogMsg.vendor_cc_status2 cc1)
            let r := update_bits8 env w env.TCPC_TCPC_CTRL env.TCPC_TCPC_CTRL_ORIENTATION
              env.PLUG_ORNT_CC2
            if r.1 < 0 then (cc1, cc2, r.2)
            else
              let w := log_register env r.2 env.TCPC_TCPC_CTRL
              let w := usleep_range env w 5000 6000
              let rd := read8 env w env.VENDOR_CC_STATUS2 cc2
              let cc2 := rd.2.1
              if rd.1 < 0 then (cc1, cc2, rd.2.2)
              else
                let w := logbuffer_log rd.2.2 (LogMsg.vendor_cc_status2 cc2)
                let r := update_bits8 env w env.TCPC_VENDOR_CC_CTRL1 env.CCCOMPEN 0
                if r.1 < 0 then (cc1, cc2, r.2)
                else
                  (cc1, cc2,
                    (update_bits8 env r.2 env.TCPC_VENDOR_CC_CTRL2 env.CCRPCTRL_MASK 0).2)

/-- The function `detect_contaminant(contaminant)`. -/
def detect_contaminant (env : TcpcEnv ρ) (w : World ρ) : Int × World ρ :=
  let w := w.call Call.detect_contaminant
  -- u8 vendor_cc_status2_cc1 = 0xff, vendor_cc_status2_cc2 = 0xff;
  let rc := read_comparators env w 0xff 0xff
  let vendor_cc_status2_cc1 := rc.1
  let vendor_cc_status2_cc2 := rc.2.1
  let w := logbuffer_log rc.2.2 (LogMsg.vcc2 vendor_cc_status2_cc1 vendor_cc_status2_cc2)
  -- Early return for sink. Either of CC sees Rd. But, both shouldn't.
  if (env.CC1_VUFP_RD0P5 &&& vendor_cc_status2_cc1 = 0 ∨
        env.CC2_VUFP_RD0P5 &&& vendor_cc_status2_cc2 = 0) ∧
      ¬ (env.CC1_VUFP_RD0P5 &&& vendor_cc_status2_cc1 ≠ 0 ∧
        env.CC2_VUFP_RD0P5 &&& vendor_cc_status2_cc2 ≠ 0) then
    (SINK, logbuffer_log w LogMsg.ap_sink_detected)
  else
    -- CCLPMODESEL_AUTO_LOW_POWER in use.
    let cc1 := read_resistance_kohm env w CC1_SCALE1 READ1_SLEEP_MS false
    let cc1_k := cc1.1
    let cc2 := read_resistance_kohm env cc1.2 CC2_SCALE1 READ2_SLEEP_MS false
    let cc2_k := cc2.1
    let w := logbuffer_log cc2.2 (LogMsg.cc_k cc1_k cc2_k)
    if cc1_k < CONTAMINANT_THRESHOLD_CC_K ∨ cc2_k < CONTAMINANT_THRESHOLD_CC_K then
      let sbu1 := read_resistance_kohm env w SBU1 READ1_SLEEP_MS false
      let sbu1_k := sbu1.1
      let sbu2 := read_resistance_kohm env sbu1.2 SBU2 READ2_SLEEP_MS false
      let sbu2_k := sbu2.1
      let w := logbuffer_log sbu2.2 (LogMsg.sbu_k sbu1_k sbu2_k)
      if sbu1_k < CONTAMINANT_THRESHOLD_SBU_K ∨ sbu2_k < CONTAMINANT_THRESHOLD_SBU_K then
        (DETECTED, logbuffer_log w LogMsg.ap_contaminant_detected)
      else
        (FLOATING_CABLE, logbuffer_log w LogMsg.ap_floating_cable_detected)
    else
      (NOT_DETECTED, logbuffer_log w LogMsg.ap_contaminant_not_detected)

/-- The function `enable_dry_detection(contaminant)`. -/
def enable_dry_detection (env : TcpcEnv ρ) (w : World ρ) : Int × World ρ :=
  let w := w.call Call.enable_dry_detection
  -- tunable: 1ua / Ultra low power mode enabled.
  let r := update_bits8 env w env.TCPC_VENDOR_CC_CTRL1 env.CCCONNDRY env.CCCONNDRY
  if r.1 < 0 then r
  else
    let rd := read8 env r.2 env.TCPC_VENDOR_CC_CTRL1 (env.indeterminate r.2.chip)
    if rd.1 < 0 then (rd.1, rd.2.2)
    else
      let temp := rd.2.1
      let w := logbuffer_log rd.2.2 (LogMsg.vendor_cc_ctrl1 temp)
      let r := update_bits8 env w env.TCPC_VENDOR_CC_CTRL2 env.CCLPMODESEL_MASK
        env.ULTRA_LOW_POWER_MODE
      if r.1 < 0 then r
      else
        let rd := read8 env r.2 env.TCPC_VENDOR_CC_CTRL2 temp
        if rd.1 < 0 then (rd.1, rd.2.2)
        else
          let temp := rd.2.1
          let w := logbuffer_log rd.2.2 (LogMsg.vendor_cc_ctrl2 temp)
          -- Enable Look4Connection before sending the command
          let r := update_bits8 env w env.TCPC_TCPC_CTRL env.TCPC_TCPC_CTRL_EN_LK4CONN_ALRT
            env.TCPC_TCPC_CTRL_EN_LK4CONN_ALRT
          if r.1 < 0 then r
          else
            let r := write8 env r.2 env.TCPC_COMMAND env.TCPC_CMD_LOOK4CONNECTION
            if r.1 < 0 then r
            else (0, logbuffer_log r.2 LogMsg.dry_detection_enabled)

/-- The function `maxq_detect_contaminant(contaminant, cc_status)`. -/
def maxq_detect_contaminant (env : TcpcEnv ρ) (w : World ρ) (_cc_status : Nat) :
    Int × World ρ :=
  let w := w.call Call.maxq_detect_contaminant
  -- int cc1_raw = 0, cc2_raw = 0, sbu1_raw, sbu2_raw;
  let w := logbuffer_log w LogMsg.query_maxq
  let cc :=
    if w.state = NOT_DETECTED then
      let cc1 := read_resistance_kohm env w CC1_SCALE1 READ1_SLEEP_MS true
      let cc2 := read_resistance_kohm env cc1.2 CC2_SCALE1 READ2_SLEEP_MS true
      (cc1.1, cc2.1, cc2.2)
    else ((0 : Int), (0 : Int), w)
  let cc1_raw := cc.1
  let cc2_raw := cc.2.1
  let sbu1 := read_resistance_kohm env cc.2.2 SBU1 READ1_SLEEP_MS true
  let sbu1_raw := sbu1.1
  let sbu2 := read_resistance_kohm env sbu1.2 SBU2 READ2_SLEEP_MS true
  let sbu2_raw := sbu2.1
  let rc := read_comparators env sbu2.2 (env.indeterminate sbu2.2.chip % 256)
    (env.indeterminate sbu2.2.chip % 256)
  let vendor_cc_status2_cc1 := rc.1
  let vendor_cc_status2_cc2 := rc.2.1
  let w := logbuffer_log rc.2.2
    (LogMsg.query_maxq_vcc2 vendor_cc_status2_cc1 vendor_cc_status2_cc2)
  let cc1_vufp_rd0p5 : Nat := if vendor_cc_status2_cc1 &&& env.CC1_VUFP_RD0P5 ≠ 0 then 1 else 0
  let cc2_vufp_rd0p5 : Nat := if vendor_cc_status2_cc2 &&& env.CC2_VUFP_RD0P5 ≠ 0 then 1 else 0
  let maxq_detect_type :=
    (if w.state = NOT_DETECTED then env.MAXQ_DETECT_TYPE_CC_AND_SBU
     else env.MAXQ_DETECT_TYPE_SBU_ONLY) % 256
  let w := w.call (Call.maxq_query_contaminant cc1_raw cc2_raw sbu1_raw sbu2_raw
    cc1_vufp_rd0p5 cc2_vufp_rd0p5 maxq_detect_type)
  let r := env.maxq_query_contaminant w.chip cc1_raw cc2_raw sbu1_raw sbu2_raw
    cc1_vufp_rd0p5 cc2_vufp_rd0p5 maxq_detect_type
  let w := { w with chip := r.2 }
  -- Upon errors, falling back to NOT_DETECTED state.
  if r.1 < 0 then
    (NOT_DETECTED, logbuffer_log w LogMsg.maxq_errors)
  else (r.1, w)

/-- The function `enable_contaminant_detection(chip)`. -/
def enable_contaminant_detection (env : TcpcEnv ρ) (w : World ρ) : Int × World ρ :=
  let w := w.call Call.enable_contaminant_detection
  -- tunable: 1ms water detection debounce
  let r := update_bits8 env w env.TCPC_VENDOR_CC_CTRL3 env.CCWTRDEB_MASK
    (env.CCWTRDEB_1MS <<< env.CCWTRDEB_SHIFT)
  if r.1 < 0 then r
  else
    -- tunable: 1000mV/1000K thershold for water detection
    let r := update_bits8 env r.2 env.TCPC_VENDOR_CC_CTRL3 env.CCWTRSEL_MASK
      (env.CCWTRSEL_1V <<< env.CCWTRSEL_SHIFT)
    if r.1 < 0 then r
    else
      -- Contaminant detection mode: contaminant detection
      let r := update_bits8 env r.2 env.TCPC_VENDOR_CC_CTRL1 env.CCCONNDRY 0
      if r.1 < 0 then r
      else
        let rd := read8 env r.2 env.TCPC_VENDOR_CC_CTRL2 (env.indeterminate r.2.chip)
        if rd.1 < 0 then (rd.1, rd.2.2)
        else
          let vcc2 := rd.2.1
          -- tunable: Periodic contaminant detection
          let r := update_bits8 env rd.2.2 env.TCPC_VENDOR_CC_CTRL2 env.CCLPMODESEL_MASK
            env.AUTO_ULTRA_LOWER_MODE
          if r.1 < 0 then r
          else
            let rd := read8 env r.2 env.TCPC_VENDOR_CC_CTRL2 vcc2
            if rd.1 < 0 then (rd.1, rd.2.2)
            else
              -- Mask flash adc interrupt
              let r := update_bits8 env rd.2.2 env.TCPC_VENDOR_ALERT_MASK2
                env.MSK_FLASH_ADCINT 0
              if r.1 < 0 then r
              else
                -- Enable Look4Connection before sending the command
                let r := update_bits8 env r.2 env.TCPC_TCPC_CTRL
                  env.TCPC_TCPC_CTRL_EN_LK4CONN_ALRT env.TCPC_TCPC_CTRL_EN_LK4CONN_ALRT
                if r.1 < 0 then r
                else
                  let r := write8 env r.2 env.TCPC_COMMAND env.TCPC_CMD_LOOK4CONNECTION
                  if r.1 < 0 then r
                  else (0, logbuffer_log r.2 LogMsg.contaminant_detection_enabled)

/-- The expression `contaminant_detect_maxq ? maxq_detect_contaminant(contaminant,
cc_status) : detect_contaminant(contaminant)` of `process_contaminant_alert`. -/
def run_detection (env : TcpcEnv ρ) (w : World ρ) (cc_status : Nat) : Int × World ρ :=
  if w.contaminant_detect_maxq then maxq_detect_contaminant env w cc_status
  else detect_contaminant env w

/-- The function `process_contaminant_alert(contaminant)`. -/
def process_contaminant_alert (env : TcpcEnv ρ) (w : World ρ) : Bool × World ρ :=
  -- max77759_read8(regmap, TCPC_CC_STATUS, &cc_status);
  let rd := read8 env w env.TCPC_CC_STATUS (env.indeterminate w.chip)
  let cc_status := rd.2.1
  let w := logbuffer_log rd.2.2 (LogMsg.cc_status cc_status)
  -- Exit if still LookingForConnection.
  if cc_status &&& env.TCPC_CC_STATUS_TOGGLING ≠ 0 then
    (false, logbuffer_log w LogMsg.looking_for_connection)
  else if w.state = NOT_DETECTED ∨ w.state = SINK then
    -- ConnectResult = 0b -> Rp
    if status_check cc_status env.TCPC_CC_STATUS_TERM env.TCPC_CC_STATUS_TERM_RP = true ∧
        (status_check cc_status env.TCPC_CC_STATUS_CC1_MASK env.TCPC_CC_STATE_WTRSEL = true ∨
          status_check cc_status env.TCPC_CC_STATUS_CC2_MASK env.TCPC_CC_STATE_WTRSEL = true)
    then
      let w := logbuffer_log w LogMsg.check_if_wet
      let d := run_detection env w cc_status
      let state := d.1
      -- contaminant->state = state;
      let w := { d.2 with state := state }
      if state = DETECTED ∨ state = FLOATING_CABLE then
        (true, (enable_dry_detection env w).2)
      else
        -- Sink or Not detected
        (true, (enable_contaminant_detection env w).2)
    else (false, w)
  else if w.state = DETECTED ∨ w.state = FLOATING_CABLE then
    -- Contaminant heuristic in AP.
    if status_check cc_status env.TCPC_CC_STATUS_TERM env.TCPC_CC_STATUS_TERM_RP = true ∧
        status_check cc_status env.TCPC_CC_STATUS_CC1_MASK env.TCPC_CC_STATE_SRC_OPEN = true ∧
        status_check cc_status env.TCPC_CC_STATUS_CC2_MASK env.TCPC_CC_STATE_SRC_OPEN = true
    then
      let w := logbuffer_log w LogMsg.check_if_dry
      let d := run_detection env w cc_status
      let state := d.1
      -- contaminant->state = NOT_DETECTED;
      let w := { d.2 with state := NOT_DETECTED }
      if state = DETECTED ∨ state = FLOATING_CABLE then
        (true, (enable_dry_detection env w).2)
      else
        -- Re-enable contaminant detection, hence toggling as well.
        (true, (enable_contaminant_detection env w).2)
    else
      -- Re-enable dry detection, could be a spurious interrupt.
      (true, (enable_dry_detection env w).2)
  else (false, w)

/-! ### Observations -/

/-- The entries of `read_resistance_kohm`. -/
def Call.isResistanceRead : Call → Bool
  | Call.read_resistance_kohm _ _ _ => true
  | _ => false

/-- The entries of `enable_dry_detection` and `enable_contaminant_detection`. -/
def Call.isEnable : Call → Bool
  | Call.enable_dry_detection => true
  | Call.enable_contaminant_detection => true
  | _ => false

/-- What `read_comparators` leaves in `vendor_cc_status2_cc1` and
`vendor_cc_status2_cc2` when `detect_contaminant` is started in `w`, and the
world it leaves. -/
def detect_comparators (env : TcpcEnv ρ) (w : World ρ) : Nat × Nat × World ρ :=
  read_comparators env (w.call Call.detect_contaminant) 0xff 0xff

/-- Whether the bit `CC1_VUFP_RD0P5` is set in the CC1 reading of
`detect_contaminant` started in `w`. -/
def detect_cc1_rd (env : TcpcEnv ρ) (w : World ρ) : Prop :=
  env.CC1_VUFP_RD0P5 &&& (detect_comparators env w).1 ≠ 0

/-- Whether the bit `CC2_VUFP_RD0P5` is set in the CC2 reading of
`detect_contaminant` started in `w`. -/
def detect_cc2_rd (env : TcpcEnv ρ) (w : World ρ) : Prop :=
  env.CC2_VUFP_RD0P5 &&& (detect_comparators env w).2.1 ≠ 0

instance detect_cc1_rd_decidable (env : TcpcEnv ρ) (w : World ρ) :
    Decidable (detect_cc1_rd env w) :=
  inferInstanceAs (Decidable (_ ≠ _))

instance detect_cc2_rd_decidable (env : TcpcEnv ρ) (w : World ρ) :
    Decidable (detect_cc2_rd env w) :=
  inferInstanceAs (Decidable (_ ≠ _))

/-- The read of channel CC1 by `detect_contaminant` started in `w`, when the
sink check does not return: the value `cc1_k` and the world it leaves. -/
def detect_cc1 (env : TcpcEnv ρ) (w : World ρ) : Int × World ρ :=
  read_resistance_kohm env
    (logbuffer_log (detect_comparators env w).2.2
      (LogMsg.vcc2 (detect_comparators env w).1 (detect_comparators env w).2.1))
    CC1_SCALE1 READ1_SLEEP_MS false

/-- The read of channel CC2 by `detect_contaminant` started in `w`: the value
`cc2_k` and the world it leaves. -/
def detect_cc2 (env : TcpcEnv ρ) (w : World ρ) : Int × World ρ :=
  read_resistance_kohm env (detect_cc1 env w).2 CC2_SCALE1 READ2_SLEEP_MS false

/-- The read of channel SBU1 by `detect_contaminant` started in `w`, when a CC
reading is below the threshold: the value `sbu1_k` and the world it leaves. -/
def detect_sbu1 (env : TcpcEnv ρ) (w : World ρ) : Int × World ρ :=
  read_resistance_kohm env
    (logbuffer_log (detect_cc2 env w).2 (LogMsg.cc_k (detect_cc1 env w).1 (detect_cc2 env w).1))
    SBU1 READ1_SLEEP_MS false

/-- The read of channel SBU2 by `detect_contaminant` started in `w`: the value
`sbu2_k` and the world it leaves. -/
def detect_sbu2 (env : TcpcEnv ρ) (w : World ρ) : Int × World ρ :=
  read_resistance_kohm env (detect_sbu1 env w).2 SBU2 READ2_SLEEP_MS false

/-- The value `cc_status` that `process_contaminant_alert` started in `w`
reads. -/
def alert_cc_status (env : TcpcEnv ρ) (w : World ρ) : Nat :=
  (read8 env w env.TCPC_CC_STATUS (env.indeterminate w.chip)).2.1

/-- Whether `process_contaminant_alert` started in `w` finds the port still
toggling and returns at once. -/
def alert_toggling (env : TcpcEnv ρ) (w : World ρ) : Prop :=
  alert_cc_status env w &&& env.TCPC_CC_STATUS_TOGGLING ≠ 0

/-- The condition under which `process_contaminant_alert` started in `w` runs
a wet check: the state is `NOT_DETECTED` or `SINK` and the CC status shows Rp
with one of the CC pins at the water threshold. -/
def alert_wet_check (env : TcpcEnv ρ) (w : World ρ) : Prop :=
  ¬ alert_toggling env w ∧ (w.state = NOT_DETECTED ∨ w.state = SINK) ∧
    status_check (alert_cc_status env w) env.TCPC_CC_STATUS_TERM
      env.TCPC_CC_STATUS_TERM_RP = true ∧
    (status_check (alert_cc_status env w) env.TCPC_CC_STATUS_CC1_MASK
        env.TCPC_CC_STATE_WTRSEL = true ∨
      status_check (alert_cc_status env w) env.TCPC_CC_STATUS_CC2_MASK
        env.TCPC_CC_STATE_WTRSEL = true)

/-- The condition under which `process_contaminant_alert` started in `w` runs
a dry check: the state is `DETECTED` or `FLOATING_CABLE` and the CC status
shows Rp with both CC pins open. -/
def alert_dry_check (env : TcpcEnv ρ) (w : World ρ) : Prop :=
  ¬ alert_toggling env w ∧ ¬ (w.state = NOT_DETECTED ∨ w.state = SINK) ∧
    (w.state = DETECTED ∨ w.state = FLOATING_CABLE) ∧
    status_check (alert_cc_status env w) env.TCPC_CC_STATUS_TERM
      env.TCPC_CC_STATUS_TERM_RP = true ∧
    status_check (alert_cc_status env w) env.TCPC_CC_STATUS_CC1_MASK
      env.TCPC_CC_STATE_SRC_OPEN = true ∧
    status_check (alert_cc_status env w) env.TCPC_CC_STATUS_CC2_MASK
      env.TCPC_CC_STATE_SRC_OPEN = true

instance alert_toggling_decidable (env : TcpcEnv ρ) (w : World ρ) :
    Decidable (alert_toggling env w) :=
  inferInstanceAs (Decidable (_ ≠ _))

instance alert_wet_check_decidable (env : TcpcEnv ρ) (w : World ρ) :
    Decidable (alert_wet_check env w) :=
  inferInstanceAs (Decidable (_ ∧ _))

instance alert_dry_check_decidable (env : TcpcEnv ρ) (w : World ρ) :
    Decidable (alert_dry_check env w) :=
  inferInstanceAs (Decidable (_ ∧ _))

/-- The detection that `process_contaminant_alert` started in `w` runs after
it logged `msg` ("Check if wet" or "Check if dry"): the state that the
detection returns and the world it leaves. -/
def alert_detection (env : TcpcEnv ρ) (w : World ρ) (msg : LogMsg) : Int × World ρ :=
  run_detection env
    (logbuffer_log
      (logbuffer_log (read8 env w env.TCPC_CC_STATUS (env.indeterminate w.chip)).2.2
        (LogMsg.cc_status (alert_cc_status env w)))
      msg)
    (alert_cc_status env w)

namespace Demo

/-- A chip for running the detection: its register file, what the comparators
report in `VENDOR_CC_STATUS2` for either orientation, and what the flash ADC
reports for each channel. -/
structure Chip where
  regs : Nat → Nat
  comparators_cc1 : Nat
  comparators_cc2 : Nat
  fladc : Nat → Nat

/-- Store `val` in register `reg`. -/
def Chip.setReg (c : Chip) (reg val : Nat) : Chip :=
  { c with regs := fun r => if r = reg then val else c.regs r }

/-- An instance of `TcpcEnv` over `Chip`.  The register numbers, masks and
values are chosen here, the registers distinct from one another; they are not
taken from the missing headers.  No register access fails.  A read of
`VENDOR_CC_STATUS2` gives the comparators of the orientation selected in
`TCPC_CTRL`, a read of `FLADC_STATUS` gives the ADC value of the channel
selected in `ADC_CTRL1`, any other read gives the register file. -/
def env : TcpcEnv Chip where
  TCPC_VENDOR_ADC_CTRL1 := 138
  ADCINSEL_MASK := 224
  ADC_CHANNEL_OFFSET := 5
  ADCEN := 1
  TCPC_VENDOR_FLADC_STATUS := 137
  TCPC_VENDOR_CC_CTRL1 := 140
  TCPC_VENDOR_CC_CTRL2 := 141
  TCPC_VENDOR_CC_CTRL3 := 142
  CCLPMODESEL_MASK := 96
  ULTRA_LOW_POWER_MODE := 32
  LOW_POWER_MODE_DISABLE := 0
  AUTO_ULTRA_LOWER_MODE := 64
  CCOVPDIS := 128
  SBUOVPDIS := 1
  SBURPCTRL := 2
  TCPC_VENDOR_SBUSW_CTRL := 147
  CCRPCTRL_MASK := 12
  UA_80_SRC := 4
  CCCOMPEN := 32
  CCCONNDRY := 128
  TCPC_TCPC_CTRL := 25
  TCPC_TCPC_CTRL_ORIENTATION := 1
  TCPC_TCPC_CTRL_EN_LK4CONN_ALRT := 64
  PLUG_ORNT_CC1 := 0
  PLUG_ORNT_CC2 := 1
  VENDOR_CC_STATUS2 := 133
  CC1_VUFP_RD0P5 := 2
  CC2_VUFP_RD0P5 := 32
  TCPC_COMMAND := 35
  TCPC_CMD_LOOK4CONNECTION := 153
  MAXQ_DETECT_TYPE_CC_AND_SBU := 1
  MAXQ_DETECT_TYPE_SBU_ONLY := 2
  TCPC_CC_STATUS := 29
  TCPC_CC_STATUS_TOGGLING := 32
  TCPC_CC_STATUS_TERM := 16
  TCPC_CC_STATUS_TERM_RP := 0
  TCPC_CC_STATUS_CC1_MASK := 3
  TCPC_CC_STATUS_CC2_MASK := 12
  TCPC_CC_STATE_WTRSEL := 3
  TCPC_CC_STATE_SRC_OPEN := 0
  CCWTRDEB_MASK := 192
  CCWTRDEB_1MS := 1
  CCWTRDEB_SHIFT := 6
  CCWTRSEL_MASK := 56
  CCWTRSEL_1V := 4
  CCWTRSEL_SHIFT := 3
  TCPC_VENDOR_ALERT_MASK2 := 130
  MSK_FLASH_ADCINT := 1
  max77759_update_bits8 := fun c reg mask val =>
    (0, c.setReg reg ((c.regs reg &&& (mask ^^^ 255)) ||| (val &&& mask)))
  max77759_read8 := fun c reg _ =>
    (0,
      if reg = 133 then (if c.regs 25 &&& 1 = 0 then c.comparators_cc1 else c.comparators_cc2)
      else if reg = 137 then c.fladc ((c.regs 138 &&& 224) >>> 5)
      else c.regs reg,
      c)
  max77759_write8 := fun c reg val => (0, c.setReg reg (val % 256))
  MAX77759_LOG_REGISTER := fun c _ => c
  usleep_range := fun c _ _ => c
  maxq_query_contaminant := fun c _ _ _ _ _ _ _ => (0, c)
  indeterminate := fun _ => 0

/-- A port with liquid on the CC1 and SBU1 pins: both comparators report
their `VUFP_RD0P5` bit, the ADC reads 3 on CC1 (600 kOhm), 20 on CC2 (2300
kOhm), 2 on SBU1 (500 kOhm) and 30 on SBU2 (3300 kOhm).  The CC status
register reads 3: Rp, CC1 at the water threshold. -/
def chipWet : Chip where
  regs := fun r => if r = 29 then 3 else 0
  comparators_cc1 := 34
  comparators_cc2 := 34
  fladc := fun ch => if ch = 1 then 3 else if ch = 3 then 20 else if ch = 5 then 2 else 30

/-- As `chipWet`, with the `VUFP_RD0P5` bits clear in both comparator
readings. -/
def chipBothClear : Chip := { chipWet with comparators_cc1 := 0, comparators_cc2 := 0 }

/-- As `chipWet`, with the CC status register reading 0: Rp, both CC pins
open. -/
def chipStillWet : Chip := { chipWet with regs := fun _ => 0 }

/-- A world around a chip: the state of the contaminant detection, the AP
heuristic in use, and an empty record of calls. -/
def world (c : Chip) (state : Int) : World Chip where
  chip := c
  state := state
  contaminant_detect_maxq := false
  trace := []

end Demo

end Max77759

namespace G2D

variable {σ δ : Type}

/-! ## Lemmas on the record of calls -/

section Lemmas

variable (env : G2dEnv σ δ)

@[simp] theorem call_trace (w : World σ) (c : Call) : (w.call c).trace = w.trace ++ [c] := rfl

@[simp] theorem call_mem (w : World σ) (c : Call) : (w.call c).mem = w.mem := rfl

@[simp] theorem update_trace (w : World σ) (f : Mem σ → Mem σ) :
    (w.update f).trace = w.trace := rfl

@[simp] theorem update_mem (w : World σ) (f : Mem σ → Mem σ) :
    (w.update f).mem = f w.mem := rfl

@[simp] theorem updateDev_trace (w : World σ) (f : σ → σ) :
    (w.updateDev f).trace = w.trace := rfl

@[simp] theorem updateDev_dev (w : World σ) (f : σ → σ) :
    (w.updateDev f).mem.dev = f w.mem.dev := rfl

@[simp] theorem outcome_trace {α : Type} (r : Outcome σ α) : r.trace = r.world.trace := rfl

@[simp] theorem outcome_mem {α : Type} (r : Outcome σ α) : r.mem = r.world.mem := rfl

@[simp] theorem returned_world {α : Type} (a : α) (w : World σ) :
    (Outcome.returned a w).world = w := rfl

@[simp] theorem oops_world {α : Type} (w : World σ) :
    (Outcome.oops w : Outcome σ α).world = w := rfl

@[simp] theorem returned_value {α : Type} (a : α) (w : World σ) :
    (Outcome.returned a w).value = some a := rfl

@[simp] theorem oops_value {α : Type} (w : World σ) :
    (Outcome.oops w : Outcome σ α).value = none := rfl

@[simp] theorem returned_andThen {α β : Type} (a : α) (w : World σ)
    (f : α → World σ → Outcome σ β) : (Outcome.returned a w).andThen f = f a w := rfl

@[simp] theorem oops_andThen {α β : Type} (w : World σ) (f : α → World σ → Outcome σ β) :
    (Outcome.oops w : Outcome σ α).andThen f = Outcome.oops w := rfl

/-- A run that is known to return, followed by more code. -/
theorem andThen_of_returned {α β : Type} (r : Outcome σ α) (a : α)
    (h : r = Outcome.returned a r.world) (f : α → World σ → Outcome σ β) :
    r.andThen f = f a r.world := by
  cases r with
  | returned b w => cases h; rfl
  | oops w => cases h

/-- Code that only returns after a run ends in the world in which the run
ended. -/
theorem andThen_returned_world {α β : Type} (r : Outcome σ α) (b : β) :
    (r.andThen fun _ w => Outcome.returned b w).world = r.world := by
  cases r <;> rfl

/-- A stamp for a task that is not NULL returns. -/
theorem stamp_some_returned (w : World σ) (t : TaskRef) (val : Nat) :
    g2d_stamp_task env w (some t) val =
      Outcome.returned () (g2d_stamp_task env w (some t) val).world := by
  unfold g2d_stamp_task g2d_dump_task
  dsimp only
  split_ifs <;> simp only [returned_andThen] <;> (try split_ifs) <;> rfl

/-- What follows a stamp for a task that is not NULL runs in the world the
stamp left. -/
@[simp] theorem stamp_some_andThen {β : Type} (w : World σ) (t : TaskRef) (val : Nat)
    (f : Unit → World σ → Outcome σ β) :
    (g2d_stamp_task env w (some t) val).andThen f =
      f () (g2d_stamp_task env w (some t) val).world :=
  andThen_of_returned _ () (stamp_some_returned env w t val) f

/-- A stamp whose value is none of those for which the task is read returns,
also for a NULL task. -/
theorem stamp_returned_of_not_reads (w : World σ) (task : Option TaskRef) (val : Nat)
    (h : ¬ g2d_stamp_reads_task env val) :
    g2d_stamp_task env w task val =
      Outcome.returned () (g2d_stamp_task env w task val).world := by
  unfold g2d_stamp_reads_task at h
  simp only [not_or] at h
  obtain ⟨h1, h2, h3, h4⟩ := h
  unfold g2d_stamp_task g2d_dump_task
  dsimp only
  simp only [h1, h2, h3, h4, false_or, if_false, returned_andThen]
  rfl

/-- Stamping leaves the device as it is: only the stamp log changes. -/
theorem stamp_dev (w : World σ) (task : Option TaskRef) (val : Nat) :
    (g2d_stamp_task env w task val).world.mem.dev = w.mem.dev := by
  unfold g2d_stamp_task g2d_dump_task
  dsimp only
  cases task <;> split_ifs <;> simp only [returned_andThen, oops_andThen] <;>
    (try split_ifs) <;> rfl

/-- The calls of a stamp are its own entry followed by prints only. -/
theorem stamp_trace (w : World σ) (task : Option TaskRef) (val : Nat) :
    ∃ l : List Call, (∀ c ∈ l, c.isDebugPrint = true) ∧
      (g2d_stamp_task env w task val).world.trace =
        w.trace ++ Call.g2d_stamp_task task val :: l := by
  cases task with
  | none =>
    refine ⟨(if u32 val = env.G2D_STAMP_STATE_TIMEOUT_HW ∨
          u32 val = env.G2D_STAMP_STATE_ERR_INT ∨
          u32 val = env.G2D_STAMP_STATE_MMUFAULT then [Call.g2d_dump_task none]
        else if u32 val = env.G2D_STAMP_STATE_DONE then
          (if w.mem.g2d_debug = 1 then []
           else if w.mem.g2d_debug = 2 then [Call.g2d_dump_task none] else [])
        else []), ?_, ?_⟩
    · intro c hc
      split_ifs at hc <;> simp_all [Call.isDebugPrint]
    · unfold g2d_stamp_task g2d_dump_task
      dsimp only
      split_ifs <;> simp only [returned_andThen, oops_andThen] <;> (try split_ifs) <;> simp_all
  | some t =>
    refine ⟨(if u32 val = env.G2D_STAMP_STATE_TIMEOUT_HW ∨
          u32 val = env.G2D_STAMP_STATE_ERR_INT ∨
          u32 val = env.G2D_STAMP_STATE_MMUFAULT then [Call.g2d_dump_task (some t)] else []) ++
        (if u32 val = env.G2D_STAMP_STATE_DONE then
          (if w.mem.g2d_debug = 1 then [Call.pr_info_job_took (some t)]
           else if w.mem.g2d_debug = 2 then [Call.g2d_dump_task (some t)] else [])
         else []), ?_, ?_⟩
    · intro c hc
      rw [List.mem_append] at hc
      rcases hc with hc | hc
      · split_ifs at hc <;> simp_all [Call.isDebugPrint]
      · split_ifs at hc <;> simp_all [Call.isDebugPrint]
    · unfold g2d_stamp_task g2d_dump_task
      dsimp only
      split_ifs <;> simp only [returned_andThen, oops_andThen] <;> (try split_ifs) <;> simp_all

@[simp] theorem noPrints_append (l₁ l₂ : List Call) :
    noPrints (l₁ ++ l₂) = noPrints l₁ ++ noPrints l₂ := by
  simp [noPrints]

@[simp] theorem noPrints_nil : noPrints [] = [] := rfl

theorem noPrints_cons (c : Call) (l : List Call) :
    noPrints (c :: l) = (if c.isDebugPrint = true then [] else [c]) ++ noPrints l := by
  unfold noPrints
  cases h : c.isDebugPrint <;> simp [List.filter_cons, h]

/-- An observation that ignores the prints can be made on the record without
the prints. -/
theorem filter_noPrints (p : Call → Bool) (hp : ∀ c, c.isDebugPrint = true → p c = false)
    (l : List Call) : l.filter p = (noPrints l).filter p := by
  unfold noPrints
  rw [List.filter_filter]
  congr 1
  funext c
  cases h : c.isDebugPrint
  · simp
  · simp [hp c h]

/-- Without the prints, a stamp is one call. -/
theorem stamp_trace_noPrints (w : World σ) (task : Option TaskRef) (val : Nat) :
    noPrints (g2d_stamp_task env w task val).world.trace =
      noPrints w.trace ++ [Call.g2d_stamp_task task val] := by
  obtain ⟨l, hl, ht⟩ := stamp_trace env w task val
  have hnil : noPrints l = [] := by
    unfold noPrints
    rw [List.filter_eq_nil_iff]
    intro c hc
    simp [hl c hc]
  rw [ht, show Call.g2d_stamp_task task val :: l = [Call.g2d_stamp_task task val] ++ l from rfl,
    noPrints_append, noPrints_append, hnil, List.append_nil]
  rfl

/-- The memory that a stamp leaves: the counter advanced, wrapping as a signed
32-bit integer, the slot of the counter written, everything else as it was. -/
theorem stamp_some_mem (w : World σ) (t : TaskRef) (val : Nat) :
    (g2d_stamp_task env w (some t) val).world.mem =
      { w.mem with
        p_stamp := wrapInt32 (w.mem.p_stamp + 1)
        g2d_stamp_list := Function.update w.mem.g2d_stamp_list (g2d_stamp_slot w.mem.p_stamp)
          { time := env.ktime_get w.mem.dev
            task := some t
            state := u32 (env.task_state w.mem.dev t)
            job_id := u32 (env.task_job_id w.mem.dev t)
            val := u32 val
            cpu := u8 (env.smp_processor_id w.mem.dev) } } := by
  unfold g2d_stamp_task g2d_dump_task g2d_stamp_slot
  dsimp only
  split_ifs <;> simp only [returned_andThen] <;> (try split_ifs) <;> rfl

end Lemmas

/-! ## g2d_irq_handler -/

section Irq

variable (env : G2dEnv σ δ)

/-- The test `(intflags & (1 << id)) == 0` of the interrupt handler reads bit
`id` of `intflags`. -/
theorem and_one_shiftLeft_eq_zero (m id : Nat) : m &&& (1 <<< id) = 0 ↔ m.testBit id = false := by
  rw [Nat.one_shiftLeft, Nat.and_two_pow]
  cases m.testBit id <;> simp

/-- The calls of the loop over the job ids, run over any list of ids. -/
theorem finish_loop_trace (m : Nat) (ids : List Nat) (w : World σ) :
    (ids.foldl (g2d_irq_finish_step env m) w).trace =
      w.trace ++ (ids.filter fun id => m.testBit id).map
        fun id => Call.g2d_finish_task_with_id id true := by
  induction ids generalizing w with
  | nil => simp
  | cons id rest ih =>
    rw [List.foldl_cons, ih]
    unfold g2d_irq_finish_step
    by_cases hbit : m.testBit id = true
    · have hne : ¬ m &&& (1 <<< id) = 0 := by
        rw [and_one_shiftLeft_eq_zero]; simp [hbit]
      simp [hne, hbit]
    · have hz : m &&& (1 <<< id) = 0 := by
        rw [and_one_shiftLeft_eq_zero]; simpa using hbit
      simp [hz, hbit]

/-- The calls of the first half of the interrupt handler. -/
theorem irq_finished_trace (w : World σ) :
    (g2d_irq_finished env w).trace =
      w.trace ++ Call.g2d_hw_finished_job_ids ::
        (if g2d_irq_intflags env w = 0 then []
         else ((List.range env.G2D_MAX_JOBS).filter fun id =>
                (g2d_irq_intflags env w).testBit id).map
                (fun id => Call.g2d_finish_task_with_id id true) ++
              [Call.g2d_hw_clear_job_ids (g2d_irq_intflags env w)]) := by
  unfold g2d_irq_finished g2d_irq_intflags
  dsimp only
  by_cases h : u32 (env.g2d_hw_finished_job_ids w.mem.dev) = 0
  · simp [h]
  · simp [h, finish_loop_trace]

/-- The second half of the interrupt handler returns: it stamps only a task
that was found. -/
theorem irq_error_returned (w : World σ) :
    g2d_irq_error env w = Outcome.returned () (g2d_irq_error env w).world := by
  unfold g2d_irq_error
  dsimp only
  by_cases he : u32 (env.g2d_hw_errint_status w.mem.dev) = 0
  · simp [he]
  · by_cases hj : env.g2d_hw_get_current_task w.mem.dev < 0
    · simp [he, hj]
    · cases ht : env.g2d_get_active_task_from_id w.mem.dev
          (env.g2d_hw_get_current_task w.mem.dev) <;> simp [he, hj, ht]

/-- What follows the second half of the interrupt handler runs in the world it
left. -/
@[simp] theorem irq_error_andThen {β : Type} (w : World σ)
    (f : Unit → World σ → Outcome σ β) :
    (g2d_irq_error env w).andThen f = f () (g2d_irq_error env w).world :=
  andThen_of_returned _ () (irq_error_returned env w) f

/-- The memory that the interrupt handler leaves is the one its second half
leaves. -/
theorem irq_handler_mem (w : World σ) :
    (g2d_irq_handler env w).world.mem =
      (g2d_irq_error env (g2d_irq_finished env (w.call Call.spin_lock))).world.mem := by
  unfold g2d_irq_handler
  simp

/-- The calls of the second half of the interrupt handler, prints left out. -/
theorem irq_error_trace (w : World σ) :
    noPrints (g2d_irq_error env w).world.trace =
      noPrints w.trace ++ Call.g2d_hw_errint_status ::
        (if u32 (env.g2d_hw_errint_status w.mem.dev) = 0 then []
         else
           [Call.g2d_hw_get_current_task,
            Call.g2d_get_active_task_from_id (env.g2d_hw_get_current_task w.mem.dev)] ++
           (if env.g2d_hw_get_current_task w.mem.dev < 0 then
              [Call.dev_err ErrMsg.no_task_running]
            else
              match env.g2d_get_active_task_from_id w.mem.dev
                  (env.g2d_hw_get_current_task w.mem.dev) with
              | none => [Call.dev_err (ErrMsg.current_job_not_active
                  (env.g2d_hw_get_current_task w.mem.dev))]
              | some t => [Call.dev_err (ErrMsg.error_during_job
                  (env.g2d_hw_get_current_task w.mem.dev)),
                  Call.g2d_stamp_task (some t) env.G2D_STAMP_STATE_ERR_INT]) ++
           [Call.g2d_flush_all_tasks, Call.g2d_hw_global_reset,
            Call.g2d_hw_clear_int (u32 (env.g2d_hw_errint_status w.mem.dev))]) := by
  unfold g2d_irq_error
  dsimp only
  by_cases he : u32 (env.g2d_hw_errint_status w.mem.dev) = 0
  · simp [he, noPrints, Call.isDebugPrint]
  · by_cases hj : env.g2d_hw_get_current_task w.mem.dev < 0
    · simp [he, hj, noPrints, Call.isDebugPrint]
    · cases ht : env.g2d_get_active_task_from_id w.mem.dev
          (env.g2d_hw_get_current_task w.mem.dev) with
      | none => simp [he, hj, ht, noPrints, Call.isDebugPrint]
      | some t =>
        simp only [call_trace, call_mem, update_trace, update_mem, he, hj, ht, noPrints_append,
          stamp_trace_noPrints, if_false, ne_eq, not_false_eq_true, if_true, stamp_some_andThen,
          returned_world]
        simp [noPrints, Call.isDebugPrint]

/-- No call that retires a finished job is a print. -/
theorem isFinishOrClear_print (c : Call) (h : c.isDebugPrint = true) :
    c.isFinishOrClear = false := by
  cases c <;> simp_all [Call.isDebugPrint, Call.isFinishOrClear]

/-- No call of the error recovery is a print. -/
theorem isErrorRecovery_print (c : Call) (h : c.isDebugPrint = true) :
    c.isErrorRecovery = false := by
  cases c <;> simp_all [Call.isDebugPrint, Call.isErrorRecovery]

theorem noPrints_finish_map (ids : List Nat) :
    noPrints (ids.map fun id => Call.g2d_finish_task_with_id id true) =
      ids.map fun id => Call.g2d_finish_task_with_id id true := by
  induction ids with
  | nil => rfl
  | cons id rest ih =>
    simp only [List.map_cons]
    rw [show ∀ (c : Call) (l : List Call), c :: l = [c] ++ l from fun _ _ => rfl, noPrints_append,
      ih]
    rfl

theorem filter_isFinishOrClear_finish_map (ids : List Nat) :
    (ids.map fun id => Call.g2d_finish_task_with_id id true).filter Call.isFinishOrClear =
      ids.map fun id => Call.g2d_finish_task_with_id id true := by
  induction ids with
  | nil => rfl
  | cons id rest ih => simp [List.filter_cons, Call.isFinishOrClear]

theorem filter_isErrorRecovery_finish_map (ids : List Nat) :
    (ids.map fun id => Call.g2d_finish_task_with_id id true).filter Call.isErrorRecovery = [] := by
  induction ids with
  | nil => rfl
  | cons id rest ih => simp [List.filter_cons, Call.isErrorRecovery]

/-- The calls of the whole interrupt handler, prints left out. -/
theorem irq_handler_trace (w : World σ) :
    noPrints (g2d_irq_handler env w).world.trace =
      noPrints w.trace ++ [Call.spin_lock, Call.g2d_hw_finished_job_ids] ++
        (if g2d_irq_intflags env w = 0 then []
         else ((List.range env.G2D_MAX_JOBS).filter fun id =>
                (g2d_irq_intflags env w).testBit id).map
                (fun id => Call.g2d_finish_task_with_id id true) ++
              [Call.g2d_hw_clear_job_ids (g2d_irq_intflags env w)]) ++
        [Call.g2d_hw_errint_status] ++
        (if g2d_irq_errstatus env w = 0 then []
         else
           [Call.g2d_hw_get_current_task,
            Call.g2d_get_active_task_from_id (env.g2d_hw_get_current_task
              (g2d_irq_finished env (w.call Call.spin_lock)).mem.dev)] ++
           (if env.g2d_hw_get_current_task
                (g2d_irq_finished env (w.call Call.spin_lock)).mem.dev < 0 then
              [Call.dev_err ErrMsg.no_task_running]
            else
              match env.g2d_get_active_task_from_id
                  (g2d_irq_finished env (w.call Call.spin_lock)).mem.dev
                  (env.g2d_hw_get_current_task
                    (g2d_irq_finished env (w.call Call.spin_lock)).mem.dev) with
              | none => [Call.dev_err (ErrMsg.current_job_not_active
                  (env.g2d_hw_get_current_task
                    (g2d_irq_finished env (w.call Call.spin_lock)).mem.dev))]
              | some t => [Call.dev_err (ErrMsg.error_during_job
                  (env.g2d_hw_get_current_task
                    (g2d_irq_finished env (w.call Call.spin_lock)).mem.dev)),
                  Call.g2d_stamp_task (some t) env.G2D_STAMP_STATE_ERR_INT]) ++
           [Call.g2d_flush_all_tasks, Call.g2d_hw_global_reset,
            Call.g2d_hw_clear_int (g2d_irq_errstatus env w)]) ++
        [Call.spin_unlock, Call.wake_up_freeze_wait] := by
  have hint : g2d_irq_intflags env (w.call Call.spin_lock) = g2d_irq_intflags env w := rfl
  unfold g2d_irq_handler
  dsimp only
  simp only [irq_error_andThen, returned_world, call_trace, noPrints_append, irq_error_trace,
    irq_finished_trace, hint]
  unfold g2d_irq_errstatus
  by_cases hm : g2d_irq_intflags env w = 0
  · simp [hm, noPrints_cons, Call.isDebugPrint]
  · simp [hm, noPrints_cons, noPrints_finish_map, Call.isDebugPrint]

/-- C1: the calls `g2d_finish_task_with_id` and `g2d_hw_clear_job_ids` made by
one run of `g2d_irq_handler` that reads the finished-job bitmask `m`: if
`m ≠ 0`, one `g2d_finish_task_with_id(id, true)` for each `id` below
`G2D_MAX_JOBS` whose bit is set in `m`, in ascending order of `id` and for no
other id, followed by one `g2d_hw_clear_job_ids(m)`; if `m = 0`, none. -/
theorem g2d_irq_handler_finished_jobs (env : G2dEnv σ δ) (w : World σ) :
    (g2d_irq_handler env w).trace.filter Call.isFinishOrClear =
      w.trace.filter Call.isFinishOrClear ++
        (if g2d_irq_intflags env w = 0 then []
         else ((List.range env.G2D_MAX_JOBS).filter fun id =>
                (g2d_irq_intflags env w).testBit id).map
                (fun id => Call.g2d_finish_task_with_id id true) ++
              [Call.g2d_hw_clear_job_ids (g2d_irq_intflags env w)]) := by
  rw [outcome_trace, filter_noPrints _ isFinishOrClear_print,
    filter_noPrints _ isFinishOrClear_print w.trace, irq_handler_trace]
  simp only [List.filter_append]
  by_cases hm : g2d_irq_intflags env w = 0 <;> by_cases he : g2d_irq_errstatus env w = 0
  · simp [hm, he, Call.isFinishOrClear]
  · simp only [hm, he, if_true, if_false]
    split_ifs
    · simp [Call.isFinishOrClear]
    · split <;> simp [Call.isFinishOrClear]
  · simp [hm, he, Call.isFinishOrClear, filter_isFinishOrClear_finish_map]
  · simp only [hm, he, if_true, if_false]
    split_ifs
    · simp [Call.isFinishOrClear, filter_isFinishOrClear_finish_map]
    · split <;> simp [Call.isFinishOrClear, filter_isFinishOrClear_finish_map]

/-- C2: the calls `g2d_flush_all_tasks`, `g2d_hw_global_reset` and
`g2d_hw_clear_int` made by one run of `g2d_irq_handler` that reads the
error status `e`: if `e ≠ 0`, whatever the current job, one
`g2d_flush_all_tasks`, then one `g2d_hw_global_reset`, then one
`g2d_hw_clear_int(e)`; if `e = 0`, none of the three. -/
theorem g2d_irq_handler_error_recovery (env : G2dEnv σ δ) (w : World σ) :
    (g2d_irq_handler env w).trace.filter Call.isErrorRecovery =
      w.trace.filter Call.isErrorRecovery ++
        (if g2d_irq_errstatus env w = 0 then []
         else [Call.g2d_flush_all_tasks, Call.g2d_hw_global_reset,
               Call.g2d_hw_clear_int (g2d_irq_errstatus env w)]) := by
  rw [outcome_trace, filter_noPrints _ isErrorRecovery_print,
    filter_noPrints _ isErrorRecovery_print w.trace, irq_handler_trace]
  simp only [List.filter_append]
  by_cases hm : g2d_irq_intflags env w = 0 <;> by_cases he : g2d_irq_errstatus env w = 0
  · simp [hm, he, Call.isErrorRecovery]
  · simp only [hm, he, if_true, if_false]
    split_ifs
    · simp [Call.isErrorRecovery]
    · split <;> simp [Call.isErrorRecovery]
  · simp [hm, he, Call.isErrorRecovery, filter_isErrorRecovery_finish_map]
  · simp only [hm, he, if_true, if_false]
    split_ifs
    · simp [Call.isErrorRecovery, filter_isErrorRecovery_finish_map]
    · split <;> simp [Call.isErrorRecovery, filter_isErrorRecovery_finish_map]

/-- No stamp is a print. -/
theorem isStamp_print (c : Call) (h : c.isDebugPrint = true) : c.isStamp = false := by
  cases c <;> simp_all [Call.isDebugPrint, Call.isStamp]

/-- A run of the interrupt handler that finds both registers zero. -/
theorem irq_handler_spurious_run (w : World σ)
    (hm : u32 (env.g2d_hw_finished_job_ids w.mem.dev) = 0)
    (he : u32 (env.g2d_hw_errint_status w.mem.dev) = 0) :
    g2d_irq_handler env w =
      Outcome.returned IRQ_HANDLED
        { mem := w.mem
          trace := w.trace ++
            [Call.spin_lock, Call.g2d_hw_finished_job_ids, Call.g2d_hw_errint_status,
             Call.spin_unlock, Call.wake_up_freeze_wait] } := by
  unfold g2d_irq_handler g2d_irq_error g2d_irq_finished
  simp [hm, he, World.call]

/-- Runs of the interrupt handler that find both registers zero leave the
memory as it is. -/
theorem irq_handler_spurious_times (n : Nat) (w : World σ)
    (hm : u32 (env.g2d_hw_finished_job_ids w.mem.dev) = 0)
    (he : u32 (env.g2d_hw_errint_status w.mem.dev) = 0) :
    (g2d_irq_handler_times env n w).mem = w.mem := by
  induction n generalizing w with
  | zero => rfl
  | succ n ih =>
    unfold g2d_irq_handler_times
    rw [irq_handler_spurious_run env w hm he]
    exact ih _ hm he

/-- With no finished job the error status is read in the memory the handler
started in. -/
theorem irq_errstatus_of_intflags_zero (w : World σ) (hm : g2d_irq_intflags env w = 0) :
    g2d_irq_errstatus env w = u32 (env.g2d_hw_errint_status w.mem.dev) := by
  unfold g2d_irq_intflags at hm
  unfold g2d_irq_errstatus g2d_irq_finished
  simp [hm]

/-- C14: a spurious run of `g2d_irq_handler`, one that reads the finished-job
bitmask 0 and the error status 0: it takes the lock, reads the two registers,
releases the lock, wakes `freeze_wait` and returns `IRQ_HANDLED`; it makes no
other call (no `g2d_finish_task_with_id`, `g2d_hw_clear_job_ids`,
`g2d_flush_all_tasks`, `g2d_hw_global_reset`, `g2d_hw_clear_int`, no stamp)
and leaves the memory as it was, and so does any number `n` of such runs in
a row. -/
theorem g2d_irq_handler_spurious (env : G2dEnv σ δ) (w : World σ) (n : Nat)
    (hm : g2d_irq_intflags env w = 0)
    (he : g2d_irq_errstatus env w = 0) :
    (g2d_irq_handler env w).value = some IRQ_HANDLED ∧
      (g2d_irq_handler env w).trace =
        w.trace ++
          [Call.spin_lock, Call.g2d_hw_finished_job_ids, Call.g2d_hw_errint_status,
           Call.spin_unlock, Call.wake_up_freeze_wait] ∧
      (g2d_irq_handler env w).mem = w.mem ∧
      (g2d_irq_handler_times env n w).mem = w.mem := by
  rw [irq_errstatus_of_intflags_zero env w hm] at he
  unfold g2d_irq_intflags at hm
  refine ⟨?_, ?_, ?_, irq_handler_spurious_times env n w hm he⟩
  · rw [irq_handler_spurious_run env w hm he]; rfl
  · rw [irq_handler_spurious_run env w hm he]; rfl
  · rw [irq_handler_spurious_run env w hm he]; rfl

end Irq

/-! ## g2d_hw_timeout_handler -/

section Timeout

/-- The timeout handler returns: it stamps its own task, which is not NULL. -/
theorem timeout_returned (env : G2dEnv σ δ) (w : World σ) (task : TaskRef) :
    g2d_hw_timeout_handler env w task =
      Outcome.returned () (g2d_hw_timeout_handler env w task).world := by
  unfold g2d_hw_timeout_handler
  dsimp only
  split_ifs <;> first | rfl | simp

/-- The memory that the timeout handler leaves when it finds the task active
and not killed and its job RUNNING: the timer re-armed, the TIMEOUT_HW stamp
written, the task marked killed, and `g2d_hw_kill_task` applied to that. -/
theorem timeout_running_mem (env : G2dEnv σ δ) (w : World σ) (task : TaskRef)
    (hne : env.G2D_JOB_STATE_RUNNING ≠ env.G2D_JOB_STATE_DONE)
    (hactive : env.is_task_state_active w.mem.dev task = true)
    (hkilled : env.is_task_state_killed w.mem.dev task = false)
    (hrun : g2d_timeout_job_state env w task = env.G2D_JOB_STATE_RUNNING) :
    (g2d_hw_timeout_handler env w task).world.mem =
      env.g2d_hw_kill_task
        { dev := env.mark_task_state_killed
            (env.mod_timer w.mem.dev task env.G2D_HW_TIMEOUT_MSEC) task
          p_stamp := wrapInt32 (w.mem.p_stamp + 1)
          g2d_stamp_list := Function.update w.mem.g2d_stamp_list (g2d_stamp_slot w.mem.p_stamp)
            { time := env.ktime_get (env.mod_timer w.mem.dev task env.G2D_HW_TIMEOUT_MSEC)
              task := some task
              state := u32 (env.task_state
                (env.mod_timer w.mem.dev task env.G2D_HW_TIMEOUT_MSEC) task)
              job_id := u32 (env.task_job_id
                (env.mod_timer w.mem.dev task env.G2D_HW_TIMEOUT_MSEC) task)
              val := u32 env.G2D_STAMP_STATE_TIMEOUT_HW
              cpu := u8 (env.smp_processor_id
                (env.mod_timer w.mem.dev task env.G2D_HW_TIMEOUT_MSEC)) }
          g2d_debug := w.mem.g2d_debug }
        (env.task_job_id
          (env.mark_task_state_killed
            (env.mod_timer w.mem.dev task env.G2D_HW_TIMEOUT_MSEC) task) task) := by
  unfold g2d_timeout_job_state at hrun
  unfold g2d_hw_timeout_handler
  simp only [call_mem, hactive, hkilled, hrun, hne, Bool.not_true, Bool.false_eq_true, if_false,
    ne_eq, not_true_eq_false, stamp_some_andThen, returned_world, World.update, World.updateDev,
    World.call, stamp_some_mem]

/-- The flags of the task in the memory that the timeout handler leaves when it
finds the task active and not killed and its job RUNNING, for every observation
`obs` of the device: it is made on the device that `g2d_hw_kill_task` leaves
when called after the re-arm and the mark. -/
theorem timeout_running_dev (env : G2dEnv σ δ) (w : World σ) (task : TaskRef)
    (hne : env.G2D_JOB_STATE_RUNNING ≠ env.G2D_JOB_STATE_DONE)
    (hactive : env.is_task_state_active w.mem.dev task = true)
    (hkilled : env.is_task_state_killed w.mem.dev task = false)
    (hrun : g2d_timeout_job_state env w task = env.G2D_JOB_STATE_RUNNING) :
    ∃ (m : Mem σ) (id : Nat),
      m.dev = env.mark_task_state_killed
        (env.mod_timer w.mem.dev task env.G2D_HW_TIMEOUT_MSEC) task ∧
      (g2d_hw_timeout_handler env w task).world.mem = env.g2d_hw_kill_task m id :=
  ⟨_, _, rfl, timeout_running_mem env w task hne hactive hkilled hrun⟩

/-- C3: a task that is active and not marked killed, whose job the hardware
reports RUNNING when its timer expires: `g2d_hw_timeout_handler` re-arms the
timer of the task for `G2D_HW_TIMEOUT_MSEC`, records one TIMEOUT_HW stamp for
the task, marks the task killed and calls `g2d_hw_kill_task` once with
`task->job_id` (read where the source reads it, after the re-arm and the
mark); it calls neither `g2d_hw_global_reset` nor `g2d_flush_all_tasks`; and
it returns.  The memory it leaves is the one it found with the timer re-armed
(`mod_timer`), the counter of the stamp log advanced and the slot of the
counter holding the TIMEOUT_HW stamp of the task, the task marked killed
(`mark_task_state_killed`), and `g2d_hw_kill_task` applied to that.  The
constants RUNNING and DONE are taken to differ.  The record is given without
the prints of the stamp. -/
theorem g2d_hw_timeout_handler_running (env : G2dEnv σ δ) (w : World σ) (task : TaskRef)
    (hne : env.G2D_JOB_STATE_RUNNING ≠ env.G2D_JOB_STATE_DONE)
    (hactive : env.is_task_state_active w.mem.dev task = true)
    (hkilled : env.is_task_state_killed w.mem.dev task = false)
    (hrun : g2d_timeout_job_state env w task = env.G2D_JOB_STATE_RUNNING) :
    noPrints (g2d_hw_timeout_handler env w task).trace =
      noPrints w.trace ++
        [Call.dev_err (ErrMsg.time_is_up env.G2D_HW_TIMEOUT_MSEC (env.task_job_id w.mem.dev task)),
         Call.spin_lock_irqsave,
         Call.g2d_hw_get_job_state (env.task_job_id w.mem.dev task),
         Call.mod_timer task env.G2D_HW_TIMEOUT_MSEC,
         Call.g2d_stamp_task (some task) env.G2D_STAMP_STATE_TIMEOUT_HW,
         Call.mark_task_state_killed task,
         Call.g2d_hw_kill_task
           (env.task_job_id
             (env.mark_task_state_killed
               (env.mod_timer w.mem.dev task env.G2D_HW_TIMEOUT_MSEC) task) task),
         Call.spin_unlock_irqrestore] ∧
      (g2d_hw_timeout_handler env w task).value = some () ∧
      (g2d_hw_timeout_handler env w task).mem =
        env.g2d_hw_kill_task
          { dev := env.mark_task_state_killed
              (env.mod_timer w.mem.dev task env.G2D_HW_TIMEOUT_MSEC) task
            p_stamp := wrapInt32 (w.mem.p_stamp + 1)
            g2d_stamp_list :=
              Function.update w.mem.g2d_stamp_list (g2d_stamp_slot w.mem.p_stamp)
                { time := env.ktime_get (env.mod_timer w.mem.dev task env.G2D_HW_TIMEOUT_MSEC)
                  task := some task
                  state := u32 (env.task_state
                    (env.mod_timer w.mem.dev task env.G2D_HW_TIMEOUT_MSEC) task)
                  job_id := u32 (env.task_job_id
                    (env.mod_timer w.mem.dev task env.G2D_HW_TIMEOUT_MSEC) task)
                  val := u32 env.G2D_STAMP_STATE_TIMEOUT_HW
                  cpu := u8 (env.smp_processor_id
                    (env.mod_timer w.mem.dev task env.G2D_HW_TIMEOUT_MSEC)) }
            g2d_debug := w.mem.g2d_debug }
          (env.task_job_id
            (env.mark_task_state_killed
              (env.mod_timer w.mem.dev task env.G2D_HW_TIMEOUT_MSEC) task) task) := by
  refine ⟨?_, by rw [timeout_returned]; rfl,
    timeout_running_mem env w task hne hactive hkilled hrun⟩
  unfold g2d_timeout_job_state at hrun
  unfold g2d_hw_timeout_handler
  simp only [outcome_trace, stamp_some_andThen, returned_world, call_mem, hactive, hkilled, hrun,
    hne, Bool.not_true, Bool.false_eq_true, if_false, ne_eq, not_true_eq_false, call_trace,
    update_trace, updateDev_trace, updateDev_dev, noPrints_append, stamp_trace_noPrints,
    stamp_dev]
  simp [noPrints_cons, Call.isDebugPrint]

/-- C4: a task that is active and already marked killed, whose job the
hardware reports in any state other than DONE when its timer expires:
`g2d_hw_timeout_handler` calls `g2d_hw_global_reset` once and
`g2d_flush_all_tasks` once, and neither `g2d_hw_kill_task` nor `mod_timer`. -/
theorem g2d_hw_timeout_handler_double_timeout (env : G2dEnv σ δ) (w : World σ) (task : TaskRef)
    (hactive : env.is_task_state_active w.mem.dev task = true)
    (hkilled : env.is_task_state_killed w.mem.dev task = true)
    (hstate : g2d_timeout_job_state env w task ≠ env.G2D_JOB_STATE_DONE) :
    (g2d_hw_timeout_handler env w task).trace =
        w.trace ++
          [Call.dev_err
             (ErrMsg.time_is_up env.G2D_HW_TIMEOUT_MSEC (env.task_job_id w.mem.dev task)),
           Call.spin_lock_irqsave,
           Call.g2d_hw_get_job_state (env.task_job_id w.mem.dev task),
           Call.g2d_hw_global_reset,
           Call.g2d_flush_all_tasks,
           Call.dev_err (ErrMsg.global_reset_not_dead env.G2D_HW_TIMEOUT_MSEC),
           Call.spin_unlock_irqrestore] ∧
      (g2d_hw_timeout_handler env w task).mem =
        env.g2d_flush_all_tasks (env.g2d_hw_global_reset w.mem) := by
  unfold g2d_timeout_job_state at hstate
  unfold g2d_hw_timeout_handler
  simp [hactive, hkilled, hstate]

/-- C5: a task that is not active when its timer expires:
`g2d_hw_timeout_handler` logs the expiry, takes the lock and releases it, and
nothing else: no `g2d_hw_get_job_state`, no `mod_timer`, no stamp, no
`g2d_hw_kill_task`, `g2d_hw_global_reset` or `g2d_flush_all_tasks`, and the
memory (the task states with it) is as it was. -/
theorem g2d_hw_timeout_handler_inactive (env : G2dEnv σ δ) (w : World σ) (task : TaskRef)
    (hinactive : env.is_task_state_active w.mem.dev task = false) :
    (g2d_hw_timeout_handler env w task).trace =
        w.trace ++
          [Call.dev_err
             (ErrMsg.time_is_up env.G2D_HW_TIMEOUT_MSEC (env.task_job_id w.mem.dev task)),
           Call.spin_lock_irqsave,
           Call.spin_unlock_irqrestore] ∧
      (g2d_hw_timeout_handler env w task).mem = w.mem := by
  unfold g2d_hw_timeout_handler
  simp [hinactive]

/-- C6: an active task, killed or not, whose job the hardware reports DONE
when its timer expires: after reading the job state `g2d_hw_timeout_handler`
only releases the lock: no `mod_timer`, no stamp, no mark, no
`g2d_hw_kill_task`, `g2d_hw_global_reset` or `g2d_flush_all_tasks`, and the
memory is as it was. -/
theorem g2d_hw_timeout_handler_done (env : G2dEnv σ δ) (w : World σ) (task : TaskRef)
    (hactive : env.is_task_state_active w.mem.dev task = true)
    (hdone : g2d_timeout_job_state env w task = env.G2D_JOB_STATE_DONE) :
    (g2d_hw_timeout_handler env w task).trace =
        w.trace ++
          [Call.dev_err
             (ErrMsg.time_is_up env.G2D_HW_TIMEOUT_MSEC (env.task_job_id w.mem.dev task)),
           Call.spin_lock_irqsave,
           Call.g2d_hw_get_job_state (env.task_job_id w.mem.dev task),
           Call.spin_unlock_irqrestore] ∧
      (g2d_hw_timeout_handler env w task).mem = w.mem := by
  unfold g2d_timeout_job_state at hdone
  unfold g2d_hw_timeout_handler
  simp [hactive, hdone]

/-- C7: a task that is active and not marked killed, whose job the hardware
reports neither DONE nor RUNNING when its timer expires:
`g2d_hw_timeout_handler` only re-arms the timer of the task: no stamp, no
mark, no `g2d_hw_kill_task`, `g2d_hw_global_reset` or `g2d_flush_all_tasks`,
and the memory changes by the `mod_timer` alone. -/
theorem g2d_hw_timeout_handler_queued (env : G2dEnv σ δ) (w : World σ) (task : TaskRef)
    (hactive : env.is_task_state_active w.mem.dev task = true)
    (hkilled : env.is_task_state_killed w.mem.dev task = false)
    (hnotdone : g2d_timeout_job_state env w task ≠ env.G2D_JOB_STATE_DONE)
    (hnotrun : g2d_timeout_job_state env w task ≠ env.G2D_JOB_STATE_RUNNING) :
    (g2d_hw_timeout_handler env w task).trace =
        w.trace ++
          [Call.dev_err
             (ErrMsg.time_is_up env.G2D_HW_TIMEOUT_MSEC (env.task_job_id w.mem.dev task)),
           Call.spin_lock_irqsave,
           Call.g2d_hw_get_job_state (env.task_job_id w.mem.dev task),
           Call.mod_timer task env.G2D_HW_TIMEOUT_MSEC,
           Call.spin_unlock_irqrestore] ∧
      (g2d_hw_timeout_handler env w task).mem =
        { w.mem with dev := env.mod_timer w.mem.dev task env.G2D_HW_TIMEOUT_MSEC } := by
  unfold g2d_timeout_job_state at hnotdone hnotrun
  unfold g2d_hw_timeout_handler
  simp [hactive, hkilled, hnotdone, hnotrun, World.updateDev]

/-- No call that arms a timer or marks a task killed is a print. -/
theorem isTimerOrKillMark_print (c : Call) (h : c.isDebugPrint = true) :
    c.isTimerOrKillMark = false := by
  cases c <;> simp_all [Call.isDebugPrint, Call.isTimerOrKillMark]

/-- C16, as the code has it: a task that `g2d_hw_timeout_handler` marks
killed has its timeout timer pending when the handler returns.  In every run
the calls that arm a timer or mark a task killed are: none, when the task is
not active, its job is DONE or it is already killed; otherwise one
`mod_timer` that re-arms the timer of the task for `G2D_HW_TIMEOUT_MSEC`,
followed, when the job is RUNNING, by the one `mark_task_state_killed`.  And
in the memory that such a marking run leaves, the task is marked killed and
its timer is pending: `pending` is any observation of the device that holds
once `mod_timer` armed the timer of the task and that
`mark_task_state_killed` and `g2d_hw_kill_task` leave as it is, and the mark
is taken to stay through `g2d_hw_kill_task` (the three are not among the
sources). -/
theorem g2d_hw_timeout_handler_timer (env : G2dEnv σ δ) (w : World σ) (task : TaskRef)
    (pending : σ → Bool)
    (harm : ∀ d, pending (env.mod_timer d task env.G2D_HW_TIMEOUT_MSEC) = true)
    (hmark_timer : ∀ d, pending (env.mark_task_state_killed d task) = pending d)
    (hkill_timer : ∀ m id, pending (env.g2d_hw_kill_task m id).dev = pending m.dev)
    (hmark : ∀ d, env.is_task_state_killed (env.mark_task_state_killed d task) task = true)
    (hkill : ∀ m id, env.is_task_state_killed (env.g2d_hw_kill_task m id).dev task =
      env.is_task_state_killed m.dev task) :
    (g2d_hw_timeout_handler env w task).trace.filter Call.isTimerOrKillMark =
      w.trace.filter Call.isTimerOrKillMark ++
        (if env.is_task_state_active w.mem.dev task = true ∧
            g2d_timeout_job_state env w task ≠ env.G2D_JOB_STATE_DONE ∧
            env.is_task_state_killed w.mem.dev task = false then
          Call.mod_timer task env.G2D_HW_TIMEOUT_MSEC ::
            (if g2d_timeout_job_state env w task = env.G2D_JOB_STATE_RUNNING then
              [Call.mark_task_state_killed task]
             else [])
         else []) ∧
      (env.is_task_state_active w.mem.dev task = true →
        env.is_task_state_killed w.mem.dev task = false →
        g2d_timeout_job_state env w task = env.G2D_JOB_STATE_RUNNING →
        env.G2D_JOB_STATE_RUNNING ≠ env.G2D_JOB_STATE_DONE →
        (g2d_hw_timeout_handler env w task).value = some () ∧
          env.is_task_state_killed (g2d_hw_timeout_handler env w task).mem.dev task = true ∧
          pending (g2d_hw_timeout_handler env w task).mem.dev = true) := by
  constructor
  · rw [outcome_trace, filter_noPrints _ isTimerOrKillMark_print,
      filter_noPrints _ isTimerOrKillMark_print w.trace]
    unfold g2d_timeout_job_state g2d_hw_timeout_handler
    dsimp only
    cases hactive : env.is_task_state_active w.mem.dev task
    · simp [hactive, noPrints_cons, Call.isDebugPrint, Call.isTimerOrKillMark]
    · by_cases hdone :
          u32 (env.g2d_hw_get_job_state w.mem.dev (env.task_job_id w.mem.dev task)) =
            env.G2D_JOB_STATE_DONE
      · simp [hactive, hdone, noPrints_cons, Call.isDebugPrint, Call.isTimerOrKillMark]
      · cases hkilled : env.is_task_state_killed w.mem.dev task
        · by_cases hrun :
              u32 (env.g2d_hw_get_job_state w.mem.dev (env.task_job_id w.mem.dev task)) =
                env.G2D_JOB_STATE_RUNNING
          · have hne : ¬ env.G2D_JOB_STATE_RUNNING = env.G2D_JOB_STATE_DONE := fun h =>
              hdone (hrun.trans h)
            simp [hactive, hkilled, hrun, hne, stamp_trace_noPrints, noPrints_cons,
              Call.isDebugPrint, Call.isTimerOrKillMark]
          · simp [hactive, hkilled, hdone, hrun, noPrints_cons, Call.isDebugPrint,
              Call.isTimerOrKillMark]
        · simp [hactive, hkilled, hdone, noPrints_cons, Call.isDebugPrint,
            Call.isTimerOrKillMark]
  · intro hactive hkilled hrun hne
    obtain ⟨m, id, hm, hmem⟩ := timeout_running_dev env w task hne hactive hkilled hrun
    refine ⟨by rw [timeout_returned]; rfl, ?_, ?_⟩
    · rw [outcome_mem, hmem, hkill, hm, hmark]
    · rw [outcome_mem, hmem, hkill_timer, hm, hmark_timer, harm]

/-- C16, as the claim has it, fails: on `Demo.dev0` the expiry of the timer of
task 0 leaves the task marked killed with a timer pending, armed for 500
msec. -/
theorem g2d_hw_timeout_handler_killed_has_timer :
    (g2d_hw_timeout_handler Demo.env (Demo.world Demo.dev0) 0).value = some () ∧
      Demo.env.is_task_state_killed
        (g2d_hw_timeout_handler Demo.env (Demo.world Demo.dev0) 0).mem.dev 0 = true ∧
      ((g2d_hw_timeout_handler Demo.env (Demo.world Demo.dev0) 0).mem.dev.tasks 0).timer =
        some 500 := by
  decide

/-- No call with which the handler acts on a task or on the hardware is a
print. -/
theorem isTimeoutAction_print (c : Call) (h : c.isDebugPrint = true) :
    c.isTimeoutAction = false := by
  cases c <;> simp_all [Call.isDebugPrint, Call.isTimeoutAction]

/-- The calls of one run of `g2d_hw_timeout_handler` that act on a task or on
the hardware, for every state the run may find. -/
theorem timeout_actions (env : G2dEnv σ δ) (w : World σ) (task : TaskRef) :
    (g2d_hw_timeout_handler env w task).world.trace.filter Call.isTimeoutAction =
      w.trace.filter Call.isTimeoutAction ++
        (if env.is_task_state_active w.mem.dev task = true ∧
            g2d_timeout_job_state env w task ≠ env.G2D_JOB_STATE_DONE then
          if env.is_task_state_killed w.mem.dev task = true then
            [Call.g2d_hw_global_reset, Call.g2d_flush_all_tasks]
          else
            Call.mod_timer task env.G2D_HW_TIMEOUT_MSEC ::
              (if g2d_timeout_job_state env w task = env.G2D_JOB_STATE_RUNNING then
                [Call.mark_task_state_killed task,
                 Call.g2d_hw_kill_task
                   (env.task_job_id
                     (env.mark_task_state_killed
                       (env.mod_timer w.mem.dev task env.G2D_HW_TIMEOUT_MSEC) task) task)]
               else [])
         else []) := by
  rw [filter_noPrints _ isTimeoutAction_print,
    filter_noPrints _ isTimeoutAction_print w.trace]
  unfold g2d_timeout_job_state g2d_hw_timeout_handler
  dsimp only
  cases hactive : env.is_task_state_active w.mem.dev task
  · simp [hactive, noPrints_cons, Call.isDebugPrint, Call.isTimeoutAction]
  · by_cases hdone :
        u32 (env.g2d_hw_get_job_state w.mem.dev (env.task_job_id w.mem.dev task)) =
          env.G2D_JOB_STATE_DONE
    · simp [hactive, hdone, noPrints_cons, Call.isDebugPrint, Call.isTimeoutAction]
    · cases hkilled : env.is_task_state_killed w.mem.dev task
      · by_cases hrun :
            u32 (env.g2d_hw_get_job_state w.mem.dev (env.task_job_id w.mem.dev task)) =
              env.G2D_JOB_STATE_RUNNING
        · have hne : ¬ env.G2D_JOB_STATE_RUNNING = env.G2D_JOB_STATE_DONE := fun h =>
            hdone (hrun.trans h)
          simp [hactive, hkilled, hrun, hne, stamp_trace_noPrints, stamp_dev, noPrints_cons,
            Call.isDebugPrint, Call.isTimeoutAction]
        · simp [hactive, hkilled, hdone, hrun, noPrints_cons, Call.isDebugPrint,
            Call.isTimeoutAction]
      · simp [hactive, hkilled, hdone, noPrints_cons, Call.isDebugPrint,
          Call.isTimeoutAction]

/-- C21: the timer of a task expires twice.  At the first expiry (world `w`)
the task is active and not marked killed and the hardware reports its job
RUNNING.  The second run continues the record of calls of the first and
starts in a memory `m2` in which the task is as the first run left it: its
active flag and its killed mark are those of the memory in which the first run
returned, and the hardware reports its job in any state other than DONE.  The
macros and functions applied to the task in the first run are not among the
sources and are taken to do what their names say: `mark_task_state_killed`
sets the mark that `is_task_state_killed` tests, `g2d_hw_kill_task` leaves it,
and `mod_timer`, `mark_task_state_killed` and `g2d_hw_kill_task` leave the
active flag.  Then both runs return, the task is marked killed in the memory
the first run leaves, and over the two runs `g2d_hw_kill_task` is called
exactly once, in the first run, with `task->job_id` (read after the re-arm and
the mark), and `g2d_hw_global_reset` and `g2d_flush_all_tasks` are called
exactly once each, in the second run, in this order.  The constants RUNNING
and DONE are taken to differ. -/
theorem g2d_hw_timeout_handler_kill_then_reset (env : G2dEnv σ δ) (w : World σ) (m2 : Mem σ)
    (task : TaskRef)
    (hne : env.G2D_JOB_STATE_RUNNING ≠ env.G2D_JOB_STATE_DONE)
    (hactive : env.is_task_state_active w.mem.dev task = true)
    (hkilled : env.is_task_state_killed w.mem.dev task = false)
    (hrun : g2d_timeout_job_state env w task = env.G2D_JOB_STATE_RUNNING)
    (hmark : ∀ d, env.is_task_state_killed (env.mark_task_state_killed d task) task = true)
    (hkill : ∀ m id, env.is_task_state_killed (env.g2d_hw_kill_task m id).dev task =
      env.is_task_state_killed m.dev task)
    (htimer_active : ∀ d,
      env.is_task_state_active (env.mod_timer d task env.G2D_HW_TIMEOUT_MSEC) task =
        env.is_task_state_active d task)
    (hmark_active : ∀ d, env.is_task_state_active (env.mark_task_state_killed d task) task =
      env.is_task_state_active d task)
    (hkill_active : ∀ m id, env.is_task_state_active (env.g2d_hw_kill_task m id).dev task =
      env.is_task_state_active m.dev task)
    (hsame_active : env.is_task_state_active m2.dev task =
      env.is_task_state_active (g2d_hw_timeout_handler env w task).mem.dev task)
    (hsame_killed : env.is_task_state_killed m2.dev task =
      env.is_task_state_killed (g2d_hw_timeout_handler env w task).mem.dev task)
    (hstate2 : g2d_timeout_job_state env { mem := m2, trace := [] } task ≠
      env.G2D_JOB_STATE_DONE) :
    (g2d_hw_timeout_handler env w task).value = some () ∧
      env.is_task_state_killed (g2d_hw_timeout_handler env w task).mem.dev task = true ∧
      (g2d_hw_timeout_handler env
        { mem := m2, trace := (g2d_hw_timeout_handler env w task).trace } task).value =
          some () ∧
      (g2d_hw_timeout_handler env
          { mem := m2, trace := (g2d_hw_timeout_handler env w task).trace } task).trace.filter
          Call.isTimeoutAction =
        w.trace.filter Call.isTimeoutAction ++
          [Call.mod_timer task env.G2D_HW_TIMEOUT_MSEC,
           Call.mark_task_state_killed task,
           Call.g2d_hw_kill_task
             (env.task_job_id
               (env.mark_task_state_killed
                 (env.mod_timer w.mem.dev task env.G2D_HW_TIMEOUT_MSEC) task) task),
           Call.g2d_hw_global_reset,
           Call.g2d_flush_all_tasks] := by
  obtain ⟨m, id, hm, hmem⟩ := timeout_running_dev env w task hne hactive hkilled hrun
  have hkilled1 :
      env.is_task_state_killed (g2d_hw_timeout_handler env w task).mem.dev task = true := by
    rw [outcome_mem, hmem, hkill, hm, hmark]
  have hactive1 :
      env.is_task_state_active (g2d_hw_timeout_handler env w task).mem.dev task = true := by
    rw [outcome_mem, hmem, hkill_active, hm, hmark_active, htimer_active, hactive]
  have hactive2 : env.is_task_state_active m2.dev task = true := hsame_active.trans hactive1
  have hkilled2 : env.is_task_state_killed m2.dev task = true := hsame_killed.trans hkilled1
  have hstate2' : g2d_timeout_job_state env
      { mem := m2, trace := (g2d_hw_timeout_handler env w task).world.trace } task ≠
        env.G2D_JOB_STATE_DONE := hstate2
  refine ⟨by rw [timeout_returned]; rfl, hkilled1, by rw [timeout_returned]; rfl, ?_⟩
  simp only [outcome_trace]
  rw [timeout_actions, timeout_actions]
  simp only [hactive, hkilled, hrun, hne, hactive2, hkilled2, hstate2', ne_eq,
    not_false_eq_true, and_self, if_true, Bool.false_eq_true, if_false, List.append_assoc]
  rfl

end Timeout

/-! ## g2d_ioctl -/

section Ioctl

/-- C8: a `G2D_IOC_PROCESS` call whose user data is readable and for which
`g2d_get_free_task` returns no task returns `-EBUSY`; after
`copy_from_user` and `g2d_get_free_task` it makes no call at all, so no
`g2d_get_userdata`, no BEGIN stamp, no `g2d_start_task`, no
`g2d_wait_put_user`. -/
theorem g2d_ioctl_no_free_task (env : G2dEnv σ δ) (w : World σ) (arg : Nat)
    (hread : (env.copy_from_user w.mem.dev arg).1 = 0)
    (hnone : (env.g2d_get_free_task w.mem).1 = none) :
    (g2d_ioctl env w env.G2D_IOC_PROCESS arg).value = some (-EBUSY) ∧
      (g2d_ioctl env w env.G2D_IOC_PROCESS arg).trace =
        w.trace ++ [Call.copy_from_user arg, Call.g2d_get_free_task] ∧
      (g2d_ioctl env w env.G2D_IOC_PROCESS arg).mem = (env.g2d_get_free_task w.mem).2 := by
  unfold g2d_ioctl
  simp [hread, hnone]

/-- C9: a `G2D_IOC_PROCESS` call that acquired the free task `task` and for
which `g2d_get_userdata` returns `r < 0` returns `r`; it hands the task back
with one `g2d_put_free_task(task)` and makes no further call: no BEGIN stamp,
no `g2d_start_task`, no `g2d_wait_put_user`. -/
theorem g2d_ioctl_bad_userdata (env : G2dEnv σ δ) (w : World σ) (arg : Nat) (task : TaskRef)
    (r : Int)
    (hread : (env.copy_from_user w.mem.dev arg).1 = 0)
    (hsome : (env.g2d_get_free_task w.mem).1 = some task)
    (hret : (g2d_ioctl_userdata env w arg task).1 = r)
    (hneg : r < 0) :
    (g2d_ioctl env w env.G2D_IOC_PROCESS arg).value = some r ∧
      (g2d_ioctl env w env.G2D_IOC_PROCESS arg).trace =
        w.trace ++
          [Call.copy_from_user arg, Call.g2d_get_free_task, Call.kref_init task,
           Call.g2d_get_userdata task, Call.g2d_put_free_task task] ∧
      (g2d_ioctl env w env.G2D_IOC_PROCESS arg).mem =
        env.g2d_put_free_task (g2d_ioctl_userdata env w arg task).2 task := by
  subst hret
  unfold g2d_ioctl_userdata g2d_ioctl_acquired_mem at hneg ⊢
  unfold g2d_ioctl
  simp [hread, hsome, hneg, World.updateDev]

/-- C10: a `G2D_IOC_PROCESS` call for which `copy_from_user` fails returns
`-EFAULT`; it logs the failure and makes no other call, so
`g2d_get_free_task` is not called, and the memory (the task pool with it) is
as it was. -/
theorem g2d_ioctl_copy_fails (env : G2dEnv σ δ) (w : World σ) (arg : Nat)
    (hfail : (env.copy_from_user w.mem.dev arg).1 ≠ 0) :
    (g2d_ioctl env w env.G2D_IOC_PROCESS arg).value = some (-EFAULT) ∧
      (g2d_ioctl env w env.G2D_IOC_PROCESS arg).trace =
        w.trace ++ [Call.copy_from_user arg, Call.dev_err ErrMsg.failed_to_read_task_data] ∧
      (g2d_ioctl env w env.G2D_IOC_PROCESS arg).mem = w.mem := by
  unfold g2d_ioctl
  simp [hfail]

end Ioctl

/-! ## g2d_iommu_fault_handler -/

section Iommu

/-- The world in which the fault handler ends is the one in which its stamp
ends. -/
theorem iommu_world (env : G2dEnv σ δ) (w : World σ) :
    (g2d_iommu_fault_handler env w).world =
      (g2d_stamp_task env
        ((((w.call Call.g2d_hw_get_current_task).call Call.spin_lock_irqsave).call
          (Call.g2d_get_active_task_from_id (env.g2d_hw_get_current_task w.mem.dev))).call
          Call.spin_unlock_irqrestore)
        (env.g2d_get_active_task_from_id w.mem.dev (env.g2d_hw_get_current_task w.mem.dev))
        env.G2D_STAMP_STATE_MMUFAULT).world := by
  unfold g2d_iommu_fault_handler
  dsimp only [call_mem]
  exact andThen_returned_world _ _

/-- C17 at the fault handler: for every device state the first call of
`g2d_iommu_fault_handler` is the hardware read `g2d_hw_get_current_task`, and
the lock is acquired only after it. -/
theorem g2d_iommu_fault_handler_reads_before_lock (env : G2dEnv σ δ) (w : World σ) :
    ∃ rest : List Call,
      (g2d_iommu_fault_handler env w).trace =
        w.trace ++ Call.g2d_hw_get_current_task :: Call.spin_lock_irqsave :: rest := by
  obtain ⟨l, -, hl⟩ := stamp_trace env
    ((((w.call Call.g2d_hw_get_current_task).call Call.spin_lock_irqsave).call
      (Call.g2d_get_active_task_from_id (env.g2d_hw_get_current_task w.mem.dev))).call
      Call.spin_unlock_irqrestore)
    (env.g2d_get_active_task_from_id w.mem.dev (env.g2d_hw_get_current_task w.mem.dev))
    env.G2D_STAMP_STATE_MMUFAULT
  refine ⟨Call.g2d_get_active_task_from_id (env.g2d_hw_get_current_task w.mem.dev) ::
    Call.spin_unlock_irqrestore ::
    Call.g2d_stamp_task
      (env.g2d_get_active_task_from_id w.mem.dev (env.g2d_hw_get_current_task w.mem.dev))
      env.G2D_STAMP_STATE_MMUFAULT :: l, ?_⟩
  rw [outcome_trace, iommu_world, hl]
  simp

/-- The fault handler enters `g2d_dump_task` with whatever
`g2d_get_active_task_from_id` answered, a null task included, for every
environment whose constant `G2D_STAMP_STATE_MMUFAULT` fits the `u32` argument
of `g2d_stamp_task`. -/
theorem iommu_dumps_lookup (env : G2dEnv σ δ) (w : World σ)
    (h32 : u32 env.G2D_STAMP_STATE_MMUFAULT = env.G2D_STAMP_STATE_MMUFAULT) :
    Call.g2d_dump_task
        (env.g2d_get_active_task_from_id w.mem.dev (env.g2d_hw_get_current_task w.mem.dev)) ∈
      (g2d_iommu_fault_handler env w).world.trace := by
  rw [iommu_world]
  unfold g2d_stamp_task g2d_dump_task
  dsimp only
  cases env.g2d_get_active_task_from_id w.mem.dev (env.g2d_hw_get_current_task w.mem.dev) <;>
    simp only [h32, true_or, or_true, if_true, returned_andThen, oops_andThen] <;>
    (try split_ifs) <;> simp [World.call, World.update]

/-- C27, as the code has it: `g2d_iommu_fault_handler` stamps MMUFAULT with
whatever `g2d_get_active_task_from_id` answered, and `g2d_stamp_task` enters
`g2d_dump_task` with it.  On `Demo.devNoJob` the hardware has no current job,
no active task is found, `g2d_dump_task` is entered with a null task, and the
handler does not return. -/
theorem g2d_iommu_fault_handler_dumps_null :
    Demo.env.g2d_get_active_task_from_id (Demo.world Demo.devNoJob).mem.dev
        (Demo.env.g2d_hw_get_current_task (Demo.world Demo.devNoJob).mem.dev) = none ∧
      (g2d_iommu_fault_handler Demo.env (Demo.world Demo.devNoJob)).trace =
        [Call.g2d_hw_get_current_task, Call.spin_lock_irqsave,
         Call.g2d_get_active_task_from_id (-1), Call.spin_unlock_irqrestore,
         Call.g2d_stamp_task none 9, Call.g2d_dump_task none] ∧
      (g2d_iommu_fault_handler Demo.env (Demo.world Demo.devNoJob)).value = none := by
  decide

end Iommu

/-! ## The stamp log -/

section StampLog

variable (env : G2dEnv σ δ)

/-- A stamp advances the counter by one, wrapping as a signed 32-bit
integer. -/
theorem stamp_p_stamp (w : World σ) (task : Option TaskRef) (val : Nat) :
    (g2d_stamp_task env w task val).world.mem.p_stamp = wrapInt32 (w.mem.p_stamp + 1) := by
  unfold g2d_stamp_task g2d_dump_task
  dsimp only
  cases task <;> split_ifs <;> simp only [returned_andThen, oops_andThen] <;>
    (try split_ifs) <;> rfl

/-- A stamp writes the slot `g2d_stamp_slot` of the counter: the value and the
task of the call. -/
theorem stamp_list_at (w : World σ) (task : Option TaskRef) (val : Nat) :
    ((g2d_stamp_task env w task val).world.mem.g2d_stamp_list
          (g2d_stamp_slot w.mem.p_stamp)).val = u32 val ∧
      ((g2d_stamp_task env w task val).world.mem.g2d_stamp_list
          (g2d_stamp_slot w.mem.p_stamp)).task = task := by
  unfold g2d_stamp_task g2d_dump_task g2d_stamp_slot
  dsimp only
  cases task <;> split_ifs <;> simp only [returned_andThen, oops_andThen] <;>
    (try split_ifs) <;> simp [World.update, World.call]

/-- A stamp leaves every other slot as it is. -/
theorem stamp_list_other (w : World σ) (task : Option TaskRef) (val : Nat) (s : Nat)
    (hs : s ≠ g2d_stamp_slot w.mem.p_stamp) :
    (g2d_stamp_task env w task val).world.mem.g2d_stamp_list s = w.mem.g2d_stamp_list s := by
  unfold g2d_stamp_slot at hs
  unfold g2d_stamp_task g2d_dump_task
  dsimp only
  cases task <;> split_ifs <;> simp only [returned_andThen, oops_andThen] <;>
    (try split_ifs) <;> simp [World.update, World.call, Function.update, hs]

/-- The slot of a stamp in terms of the counter. -/
theorem stamp_slot_eq (c : Int) :
    g2d_stamp_slot c = ((c + 1) % 4294967296 % 1024).toNat ∧
      g2d_stamp_slot c < G2D_MAX_STAMP_SIZE := by
  unfold g2d_stamp_slot wrapInt32 G2D_MAX_STAMP_SIZE
  constructor <;> omega

/-- The function `g2d_init_debug` leaves the counter at -1. -/
theorem init_debug_p_stamp (w : World σ) : (g2d_init_debug env w).mem.p_stamp = -1 := by
  unfold g2d_init_debug
  dsimp only
  split_ifs <;> rfl

/-- Two lists of stamps, one after the other. -/
theorem stamp_tasks_append (w : World σ) (l₁ l₂ : List (Option TaskRef × Nat)) :
    g2d_stamp_tasks env w (l₁ ++ l₂) =
      g2d_stamp_tasks env (g2d_stamp_tasks env w l₁) l₂ := by
  unfold g2d_stamp_tasks
  rw [List.foldl_append]

/-- The slot of the next stamp after a list of stamps. -/
theorem stamp_tasks_slot (w : World σ) (l : List (Option TaskRef × Nat)) :
    g2d_stamp_slot (g2d_stamp_tasks env w l).mem.p_stamp =
      (g2d_stamp_slot w.mem.p_stamp + l.length) % 1024 := by
  induction l generalizing w with
  | nil =>
    have := (stamp_slot_eq w.mem.p_stamp).2
    unfold G2D_MAX_STAMP_SIZE at this
    simp [g2d_stamp_tasks]
    omega
  | cons a rest ih =>
    have hstep : g2d_stamp_tasks env w (a :: rest) =
        g2d_stamp_tasks env (g2d_stamp_task env w a.1 a.2).world rest := rfl
    rw [hstep, ih, stamp_p_stamp]
    unfold g2d_stamp_slot wrapInt32 G2D_MAX_STAMP_SIZE
    simp only [List.length_cons]
    omega

/-- The slot of the next stamp after `g2d_init_debug` and a list of stamps. -/
theorem init_stamp_tasks_slot (w : World σ) (l : List (Option TaskRef × Nat)) :
    g2d_stamp_slot (g2d_stamp_tasks env (g2d_init_debug env w) l).mem.p_stamp =
      l.length % 1024 := by
  rw [stamp_tasks_slot, init_debug_p_stamp]
  have h0 : g2d_stamp_slot (-1) = 0 := by
    unfold g2d_stamp_slot wrapInt32 G2D_MAX_STAMP_SIZE
    omega
  rw [h0, Nat.zero_add]

/-- C19: the stamp log is a ring of 1024 slots.  For every value `c` of the
counter `p_stamp`, negative values and `INT_MAX` included, `g2d_stamp_task`
writes the slot `((c + 1) mod 2^32) mod 1024`, which is below 1024, leaves the
other slots as they are and leaves the counter at `c + 1` wrapped to 32 bits;
hence after `g2d_init_debug` and `k - 1` stamps the `k`-th stamp goes to slot
`(k - 1) mod 1024`, and of the stamps that follow a stamp it is the 1024th,
and none before it, that goes to the same slot. -/
theorem g2d_stamp_task_ring (env : G2dEnv σ δ) (w : World σ) (task : Option TaskRef)
    (val : Nat) (before : List (Option TaskRef × Nat)) :
    g2d_stamp_slot w.mem.p_stamp = ((w.mem.p_stamp + 1) % 4294967296 % 1024).toNat ∧
      g2d_stamp_slot w.mem.p_stamp < G2D_MAX_STAMP_SIZE ∧
      ((g2d_stamp_task env w task val).mem.g2d_stamp_list (g2d_stamp_slot w.mem.p_stamp)).val =
        u32 val ∧
      ((g2d_stamp_task env w task val).mem.g2d_stamp_list (g2d_stamp_slot w.mem.p_stamp)).task =
        task ∧
      (∀ s, s ≠ g2d_stamp_slot w.mem.p_stamp →
        (g2d_stamp_task env w task val).mem.g2d_stamp_list s = w.mem.g2d_stamp_list s) ∧
      (g2d_stamp_task env w task val).mem.p_stamp = wrapInt32 (w.mem.p_stamp + 1) ∧
      g2d_stamp_slot (g2d_stamp_tasks env (g2d_init_debug env w) before).mem.p_stamp =
        before.length % 1024 ∧
      (∀ between : List (Option TaskRef × Nat), between.length ≤ 1024 →
        (g2d_stamp_slot
            (g2d_stamp_tasks env (g2d_init_debug env w) (before ++ between)).mem.p_stamp =
          g2d_stamp_slot (g2d_stamp_tasks env (g2d_init_debug env w) before).mem.p_stamp ↔
        between.length = 0 ∨ between.length = 1024)) := by
  refine ⟨(stamp_slot_eq _).1, (stamp_slot_eq _).2, (stamp_list_at env w task val).1,
    (stamp_list_at env w task val).2, fun s hs => stamp_list_other env w task val s hs,
    stamp_p_stamp env w task val, init_stamp_tasks_slot env w before, ?_⟩
  intro between hlen
  rw [init_stamp_tasks_slot, init_stamp_tasks_slot, List.length_append]
  omega


/-- The step `i++; i &= (G2D_MAX_STAMP_SIZE - 1)` of the loop. -/
theorem stamp_show_next (i : Nat) : (i + 1) &&& (G2D_MAX_STAMP_SIZE - 1) = (i + 1) % 1024 := by
  have h := Nat.and_pow_two_sub_one_eq_mod (i + 1) 10
  simpa [G2D_MAX_STAMP_SIZE] using h

/-- The loop of `g2d_stamp_show`, `a` slots after its start and `r` slots
before its end: it prints the `r` slots and leaves. -/
theorem stamp_show_loop_run (list : Nat → G2dStamp) (ptr : Nat) (hptr : ptr < 1024)
    (r : Nat) : ∀ (a fuel : Nat) (out : List ShowLine), r + 1 + a = 1024 → r + 1 ≤ fuel →
    g2d_stamp_show_loop list ptr fuel ((ptr + a) % 1024) out =
      some (out ++ (List.range (r + 1)).map fun j =>
        g2d_stamp_show_line ((ptr + a + j) % 1024) (list ((ptr + a + j) % 1024))) := by
  induction r with
  | zero =>
    intro a fuel out ha hfuel
    obtain ⟨f, rfl⟩ : ∃ f, fuel = f + 1 := ⟨fuel - 1, by omega⟩
    have hnext : ((ptr + a) % 1024 + 1) % 1024 = ptr := by omega
    rw [g2d_stamp_show_loop]
    simp only [stamp_show_next, hnext, if_true]
    rfl
  | succ r ih =>
    intro a fuel out ha hfuel
    obtain ⟨f, rfl⟩ : ∃ f, fuel = f + 1 := ⟨fuel - 1, by omega⟩
    have hnext : ((ptr + a) % 1024 + 1) % 1024 = (ptr + (a + 1)) % 1024 := by omega
    have hne : ¬ (ptr + (a + 1)) % 1024 = ptr := by omega
    rw [g2d_stamp_show_loop]
    simp only [stamp_show_next, hnext, hne, if_false]
    rw [ih (a + 1) f _ (by omega) (by omega)]
    rw [List.range_succ_eq_map (r + 1)]
    simp only [List.map_cons, List.map_map, List.append_assoc, List.singleton_append,
      Nat.add_zero]
    congr 3
    apply List.map_congr_left
    intro j _
    simp only [Function.comp, Nat.succ_eq_add_one]
    rw [show ptr + (a + 1) + j = ptr + a + (j + 1) by omega]

/-- The loop of `g2d_stamp_show` does not leave before it has printed all the
slots up to its start. -/
theorem stamp_show_loop_short (list : Nat → G2dStamp) (ptr : Nat)
    (fuel : Nat) : ∀ (a : Nat) (out : List ShowLine), fuel + a < 1024 →
    g2d_stamp_show_loop list ptr fuel ((ptr + a) % 1024) out = none := by
  induction fuel with
  | zero => intro a out _; rfl
  | succ f ih =>
    intro a out ha
    have hnext : ((ptr + a) % 1024 + 1) % 1024 = (ptr + (a + 1)) % 1024 := by omega
    have hne : ¬ (ptr + (a + 1)) % 1024 = ptr := by omega
    rw [g2d_stamp_show_loop]
    simp only [stamp_show_next, hnext, hne, if_false]
    exact ih (a + 1) _ (by omega)

/-- The lines of `g2d_stamp_show` for a counter that is not negative. -/
theorem stamp_show_lines (m : Mem σ) (fuel : Nat) (hptr : 0 ≤ m.p_stamp)
    (hfuel : 1024 ≤ fuel) :
    g2d_stamp_show m fuel =
      some (0, (List.range 1024).map fun j =>
        g2d_stamp_show_line ((m.p_stamp.toNat + 1 + j) % 1024)
          (m.g2d_stamp_list ((m.p_stamp.toNat + 1 + j) % 1024))) := by
  have hslot : (wrapInt32 (m.p_stamp + 1) % (G2D_MAX_STAMP_SIZE : Int)).toNat =
      (m.p_stamp.toNat + 1) % 1024 := by
    unfold wrapInt32 G2D_MAX_STAMP_SIZE
    omega
  have hlt : (m.p_stamp.toNat + 1) % 1024 < 1024 := Nat.mod_lt _ (by norm_num)
  have hrun := stamp_show_loop_run m.g2d_stamp_list _ hlt 1023 0 fuel [] (by norm_num)
    (by omega)
  have h0 : ((m.p_stamp.toNat + 1) % 1024 + 0) % 1024 = (m.p_stamp.toNat + 1) % 1024 := by
    omega
  have hfun : (fun j => g2d_stamp_show_line (((m.p_stamp.toNat + 1) % 1024 + 0 + j) % 1024)
        (m.g2d_stamp_list (((m.p_stamp.toNat + 1) % 1024 + 0 + j) % 1024))) =
      fun j => g2d_stamp_show_line ((m.p_stamp.toNat + 1 + j) % 1024)
        (m.g2d_stamp_list ((m.p_stamp.toNat + 1 + j) % 1024)) := by
    funext j
    rw [show ((m.p_stamp.toNat + 1) % 1024 + 0 + j) % 1024 = (m.p_stamp.toNat + 1 + j) % 1024
      by omega]
  rw [h0, hfun, List.nil_append, show (1023 + 1 : Nat) = 1024 from rfl] at hrun
  unfold g2d_stamp_show
  simp only [not_lt.mpr hptr, if_false, hslot]
  rw [hrun]


/-- With fewer than 1024 iterations the loop of `g2d_stamp_show` has not left. -/
theorem stamp_show_short (m : Mem σ) (fuel : Nat) (hptr : 0 ≤ m.p_stamp) (hfuel : fuel < 1024) :
    g2d_stamp_show m fuel = none := by
  have hslot : (wrapInt32 (m.p_stamp + 1) % (G2D_MAX_STAMP_SIZE : Int)).toNat =
      (m.p_stamp.toNat + 1) % 1024 := by
    unfold wrapInt32 G2D_MAX_STAMP_SIZE
    omega
  have hshort := stamp_show_loop_short m.g2d_stamp_list ((m.p_stamp.toNat + 1) % 1024) fuel 0 []
    (by omega)
  have h0 : ((m.p_stamp.toNat + 1) % 1024 + 0) % 1024 = (m.p_stamp.toNat + 1) % 1024 := by
    omega
  rw [h0] at hshort
  unfold g2d_stamp_show
  simp only [not_lt.mpr hptr, if_false, hslot]
  rw [hshort]

/-- The indices `(p + 1 + j) mod 1024` for `j` below 1024 are the slots
0..1023, each once. -/
theorem show_indices (p : Nat) :
    ((List.range 1024).map fun j => (p + 1 + j) % 1024).Nodup ∧
      ∀ s, s < 1024 → s ∈ (List.range 1024).map fun j => (p + 1 + j) % 1024 := by
  constructor
  · apply List.Nodup.map_on _ (List.nodup_range 1024)
    intro x hx y hy hxy
    rw [List.mem_range] at hx hy
    omega
  · intro s hs
    rw [List.mem_map]
    refine ⟨(s + 1024 - (p + 1) % 1024) % 1024, ?_, ?_⟩
    · rw [List.mem_range]; omega
    · omega

/-- After `g2d_init_debug` and a list of stamps, the slot of each of the last
1024 stamps holds the value of that stamp. -/
theorem init_stamp_tasks_val (w : World σ) (l : List (Option TaskRef × Nat)) :
    ∀ (k : Nat) (a : Option TaskRef × Nat), l[k]? = some a → l.length ≤ k + 1024 →
      ((g2d_stamp_tasks env (g2d_init_debug env w) l).mem.g2d_stamp_list (k % 1024)).val =
        u32 a.2 := by
  induction l using List.reverseRecOn with
  | nil => intro k a h; simp at h
  | append_singleton l b ih =>
    intro k a hk hlen
    have hstep : g2d_stamp_tasks env (g2d_init_debug env w) (l ++ [b]) =
        (g2d_stamp_task env (g2d_stamp_tasks env (g2d_init_debug env w) l) b.1 b.2).world := by
      rw [stamp_tasks_append]; rfl
    have hslot := init_stamp_tasks_slot env w l
    rw [List.length_append, List.length_singleton] at hlen
    rw [hstep]
    by_cases hkl : k < l.length
    · rw [List.getElem?_append_left hkl] at hk
      rw [stamp_list_other env _ _ _ _ (by rw [hslot]; omega)]
      exact ih k a hk (by omega)
    · have hkeq : k = l.length := by
        have hlt : k < (l ++ [b]).length := by
          by_contra hge
          rw [List.getElem?_eq_none (by omega)] at hk
          exact Option.noConfusion hk
        rw [List.length_append, List.length_singleton] at hlt
        omega
      subst hkeq
      have hab : a = b := by
        rw [List.getElem?_append_right (le_refl _)] at hk
        simpa using hk.symm
      subst hab
      rw [← hslot]
      exact (stamp_list_at env _ _ _).1

/-- The counter after a list of stamps, up to a multiple of `2^32`, and its
range once a stamp was made. -/
theorem stamp_tasks_p_stamp (w : World σ) (l : List (Option TaskRef × Nat)) :
    ∃ q : Int, (g2d_stamp_tasks env w l).mem.p_stamp =
        w.mem.p_stamp + l.length - 4294967296 * q ∧
      (l ≠ [] → -2147483648 ≤ (g2d_stamp_tasks env w l).mem.p_stamp ∧
        (g2d_stamp_tasks env w l).mem.p_stamp < 2147483648) := by
  induction l using List.reverseRecOn with
  | nil => exact ⟨0, by simp [g2d_stamp_tasks], fun h => absurd rfl h⟩
  | append_singleton l b ih =>
    obtain ⟨q, hq, -⟩ := ih
    have hstep : g2d_stamp_tasks env w (l ++ [b]) =
        (g2d_stamp_task env (g2d_stamp_tasks env w l) b.1 b.2).world := by
      rw [stamp_tasks_append]; rfl
    rw [hstep, stamp_p_stamp, hq]
    refine ⟨q + (w.mem.p_stamp + l.length - 4294967296 * q + 1 + 2147483648) / 4294967296, ?_,
      fun _ => ?_⟩
    · unfold wrapInt32
      simp only [List.length_append, List.length_singleton, Nat.cast_add, Nat.cast_one]
      omega
    · unfold wrapInt32
      omega

/-- The counter after `g2d_init_debug` and between 1 and `2^31` stamps. -/
theorem init_stamp_tasks_p_stamp (w : World σ) (l : List (Option TaskRef × Nat))
    (h1 : 1 ≤ l.length) (h2 : l.length ≤ 2147483648) :
    (g2d_stamp_tasks env (g2d_init_debug env w) l).mem.p_stamp = (l.length : Int) - 1 := by
  obtain ⟨q, hq, hrange⟩ := stamp_tasks_p_stamp env (g2d_init_debug env w) l
  have hne : l ≠ [] := by
    intro h; rw [h] at h1; simp at h1
  obtain ⟨hlo, hhi⟩ := hrange hne
  rw [init_debug_p_stamp] at hq
  omega

/-- The counter after `g2d_init_debug` and a list of stamps is the number of
the stamps less one, up to a multiple of `2^32`. -/
theorem init_stamp_tasks_p_stamp_mod (w : World σ) (l : List (Option TaskRef × Nat)) :
    ∃ q : Int, (g2d_stamp_tasks env (g2d_init_debug env w) l).mem.p_stamp =
      (l.length : Int) - 1 - 4294967296 * q := by
  obtain ⟨q, hq, -⟩ := stamp_tasks_p_stamp env (g2d_init_debug env w) l
  rw [init_debug_p_stamp] at hq
  exact ⟨q, by omega⟩

/-- The values shown by a list of lines. -/
theorem show_lines_val (f : Nat → Nat) (list : Nat → G2dStamp) (n : Nat) :
    (some ((0 : Int), (List.range n).map fun j => g2d_stamp_show_line (f j) (list (f j)))).map
        (fun r => r.2.map ShowLine.val) =
      some ((List.range n).map fun j => (list (f j)).val) := by
  simp [List.map_map, Function.comp, g2d_stamp_show_line]

/-- C20: `g2d_stamp_show` lists the log in chronological order.  For every
counter value that is not negative and every bound `fuel ≥ 1024` on the
iterations, the loop leaves and the function returns 0 after exactly 1024
lines (with fewer than 1024 iterations it has not left), for the slots
`(ptr + 1) mod 1024`, `(ptr + 2) mod 1024`, ..., `ptr mod 1024`, each slot of
0..1023 once; and after `g2d_init_debug` and a list of at least 1024 stamps
that leaves the counter at a value that is not negative, the values shown are
those of the last 1024 stamps in the order in which they were recorded, the
oldest first and the most recent last. -/
theorem g2d_stamp_show_chronological (env : G2dEnv σ δ) (w : World σ) (m : Mem σ)
    (stamps : List (Option TaskRef × Nat)) (fuel : Nat)
    (hptr : 0 ≤ m.p_stamp) (hfuel : 1024 ≤ fuel)
    (hlen : 1024 ≤ stamps.length)
    (hpos : 0 ≤ (g2d_stamp_tasks env (g2d_init_debug env w) stamps).mem.p_stamp) :
    g2d_stamp_show m fuel =
        some (0, (List.range 1024).map fun j =>
          g2d_stamp_show_line ((m.p_stamp.toNat + 1 + j) % 1024)
            (m.g2d_stamp_list ((m.p_stamp.toNat + 1 + j) % 1024))) ∧
      (∀ short, short < 1024 → g2d_stamp_show m short = none) ∧
      ((List.range 1024).map fun j => (m.p_stamp.toNat + 1 + j) % 1024).Nodup ∧
      (∀ s, s < 1024 →
        s ∈ (List.range 1024).map fun j => (m.p_stamp.toNat + 1 + j) % 1024) ∧
      (g2d_stamp_show (g2d_stamp_tasks env (g2d_init_debug env w) stamps).mem fuel).map
          (fun r => r.2.map ShowLine.val) =
        some ((stamps.drop (stamps.length - 1024)).map fun a => u32 a.2) := by
  refine ⟨stamp_show_lines m fuel hptr hfuel, fun short hs => stamp_show_short m short hptr hs,
    (show_indices _).1, (show_indices _).2, ?_⟩
  obtain ⟨q, hq⟩ := init_stamp_tasks_p_stamp_mod env w stamps
  rw [stamp_show_lines _ fuel hpos hfuel,
    show_lines_val
      (fun j => ((g2d_stamp_tasks env (g2d_init_debug env w) stamps).mem.p_stamp.toNat + 1 + j)
        % 1024)]
  refine congrArg some ?_
  apply List.ext_getElem
  · rw [List.length_map, List.length_range, List.length_map, List.length_drop]
    omega
  · intro j h1 h2
    have hj : j < 1024 := by
      rw [List.length_map, List.length_range] at h1
      exact h1
    have hk : stamps.length - 1024 + j < stamps.length := by omega
    have hval := init_stamp_tasks_val env w stamps (stamps.length - 1024 + j)
      stamps[stamps.length - 1024 + j] (List.getElem?_eq_getElem hk) (by omega)
    have hidx : ((g2d_stamp_tasks env (g2d_init_debug env w) stamps).mem.p_stamp.toNat + 1 + j)
        % 1024 = (stamps.length - 1024 + j) % 1024 := by
      rw [hq] at hpos ⊢
      omega
    rw [List.getElem_map, List.getElem_range, List.getElem_map, List.getElem_drop, hidx]
    exact hval

end StampLog

/-! ## g2d_shutdown -/

section Shutdown

variable (env : G2dEnv σ δ)

/-- The wait: it sleeps some `k ≤ fuel` times, the memory is what the other
contexts made of it in `k` sleeps, and it has ended exactly if the active list
is empty in that memory. -/
theorem wait_event_spec (fuel : Nat) (w : World σ) :
    ∃ k, k ≤ fuel ∧
      (wait_event_tasks_active_empty env fuel w).1.trace =
        w.trace ++ List.replicate k Call.schedule ∧
      (wait_event_tasks_active_empty env fuel w).1.mem = env.schedule^[k] w.mem ∧
      (wait_event_tasks_active_empty env fuel w).2 =
        env.list_empty_tasks_active (wait_event_tasks_active_empty env fuel w).1.mem.dev := by
  induction fuel generalizing w with
  | zero => exact ⟨0, le_refl _, by simp [wait_event_tasks_active_empty], rfl, rfl⟩
  | succ n ih =>
    by_cases hc : env.list_empty_tasks_active w.mem.dev = true
    · have hstep : wait_event_tasks_active_empty env (n + 1) w = (w, true) := by
        rw [wait_event_tasks_active_empty, if_pos hc]
      rw [hstep]
      exact ⟨0, Nat.zero_le _, by simp, rfl, hc.symm⟩
    · have hstep : wait_event_tasks_active_empty env (n + 1) w =
          wait_event_tasks_active_empty env n ((w.call Call.schedule).update env.schedule) := by
        rw [wait_event_tasks_active_empty, if_neg hc]
      rw [hstep]
      obtain ⟨k, hk, htr, hmem, hret⟩ := ih ((w.call Call.schedule).update env.schedule)
      refine ⟨k + 1, Nat.succ_le_succ hk, ?_, ?_, hret⟩
      · rw [htr]
        simp [List.replicate_succ]
      · rw [hmem, Function.iterate_succ_apply]
        rfl

/-- The wait ends within `fuel` sleeps when the active list is empty after
some `k ≤ fuel` sleeps. -/
theorem wait_event_ends (fuel : Nat) (w : World σ) (k : Nat) (hk : k ≤ fuel)
    (hempty : env.list_empty_tasks_active (env.schedule^[k] w.mem).dev = true) :
    (wait_event_tasks_active_empty env fuel w).2 = true := by
  induction fuel generalizing w k with
  | zero =>
    have hk0 : k = 0 := Nat.le_zero.mp hk
    subst hk0
    simpa [wait_event_tasks_active_empty] using hempty
  | succ n ih =>
    by_cases hc : env.list_empty_tasks_active w.mem.dev = true
    · rw [wait_event_tasks_active_empty, if_pos hc]
    · rw [wait_event_tasks_active_empty, if_neg hc]
      cases k with
      | zero => exact absurd hempty hc
      | succ k =>
        refine ih _ k (Nat.le_of_succ_le_succ hk) ?_
        rw [Function.iterate_succ_apply] at hempty
        exact hempty

/-- The first part of `g2d_shutdown` returns once its SHUTDOWN_S stamp does:
its value and its world are those of the wait. -/
theorem shutdown_wait_returned (fuel : Nat) (w : World σ)
    (hS : ¬ g2d_stamp_reads_task env env.G2D_STAMP_STATE_SHUTDOWN_S) :
    g2d_shutdown_wait env fuel w =
      Outcome.returned
        (wait_event_tasks_active_empty env fuel
          (((g2d_stamp_task env w none env.G2D_STAMP_STATE_SHUTDOWN_S).world.call
            Call.g2d_prepare_suspend).update env.g2d_prepare_suspend)).2
        (wait_event_tasks_active_empty env fuel
          (((g2d_stamp_task env w none env.G2D_STAMP_STATE_SHUTDOWN_S).world.call
            Call.g2d_prepare_suspend).update env.g2d_prepare_suspend)).1 := by
  unfold g2d_shutdown_wait
  rw [andThen_of_returned _ () (stamp_returned_of_not_reads env w none _ hS)]

/-- The last part of `g2d_shutdown` returns once its SHUTDOWN_E stamp does. -/
theorem shutdown_finish_returned (w : World σ)
    (hE : ¬ g2d_stamp_reads_task env env.G2D_STAMP_STATE_SHUTDOWN_E) :
    g2d_shutdown_finish env w = Outcome.returned () (g2d_shutdown_finish env w).world := by
  unfold g2d_shutdown_finish
  dsimp only
  exact stamp_returned_of_not_reads env _ none _ hE

/-- The function `g2d_shutdown` in terms of its two parts, once the two stamps
return. -/
theorem shutdown_returned (fuel : Nat) (w : World σ)
    (hS : ¬ g2d_stamp_reads_task env env.G2D_STAMP_STATE_SHUTDOWN_S)
    (hE : ¬ g2d_stamp_reads_task env env.G2D_STAMP_STATE_SHUTDOWN_E) :
    g2d_shutdown env fuel w =
      if (g2d_shutdown_wait env fuel w).value = some true then
        Outcome.returned true
          (g2d_shutdown_finish env (g2d_shutdown_wait env fuel w).world).world
      else Outcome.returned false (g2d_shutdown_wait env fuel w).world := by
  unfold g2d_shutdown
  rw [shutdown_wait_returned env fuel w hS]
  simp only [returned_andThen, returned_value, returned_world, Option.some.injEq]
  split_ifs
  · rw [andThen_of_returned _ () (shutdown_finish_returned env _ hE)]
  · rfl

/-- C18: `g2d_shutdown` drains before it finishes.  The constants
`G2D_STAMP_STATE_SHUTDOWN_S` and `G2D_STAMP_STATE_SHUTDOWN_E` are taken to be
none of TIMEOUT_HW, ERR_INT, MMUFAULT and DONE, the values for which
`g2d_stamp_task` reads its task, which is NULL here.  In every run, for every
bound `fuel` on the number of sleeps: the SHUTDOWN_S stamp and
`g2d_prepare_suspend` come first, followed by some `k ≤ fuel` sleeps of the
wait; the function gets past the wait exactly if the active list is empty in
the memory at the last test; the stamps of the run are SHUTDOWN_S, and after
it SHUTDOWN_E only if the active list was found empty; the wait does end
within `fuel` sleeps, and the function returns, whenever the active list is
empty after some `k ≤ fuel` sleeps; and when the store to `g2d_dev->state`
and `iovmm_deactivate` leave the active list alone, the list is still empty
in the memory in which the function returns.  The record is given without the
prints of the stamps. -/
theorem g2d_shutdown_drains (env : G2dEnv σ δ) (fuel : Nat) (w : World σ)
    (hS : ¬ g2d_stamp_reads_task env env.G2D_STAMP_STATE_SHUTDOWN_S)
    (hE : ¬ g2d_stamp_reads_task env env.G2D_STAMP_STATE_SHUTDOWN_E) :
    (∃ k, k ≤ fuel ∧
      noPrints (g2d_shutdown_wait env fuel w).trace =
        noPrints w.trace ++
          [Call.g2d_stamp_task none env.G2D_STAMP_STATE_SHUTDOWN_S, Call.g2d_prepare_suspend] ++
          List.replicate k Call.schedule) ∧
      ((g2d_shutdown env fuel w).value =
        some (env.list_empty_tasks_active (g2d_shutdown_wait env fuel w).mem.dev)) ∧
      (g2d_shutdown env fuel w).trace.filter Call.isStamp =
        w.trace.filter Call.isStamp ++
          Call.g2d_stamp_task none env.G2D_STAMP_STATE_SHUTDOWN_S ::
            (if env.list_empty_tasks_active (g2d_shutdown_wait env fuel w).mem.dev = true then
              [Call.g2d_stamp_task none env.G2D_STAMP_STATE_SHUTDOWN_E]
             else []) ∧
      (∀ k, k ≤ fuel →
        env.list_empty_tasks_active
          (env.schedule^[k] (g2d_shutdown_wait env 0 w).mem).dev = true →
        (g2d_shutdown env fuel w).value = some true) ∧
      ((∀ d v, env.list_empty_tasks_active (env.set_dev_state d v) =
          env.list_empty_tasks_active d) →
        (∀ m, env.list_empty_tasks_active (env.iovmm_deactivate m).dev =
          env.list_empty_tasks_active m.dev) →
        (g2d_shutdown env fuel w).value = some true →
        env.list_empty_tasks_active (g2d_shutdown env fuel w).mem.dev = true) := by
  have hrep : ∀ k : Nat, noPrints (List.replicate k Call.schedule) =
      List.replicate k Call.schedule := by
    intro k
    induction k with
    | zero => rfl
    | succ k ih => simp [List.replicate_succ, noPrints_cons, ih, Call.isDebugPrint]
  have hrepStamp : ∀ k : Nat, (List.replicate k Call.schedule).filter Call.isStamp = [] := by
    intro k
    induction k with
    | zero => rfl
    | succ k ih => simp [List.replicate_succ, List.filter_cons, ih, Call.isStamp]
  obtain ⟨k, hk, htr, -, hret⟩ := wait_event_spec env fuel
    (((g2d_stamp_task env w none env.G2D_STAMP_STATE_SHUTDOWN_S).world.call
      Call.g2d_prepare_suspend).update env.g2d_prepare_suspend)
  have hwait : noPrints (g2d_shutdown_wait env fuel w).world.trace =
      noPrints w.trace ++
        [Call.g2d_stamp_task none env.G2D_STAMP_STATE_SHUTDOWN_S, Call.g2d_prepare_suspend] ++
        List.replicate k Call.schedule := by
    rw [shutdown_wait_returned env fuel w hS, returned_world, htr]
    simp [stamp_trace_noPrints, noPrints_cons, Call.isDebugPrint, hrep]
  have hvalue : (g2d_shutdown_wait env fuel w).value =
      some (env.list_empty_tasks_active (g2d_shutdown_wait env fuel w).world.mem.dev) := by
    rw [shutdown_wait_returned env fuel w hS, returned_value, returned_world, ← hret]
  have hshut := shutdown_returned env fuel w hS hE
  rw [hvalue] at hshut
  simp only [outcome_trace, outcome_mem]
  refine ⟨⟨k, hk, hwait⟩, ?_, ?_, ?_, ?_⟩
  · rw [hshut]
    cases hb : env.list_empty_tasks_active (g2d_shutdown_wait env fuel w).world.mem.dev <;>
      simp
  · rw [filter_noPrints _ isStamp_print, filter_noPrints _ isStamp_print w.trace, hshut]
    by_cases hb :
        env.list_empty_tasks_active (g2d_shutdown_wait env fuel w).world.mem.dev = true
    swap
    · simp only [Option.some.injEq, hb, Bool.false_eq_true, if_false, returned_world]
      rw [hwait]
      simp [List.filter_append, Call.isStamp, hrepStamp]
    · simp only [hb, if_true, returned_world]
      unfold g2d_shutdown_finish
      dsimp only
      rw [stamp_trace_noPrints]
      split_ifs <;>
        simp [hwait, List.filter_append, Call.isStamp, hrepStamp, noPrints_cons,
          Call.isDebugPrint]
  · intro j hj hempty
    rw [shutdown_wait_returned env 0 w hS, returned_world] at hempty
    have hend := wait_event_ends env fuel
      (((g2d_stamp_task env w none env.G2D_STAMP_STATE_SHUTDOWN_S).world.call
        Call.g2d_prepare_suspend).update env.g2d_prepare_suspend) j hj hempty
    have hend2 : (g2d_shutdown_wait env fuel w).value = some true := by
      rw [shutdown_wait_returned env fuel w hS, returned_value, hend]
    rw [hvalue] at hend2
    rw [hshut, if_pos hend2]
    rfl
  · intro hstate hiovmm hreturned
    have hempty :
        env.list_empty_tasks_active (g2d_shutdown_wait env fuel w).world.mem.dev = true := by
      cases hb : env.list_empty_tasks_active (g2d_shutdown_wait env fuel w).world.mem.dev
      · rw [hshut, hb] at hreturned
        simp at hreturned
      · rfl
    rw [hshut, hempty]
    simp only [if_true, returned_world]
    unfold g2d_shutdown_finish
    dsimp only
    rw [stamp_dev]
    split_ifs
    · simp only [update_mem, call_mem, hiovmm, updateDev_dev, hstate]
      exact hempty
    · simp only [call_mem, updateDev_dev, hstate]
      exact hempty

/-- The calls to `iovmm_deactivate` in lines 425-428 of `g2d_shutdown`, for
every state the run may find: one when `test_and_set_bit` finds the bit
`G2D_DEVICE_STATE_IOVMM_DISABLED` set, none when it finds the bit clear. -/
theorem shutdown_finish_deactivate (env : G2dEnv σ δ) (w : World σ) :
    noPrints (g2d_shutdown_finish env w).world.trace =
      noPrints w.trace ++
        [Call.test_and_set_bit env.G2D_DEVICE_STATE_IOVMM_DISABLED] ++
        (if (env.dev_state w.mem.dev).testBit env.G2D_DEVICE_STATE_IOVMM_DISABLED = true then
          [Call.iovmm_deactivate] else []) ++
        [Call.g2d_stamp_task none env.G2D_STAMP_STATE_SHUTDOWN_E] := by
  unfold g2d_shutdown_finish test_and_set_bit
  dsimp only
  rw [stamp_trace_noPrints]
  cases h : (env.dev_state w.mem.dev).testBit env.G2D_DEVICE_STATE_IOVMM_DISABLED <;>
    simp [h, World.call, World.update, World.updateDev, noPrints_append, noPrints_cons,
      Call.isDebugPrint]

/-- C26, as the code has it: `g2d_shutdown` calls `iovmm_deactivate` when the
bit `G2D_DEVICE_STATE_IOVMM_DISABLED` was already set, not when it was
clear.  On `Demo.dev0` the word `g2d_dev->state` is 0 on entry; the shutdown
returns after two sleeps with the bit set (the word is 4) and without a call
to `iovmm_deactivate`; a second shutdown, started where the first returned,
calls `iovmm_deactivate`. -/
theorem g2d_shutdown_deactivates_when_disabled :
    (Demo.env.dev_state (Demo.world Demo.dev0).mem.dev).testBit
        Demo.env.G2D_DEVICE_STATE_IOVMM_DISABLED = false ∧
      (g2d_shutdown Demo.env 2 (Demo.world Demo.dev0)).value = some true ∧
      Call.iovmm_deactivate ∉ (g2d_shutdown Demo.env 2 (Demo.world Demo.dev0)).trace ∧
      Demo.env.dev_state (g2d_shutdown Demo.env 2 (Demo.world Demo.dev0)).mem.dev = 4 ∧
      (g2d_shutdown Demo.env 2
        (g2d_shutdown Demo.env 2 (Demo.world Demo.dev0)).world).value = some true ∧
      (g2d_shutdown Demo.env 2 (g2d_shutdown Demo.env 2 (Demo.world Demo.dev0)).world).trace =
        (g2d_shutdown Demo.env 2 (Demo.world Demo.dev0)).trace ++
          [Call.g2d_stamp_task none 10, Call.g2d_prepare_suspend, Call.test_and_set_bit 2,
           Call.iovmm_deactivate, Call.g2d_stamp_task none 11] := by
  decide

end Shutdown

/-! ## g2d_irq_handler over the Demo environment -/

section Redelivery

open Demo

/-- One step of the loop over the job ids, on the Demo device. -/
theorem demo_finish_step_dev (m : Nat) (w : World Dev) (id : Nat) :
    (g2d_irq_finish_step env m w id).mem.dev =
      if m.testBit id = true then finish_task_with_id w.mem.dev id true else w.mem.dev := by
  unfold g2d_irq_finish_step
  by_cases h : m.testBit id = true
  · have hne : ¬ m &&& (1 <<< id) = 0 := by
      rw [and_one_shiftLeft_eq_zero]; simp [h]
    simp only [hne, h, if_false, if_true]
    rfl
  · have hz : m &&& (1 <<< id) = 0 := by
      rw [and_one_shiftLeft_eq_zero]; simpa using h
    simp [hz, h]

/-- Retiring a job leaves the job ids of the tasks as they are. -/
theorem demo_finish_job_id (d : Dev) (id : Nat) (s : Bool) (t : TaskRef) :
    ((finish_task_with_id d id s).tasks t).job_id = (d.tasks t).job_id := by
  simp only [finish_task_with_id]
  split_ifs <;> rfl

/-- A task that is active after a job was retired was active before and has
another job id. -/
theorem demo_finish_active (d : Dev) (id : Nat) (s : Bool) (t : TaskRef)
    (h : ((finish_task_with_id d id s).tasks t).active = true) :
    (d.tasks t).active = true ∧ (d.tasks t).job_id ≠ id := by
  by_cases hc : (d.tasks t).active = true ∧ (d.tasks t).job_id = id
  · simp [finish_task_with_id, hc] at h
  · simp only [finish_task_with_id, hc, if_false] at h
    exact ⟨h, fun hid => hc ⟨h, hid⟩⟩

/-- Retiring a job that no active task has leaves the Demo device as it is. -/
theorem demo_finish_noop (d : Dev) (id : Nat) (s : Bool)
    (h : ∀ t, (d.tasks t).active = true → (d.tasks t).job_id ≠ id) :
    finish_task_with_id d id s = d := by
  have ht : (fun i =>
      if (d.tasks i).active = true ∧ (d.tasks i).job_id = id then
        { d.tasks i with active := false, done := s, error := !s, timer := none }
      else d.tasks i) = d.tasks := by
    funext i
    by_cases hc : (d.tasks i).active = true ∧ (d.tasks i).job_id = id
    · exact absurd hc.2 (h i hc.1)
    · simp only [hc, if_false]
  simp only [finish_task_with_id, ht]


/-- What the loop over the job ids does to the Demo device. -/
theorem demo_finish_loop (m : Nat) (ids : List Nat) (w : World Dev) :
    (ids.foldl (g2d_irq_finish_step env m) w).mem.dev.tasks_free = w.mem.dev.tasks_free ∧
    (ids.foldl (g2d_irq_finish_step env m) w).mem.dev.errint_status = w.mem.dev.errint_status ∧
    (∀ t, ((ids.foldl (g2d_irq_finish_step env m) w).mem.dev.tasks t).job_id =
      (w.mem.dev.tasks t).job_id) ∧
    (∀ t, ((ids.foldl (g2d_irq_finish_step env m) w).mem.dev.tasks t).active = true →
      (w.mem.dev.tasks t).active = true) ∧
    (∀ i ∈ ids, m.testBit i = true → ∀ t,
      ((ids.foldl (g2d_irq_finish_step env m) w).mem.dev.tasks t).active = true →
      (w.mem.dev.tasks t).job_id ≠ i) := by
  induction ids generalizing w with
  | nil => simp
  | cons id rest ih =>
    obtain ⟨hfree, herr, hjob, hact, hret⟩ := ih (g2d_irq_finish_step env m w id)
    rw [List.foldl_cons]
    by_cases hbit : m.testBit id = true
    · have hstep : (g2d_irq_finish_step env m w id).mem.dev =
          finish_task_with_id w.mem.dev id true := by
        rw [demo_finish_step_dev]; simp [hbit]
      rw [hstep] at hfree herr hjob hact hret
      refine ⟨hfree, herr, ?_, ?_, ?_⟩
      · intro t; rw [hjob t, demo_finish_job_id]
      · intro t h; exact (demo_finish_active _ _ _ _ (hact t h)).1
      · intro i hi hb t h
        rcases List.mem_cons.mp hi with rfl | hi
        · exact (demo_finish_active _ _ _ _ (hact t h)).2
        · have := hret i hi hb t h
          rwa [demo_finish_job_id] at this
    · have hstep : (g2d_irq_finish_step env m w id).mem.dev = w.mem.dev := by
        rw [demo_finish_step_dev]; simp [hbit]
      rw [hstep] at hfree herr hjob hact hret
      refine ⟨hfree, herr, hjob, hact, ?_⟩
      intro i hi hb t h
      rcases List.mem_cons.mp hi with rfl | hi
      · exact absurd hb hbit
      · exact hret i hi hb t h

/-- The loop over the job ids leaves the Demo device alone when no delivered
job has an active task. -/
theorem demo_finish_loop_noop (m : Nat) (ids : List Nat) (w : World Dev)
    (h : ∀ i ∈ ids, m.testBit i = true → ∀ t,
      (w.mem.dev.tasks t).active = true → (w.mem.dev.tasks t).job_id ≠ i) :
    (ids.foldl (g2d_irq_finish_step env m) w).mem.dev = w.mem.dev := by
  induction ids generalizing w with
  | nil => rfl
  | cons id rest ih =>
    have hstep : (g2d_irq_finish_step env m w id).mem.dev = w.mem.dev := by
      rw [demo_finish_step_dev]
      by_cases hbit : m.testBit id = true
      · simp only [hbit, if_true]
        exact demo_finish_noop _ _ _ (h id (List.mem_cons_self _ _) hbit)
      · simp [hbit]
    rw [List.foldl_cons, ih, hstep]
    intro i hi hb t
    rw [hstep]
    exact h i (List.mem_cons_of_mem _ hi) hb t


/-- What the first half of the interrupt handler does to the Demo device. -/
theorem demo_irq_finished (w : World Dev) :
    (g2d_irq_finished env w).mem.dev.tasks_free = w.mem.dev.tasks_free ∧
    (g2d_irq_finished env w).mem.dev.errint_status = w.mem.dev.errint_status ∧
    (∀ t, ((g2d_irq_finished env w).mem.dev.tasks t).job_id = (w.mem.dev.tasks t).job_id) ∧
    (∀ t, ((g2d_irq_finished env w).mem.dev.tasks t).active = true →
      (w.mem.dev.tasks t).active = true) ∧
    (∀ i, i < 16 → (u32 w.mem.dev.finished_job_ids).testBit i = true → ∀ t,
      ((g2d_irq_finished env w).mem.dev.tasks t).active = true →
      (w.mem.dev.tasks t).job_id ≠ i) := by
  by_cases hm : u32 w.mem.dev.finished_job_ids = 0
  · have hdev : (g2d_irq_finished env w).mem.dev = w.mem.dev := by
      unfold g2d_irq_finished
      simp [env, hm]
    rw [hdev]
    refine ⟨rfl, rfl, fun _ => rfl, fun _ h => h, ?_⟩
    intro i _ hb
    simp [hm] at hb
  · obtain ⟨hfree, herr, hjob, hact, hret⟩ :=
      demo_finish_loop (u32 w.mem.dev.finished_job_ids) (List.range 16)
        (w.call Call.g2d_hw_finished_job_ids)
    have hdev : (g2d_irq_finished env w).mem.dev =
        { ((List.range 16).foldl (g2d_irq_finish_step env (u32 w.mem.dev.finished_job_ids))
            (w.call Call.g2d_hw_finished_job_ids)).mem.dev with
          finished_job_ids :=
            ((List.range 16).foldl (g2d_irq_finish_step env (u32 w.mem.dev.finished_job_ids))
              (w.call Call.g2d_hw_finished_job_ids)).mem.dev.finished_job_ids &&&
              (u32 w.mem.dev.finished_job_ids ^^^ 4294967295) } := by
      unfold g2d_irq_finished
      simp [env, hm, onDev]
    rw [hdev]
    refine ⟨hfree, herr, hjob, hact, ?_⟩
    intro i hi hb t h
    exact hret i (List.mem_range.mpr hi) hb t h

/-- The first half of the interrupt handler leaves the tasks of the Demo
device alone when no delivered job has an active task. -/
theorem demo_irq_finished_noop (w : World Dev)
    (h : ∀ i, i < 16 → (u32 w.mem.dev.finished_job_ids).testBit i = true → ∀ t,
      (w.mem.dev.tasks t).active = true → (w.mem.dev.tasks t).job_id ≠ i) :
    (g2d_irq_finished env w).mem.dev.tasks = w.mem.dev.tasks ∧
    (g2d_irq_finished env w).mem.dev.tasks_free = w.mem.dev.tasks_free ∧
    (g2d_irq_finished env w).mem.dev.errint_status = w.mem.dev.errint_status := by
  by_cases hm : u32 w.mem.dev.finished_job_ids = 0
  · have hdev : (g2d_irq_finished env w).mem.dev = w.mem.dev := by
      unfold g2d_irq_finished
      simp [env, hm]
    rw [hdev]
    exact ⟨rfl, rfl, rfl⟩
  · have hloop := demo_finish_loop_noop (u32 w.mem.dev.finished_job_ids) (List.range 16)
      (w.call Call.g2d_hw_finished_job_ids)
      (fun i hi hb t => h i (List.mem_range.mp hi) hb t)
    have hdev : (g2d_irq_finished env w).mem.dev =
        { ((List.range 16).foldl (g2d_irq_finish_step env (u32 w.mem.dev.finished_job_ids))
            (w.call Call.g2d_hw_finished_job_ids)).mem.dev with
          finished_job_ids :=
            ((List.range 16).foldl (g2d_irq_finish_step env (u32 w.mem.dev.finished_job_ids))
              (w.call Call.g2d_hw_finished_job_ids)).mem.dev.finished_job_ids &&&
              (u32 w.mem.dev.finished_job_ids ^^^ 4294967295) } := by
      unfold g2d_irq_finished
      simp [env, hm, onDev]
    rw [hdev, hloop]
    exact ⟨rfl, rfl, rfl⟩

/-- The memory after the second half of the interrupt handler when the error
status is not zero: flush, reset and clear applied to a memory with the device
the handler started with. -/
theorem irq_error_mem {σ δ : Type} (env : G2dEnv σ δ) (w : World σ)
    (he : u32 (env.g2d_hw_errint_status w.mem.dev) ≠ 0) :
    ∃ m0 : Mem σ, m0.dev = w.mem.dev ∧
      (g2d_irq_error env w).world.mem =
        env.g2d_hw_clear_int (env.g2d_hw_global_reset (env.g2d_flush_all_tasks m0))
          (u32 (env.g2d_hw_errint_status w.mem.dev)) := by
  unfold g2d_irq_error
  dsimp only
  by_cases hj : env.g2d_hw_get_current_task w.mem.dev < 0
  · exact ⟨w.mem, rfl, by simp [he, hj]⟩
  · cases ht : env.g2d_get_active_task_from_id w.mem.dev
        (env.g2d_hw_get_current_task w.mem.dev) with
    | none => exact ⟨w.mem, rfl, by simp [he, hj, ht]⟩
    | some t =>
      refine ⟨(g2d_stamp_task env
        (((w.call Call.g2d_hw_errint_status).call Call.g2d_hw_get_current_task).call
          (Call.g2d_get_active_task_from_id (env.g2d_hw_get_current_task w.mem.dev)) |>.call
          (Call.dev_err (ErrMsg.error_during_job (env.g2d_hw_get_current_task w.mem.dev))))
        (some t) env.G2D_STAMP_STATE_ERR_INT).world.mem, ?_, ?_⟩
      · rw [stamp_dev]; rfl
      · simp [he, hj, ht]

/-- What the second half of the interrupt handler does to the Demo device. -/
theorem demo_irq_error (w : World Dev) :
    (g2d_irq_error env w).world.mem.dev.tasks_free = w.mem.dev.tasks_free ∧
    u32 (g2d_irq_error env w).world.mem.dev.errint_status = 0 ∧
    (∀ t, ((g2d_irq_error env w).world.mem.dev.tasks t).job_id = (w.mem.dev.tasks t).job_id) ∧
    (∀ t, ((g2d_irq_error env w).world.mem.dev.tasks t).active = true →
      (w.mem.dev.tasks t).active = true) := by
  by_cases he : u32 w.mem.dev.errint_status = 0
  · have hdev : (g2d_irq_error env w).world.mem.dev = w.mem.dev := by
      unfold g2d_irq_error
      simp [env, he]
    rw [hdev]
    exact ⟨rfl, he, fun _ => rfl, fun _ h => h⟩
  · have hflush : ∀ t,
        ((flush_all_tasks w.mem.dev).tasks t).job_id = (w.mem.dev.tasks t).job_id ∧
        (((flush_all_tasks w.mem.dev).tasks t).active = true →
          (w.mem.dev.tasks t).active = true) := by
      intro t
      simp only [flush_all_tasks]
      split_ifs with hc
      · exact ⟨rfl, fun _ => hc⟩
      · exact ⟨rfl, fun h => h⟩
    have hdev : ∃ d : Dev, (g2d_irq_error env w).world.mem.dev = d ∧
        d.tasks = (flush_all_tasks w.mem.dev).tasks ∧ d.tasks_free = w.mem.dev.tasks_free ∧
        d.errint_status = 0 := by
      obtain ⟨m0, hm0, hmem⟩ := irq_error_mem env w he
      refine ⟨_, rfl, ?_⟩
      rw [hmem]
      simp [env, onDev, flush_all_tasks, hm0]
    obtain ⟨d, hd, htasks, hfree, herr⟩ := hdev
    rw [hd]
    refine ⟨hfree, by rw [herr]; rfl, ?_, ?_⟩
    · intro t; rw [htasks]; exact (hflush t).1
    · intro t; rw [htasks]; exact (hflush t).2


/-- The second half of the interrupt handler leaves the memory alone when the
error status is zero. -/
theorem demo_irq_error_noop (w : World Dev) (he : u32 w.mem.dev.errint_status = 0) :
    (g2d_irq_error env w).world.mem = w.mem := by
  unfold g2d_irq_error
  simp [env, he]

/-- C15: the same finished bits delivered twice.  Over the Demo environment,
whose `g2d_finish_task_with_id` retires the active task with the job id and
ignores a job id with no active task: let `g2d_irq_handler` run in any world
`w0` with bit `j` set in the finished-job bitmask, let the hardware raise
finished bits again, all of them among those of the first run (bit `j` may be
one of them), and let the handler run a second time.  The first run leaves no
active task with job id `j`; the second run reads the bits raised again and
leaves every task and the free list as the first run left them. -/
theorem g2d_irq_handler_redelivery (w0 : World Dev) (m2 j : Nat)
    (hj : j < env.G2D_MAX_JOBS)
    (hbit1 : (g2d_irq_intflags env w0).testBit j = true)
    (hsub : ∀ i, i < env.G2D_MAX_JOBS → (u32 m2).testBit i = true →
      (g2d_irq_intflags env w0).testBit i = true) :
    (∀ t, ((g2d_irq_handler env w0).mem.dev.tasks t).active = true →
      ((g2d_irq_handler env w0).mem.dev.tasks t).job_id ≠ j) ∧
    g2d_irq_intflags env (redeliver (g2d_irq_handler env w0).world m2) = u32 m2 ∧
    (g2d_irq_handler env (redeliver (g2d_irq_handler env w0).world m2)).mem.dev.tasks =
      (g2d_irq_handler env w0).mem.dev.tasks ∧
    (g2d_irq_handler env (redeliver (g2d_irq_handler env w0).world m2)).mem.dev.tasks_free =
      (g2d_irq_handler env w0).mem.dev.tasks_free := by
  simp only [outcome_mem]
  -- the first run
  have hdev1 : (g2d_irq_handler env w0).world.mem.dev =
      (g2d_irq_error env (g2d_irq_finished env (w0.call Call.spin_lock))).world.mem.dev :=
    congrArg Mem.dev (irq_handler_mem env w0)
  obtain ⟨-, herr1, hjob1, hact1, hret1⟩ := demo_irq_finished (w0.call Call.spin_lock)
  obtain ⟨-, herr2, hjob2, hact2⟩ :=
    demo_irq_error (g2d_irq_finished env (w0.call Call.spin_lock))
  have hretired : ∀ i, i < 16 → (g2d_irq_intflags env w0).testBit i = true → ∀ t,
      ((g2d_irq_handler env w0).world.mem.dev.tasks t).active = true →
      ((g2d_irq_handler env w0).world.mem.dev.tasks t).job_id ≠ i := by
    intro i hi hb t h
    rw [hdev1] at h ⊢
    rw [hjob2 t, hjob1 t]
    exact hret1 i hi hb t (hact2 t h)
  refine ⟨hretired j hj hbit1, rfl, ?_⟩
  -- the second run
  have hdev2 : ∀ w : World Dev, (g2d_irq_handler env w).world.mem.dev =
      (g2d_irq_error env (g2d_irq_finished env (w.call Call.spin_lock))).world.mem.dev :=
    fun w => congrArg Mem.dev (irq_handler_mem env w)
  obtain ⟨htasks, hfree, herr3⟩ := demo_irq_finished_noop
    ((redeliver (g2d_irq_handler env w0).world m2).call Call.spin_lock)
    (fun i hi hb t => hretired i hi (hsub i hi hb) t)
  have hnoop := demo_irq_error_noop
    (g2d_irq_finished env ((redeliver (g2d_irq_handler env w0).world m2).call Call.spin_lock))
    (by
      rw [herr3]
      show u32 (g2d_irq_handler env w0).world.mem.dev.errint_status = 0
      rw [hdev1]
      exact herr2)
  rw [hdev2, hnoop, htasks, hfree]
  exact ⟨rfl, rfl⟩

end Redelivery

/-! ## The handlers on concrete device states -/

section Witnesses

open Demo

/-- Task 0 of `dev0` is running job 0 past its deadline: it is killed.  In
the memory the handler leaves, task 0 is marked killed, its timer is armed
for 500 msec, the counter of the stamp log went from -1 to 0 and slot 0 holds
the TIMEOUT_HW stamp (value 7) of task 0, and the hardware no longer runs
job 0. -/
theorem g2d_hw_timeout_handler_running_witness :
    (env.G2D_JOB_STATE_RUNNING ≠ env.G2D_JOB_STATE_DONE ∧
      env.is_task_state_active (world dev0).mem.dev 0 = true ∧
      env.is_task_state_killed (world dev0).mem.dev 0 = false ∧
      g2d_timeout_job_state env (world dev0) 0 = env.G2D_JOB_STATE_RUNNING) ∧
    noPrints (g2d_hw_timeout_handler env (world dev0) 0).trace =
      [Call.dev_err (ErrMsg.time_is_up 500 0), Call.spin_lock_irqsave,
       Call.g2d_hw_get_job_state 0, Call.mod_timer 0 500, Call.g2d_stamp_task (some 0) 7,
       Call.mark_task_state_killed 0, Call.g2d_hw_kill_task 0, Call.spin_unlock_irqrestore] ∧
    (g2d_hw_timeout_handler env (world dev0) 0).value = some () ∧
    env.is_task_state_killed (g2d_hw_timeout_handler env (world dev0) 0).mem.dev 0 = true ∧
    ((g2d_hw_timeout_handler env (world dev0) 0).mem.dev.tasks 0).timer = some 500 ∧
    (g2d_hw_timeout_handler env (world dev0) 0).mem.p_stamp = 0 ∧
    (g2d_hw_timeout_handler env (world dev0) 0).mem.g2d_stamp_list 0 =
      { time := 0, task := some 0, state := 16, job_id := 0, val := 7, cpu := 0 } ∧
    (g2d_hw_timeout_handler env (world dev0) 0).mem.dev.job_state 0 = 0 := by
  have h := g2d_hw_timeout_handler_running env (world dev0) 0 (by decide) rfl rfl (by decide)
  refine ⟨⟨by decide, rfl, rfl, by decide⟩, h.1, h.2.1, ?_, ?_, ?_, ?_, ?_⟩ <;>
    rw [h.2.2] <;> decide

/-- Task 0 of `devKilled` was killed and its job is still RUNNING: reset and
flush. -/
theorem g2d_hw_timeout_handler_double_timeout_witness :
    (env.is_task_state_active (world devKilled).mem.dev 0 = true ∧
      env.is_task_state_killed (world devKilled).mem.dev 0 = true ∧
      g2d_timeout_job_state env (world devKilled) 0 ≠ env.G2D_JOB_STATE_DONE) ∧
    (g2d_hw_timeout_handler env (world devKilled) 0).trace =
        [Call.dev_err (ErrMsg.time_is_up 500 0), Call.spin_lock_irqsave,
         Call.g2d_hw_get_job_state 0, Call.g2d_hw_global_reset, Call.g2d_flush_all_tasks,
         Call.dev_err (ErrMsg.global_reset_not_dead 500), Call.spin_unlock_irqrestore] ∧
      (g2d_hw_timeout_handler env (world devKilled) 0).mem =
        env.g2d_flush_all_tasks (env.g2d_hw_global_reset (world devKilled).mem) :=
  ⟨⟨rfl, rfl, by decide⟩,
    g2d_hw_timeout_handler_double_timeout env (world devKilled) 0 rfl rfl (by decide)⟩

/-- Task 2 of `dev0` is in the free pool: its timer expiry does nothing. -/
theorem g2d_hw_timeout_handler_inactive_witness :
    env.is_task_state_active (world dev0).mem.dev 2 = false ∧
    (g2d_hw_timeout_handler env (world dev0) 2).trace =
        [Call.dev_err (ErrMsg.time_is_up 500 2), Call.spin_lock_irqsave,
         Call.spin_unlock_irqrestore] ∧
      (g2d_hw_timeout_handler env (world dev0) 2).mem = (world dev0).mem :=
  ⟨rfl, g2d_hw_timeout_handler_inactive env (world dev0) 2 rfl⟩

/-- Task 0 of `devDone` is active and its job is DONE: nothing further. -/
theorem g2d_hw_timeout_handler_done_witness :
    (env.is_task_state_active (world devDone).mem.dev 0 = true ∧
      g2d_timeout_job_state env (world devDone) 0 = env.G2D_JOB_STATE_DONE) ∧
    (g2d_hw_timeout_handler env (world devDone) 0).trace =
        [Call.dev_err (ErrMsg.time_is_up 500 0), Call.spin_lock_irqsave,
         Call.g2d_hw_get_job_state 0, Call.spin_unlock_irqrestore] ∧
      (g2d_hw_timeout_handler env (world devDone) 0).mem = (world devDone).mem :=
  ⟨⟨rfl, by decide⟩, g2d_hw_timeout_handler_done env (world devDone) 0 rfl (by decide)⟩

/-- Task 1 of `dev0` is active and its job is queued behind job 0: the timer
is re-armed and nothing else. -/
theorem g2d_hw_timeout_handler_queued_witness :
    (env.is_task_state_active (world dev0).mem.dev 1 = true ∧
      env.is_task_state_killed (world dev0).mem.dev 1 = false ∧
      g2d_timeout_job_state env (world dev0) 1 ≠ env.G2D_JOB_STATE_DONE ∧
      g2d_timeout_job_state env (world dev0) 1 ≠ env.G2D_JOB_STATE_RUNNING) ∧
    (g2d_hw_timeout_handler env (world dev0) 1).trace =
        [Call.dev_err (ErrMsg.time_is_up 500 1), Call.spin_lock_irqsave,
         Call.g2d_hw_get_job_state 1, Call.mod_timer 1 500, Call.spin_unlock_irqrestore] ∧
      (g2d_hw_timeout_handler env (world dev0) 1).mem =
        { (world dev0).mem with dev := env.mod_timer (world dev0).mem.dev 1 500 } :=
  ⟨⟨rfl, rfl, by decide, by decide⟩,
    g2d_hw_timeout_handler_queued env (world dev0) 1 rfl rfl (by decide) (by decide)⟩

/-- Over the Demo environment, with "the timer of task 0 is pending" for
`pending`: the expiry of the timer of task 0 of `dev0`, whose job is RUNNING,
re-arms the timer and marks the task, and leaves the task marked killed with
its timer pending. -/
theorem g2d_hw_timeout_handler_timer_witness :
    ((∀ d, timer_pending 0 (env.mod_timer d 0 env.G2D_HW_TIMEOUT_MSEC) = true) ∧
      (∀ d, timer_pending 0 (env.mark_task_state_killed d 0) = timer_pending 0 d) ∧
      (∀ m id, timer_pending 0 (env.g2d_hw_kill_task m id).dev = timer_pending 0 m.dev) ∧
      (∀ d, env.is_task_state_killed (env.mark_task_state_killed d 0) 0 = true) ∧
      (∀ m id, env.is_task_state_killed (env.g2d_hw_kill_task m id).dev 0 =
        env.is_task_state_killed m.dev 0) ∧
      env.is_task_state_active (world dev0).mem.dev 0 = true ∧
      env.is_task_state_killed (world dev0).mem.dev 0 = false ∧
      g2d_timeout_job_state env (world dev0) 0 = env.G2D_JOB_STATE_RUNNING ∧
      env.G2D_JOB_STATE_RUNNING ≠ env.G2D_JOB_STATE_DONE) ∧
    (g2d_hw_timeout_handler env (world dev0) 0).trace.filter Call.isTimerOrKillMark =
      [Call.mod_timer 0 500, Call.mark_task_state_killed 0] ∧
    (g2d_hw_timeout_handler env (world dev0) 0).value = some () ∧
    env.is_task_state_killed (g2d_hw_timeout_handler env (world dev0) 0).mem.dev 0 = true ∧
    timer_pending 0 (g2d_hw_timeout_handler env (world dev0) 0).mem.dev = true :=
  ⟨⟨fun _ => rfl, fun _ => rfl, fun _ _ => rfl, fun _ => rfl, fun _ _ => rfl, rfl, rfl,
      by decide, by decide⟩,
    (g2d_hw_timeout_handler_timer env (world dev0) 0 (timer_pending 0) (fun _ => rfl)
      (fun _ => rfl) (fun _ _ => rfl) (fun _ => rfl) (fun _ _ => rfl)).1,
    (g2d_hw_timeout_handler_timer env (world dev0) 0 (timer_pending 0) (fun _ => rfl)
      (fun _ => rfl) (fun _ _ => rfl) (fun _ => rfl) (fun _ _ => rfl)).2 rfl rfl (by decide)
      (by decide)⟩

/-- With an empty free list the ioctl answers `-EBUSY` (-16). -/
theorem g2d_ioctl_no_free_task_witness :
    ((env.copy_from_user (world devNoFree).mem.dev 0).1 = 0 ∧
      (env.g2d_get_free_task (world devNoFree).mem).1 = none) ∧
    (g2d_ioctl env (world devNoFree) env.G2D_IOC_PROCESS 0).value = some (-16) ∧
      (g2d_ioctl env (world devNoFree) env.G2D_IOC_PROCESS 0).trace =
        [Call.copy_from_user 0, Call.g2d_get_free_task] ∧
      (g2d_ioctl env (world devNoFree) env.G2D_IOC_PROCESS 0).mem =
        (env.g2d_get_free_task (world devNoFree).mem).2 :=
  ⟨⟨rfl, rfl⟩, g2d_ioctl_no_free_task env (world devNoFree) 0 rfl rfl⟩

/-- With a rejected description the ioctl hands task 2 back and answers the
code of `g2d_get_userdata` (-22). -/
theorem g2d_ioctl_bad_userdata_witness :
    ((env.copy_from_user (world devBadData).mem.dev 0).1 = 0 ∧
      (env.g2d_get_free_task (world devBadData).mem).1 = some 2 ∧
      (g2d_ioctl_userdata env (world devBadData) 0 2).1 = -22 ∧ (-22 : Int) < 0) ∧
    (g2d_ioctl env (world devBadData) env.G2D_IOC_PROCESS 0).value = some (-22) ∧
      (g2d_ioctl env (world devBadData) env.G2D_IOC_PROCESS 0).trace =
        [Call.copy_from_user 0, Call.g2d_get_free_task, Call.kref_init 2,
         Call.g2d_get_userdata 2, Call.g2d_put_free_task 2] ∧
      (g2d_ioctl env (world devBadData) env.G2D_IOC_PROCESS 0).mem =
        env.g2d_put_free_task (g2d_ioctl_userdata env (world devBadData) 0 2).2 2 :=
  ⟨⟨rfl, rfl, rfl, by decide⟩,
    g2d_ioctl_bad_userdata env (world devBadData) 0 2 (-22) rfl rfl rfl (by decide)⟩

/-- With an unreadable user pointer the ioctl answers `-EFAULT` (-14). -/
theorem g2d_ioctl_copy_fails_witness :
    (env.copy_from_user (world devFault).mem.dev 0).1 ≠ 0 ∧
    (g2d_ioctl env (world devFault) env.G2D_IOC_PROCESS 0).value = some (-14) ∧
      (g2d_ioctl env (world devFault) env.G2D_IOC_PROCESS 0).trace =
        [Call.copy_from_user 0, Call.dev_err ErrMsg.failed_to_read_task_data] ∧
      (g2d_ioctl env (world devFault) env.G2D_IOC_PROCESS 0).mem = (world devFault).mem :=
  ⟨by decide, g2d_ioctl_copy_fails env (world devFault) 0 (by decide)⟩

/-- On `dev0` both registers read zero: three runs of the interrupt handler
leave the memory as it was. -/
theorem g2d_irq_handler_spurious_witness :
    (g2d_irq_intflags env (world dev0) = 0 ∧ g2d_irq_errstatus env (world dev0) = 0) ∧
    (g2d_irq_handler env (world dev0)).value = some 1 ∧
      (g2d_irq_handler env (world dev0)).trace =
        [Call.spin_lock, Call.g2d_hw_finished_job_ids, Call.g2d_hw_errint_status,
         Call.spin_unlock, Call.wake_up_freeze_wait] ∧
      (g2d_irq_handler env (world dev0)).mem = (world dev0).mem ∧
      (g2d_irq_handler_times env 3 (world dev0)).mem = (world dev0).mem :=
  ⟨⟨by decide, by decide⟩,
    g2d_irq_handler_spurious env (world dev0) 3 (by decide) (by decide)⟩

/-- On `devFinished` the hardware reports job 0 finished; it raises the same
bit again after the first run: task 0 is retired once and the second run
changes no task and not the free list. -/
theorem g2d_irq_handler_redelivery_witness :
    ((0 : Nat) < env.G2D_MAX_JOBS ∧
      (g2d_irq_intflags env (world devFinished)).testBit 0 = true ∧
      (∀ i, i < env.G2D_MAX_JOBS → (u32 1).testBit i = true →
        (g2d_irq_intflags env (world devFinished)).testBit i = true)) ∧
    (∀ t, ((g2d_irq_handler env (world devFinished)).mem.dev.tasks t).active = true →
      ((g2d_irq_handler env (world devFinished)).mem.dev.tasks t).job_id ≠ 0) ∧
    g2d_irq_intflags env (redeliver (g2d_irq_handler env (world devFinished)).world 1) =
      u32 1 ∧
    (g2d_irq_handler env
        (redeliver (g2d_irq_handler env (world devFinished)).world 1)).mem.dev.tasks =
      (g2d_irq_handler env (world devFinished)).mem.dev.tasks ∧
    (g2d_irq_handler env
        (redeliver (g2d_irq_handler env (world devFinished)).world 1)).mem.dev.tasks_free =
      (g2d_irq_handler env (world devFinished)).mem.dev.tasks_free :=
  ⟨⟨by decide, by decide, fun _ _ h => h⟩,
    g2d_irq_handler_redelivery (world devFinished) 1 0 (by decide) (by decide)
      (fun _ _ h => h)⟩

/-- On `dev0` with at most two sleeps: the shutdown stamps SHUTDOWN_S (10),
waits until the two jobs are retired, stamps SHUTDOWN_E (11) and returns. -/
theorem g2d_shutdown_drains_witness :
    (¬ g2d_stamp_reads_task env env.G2D_STAMP_STATE_SHUTDOWN_S ∧
      ¬ g2d_stamp_reads_task env env.G2D_STAMP_STATE_SHUTDOWN_E) ∧
    (g2d_shutdown env 2 (world dev0)).value =
      some (env.list_empty_tasks_active (g2d_shutdown_wait env 2 (world dev0)).mem.dev) ∧
    (g2d_shutdown env 2 (world dev0)).value = some true ∧
    (g2d_shutdown env 2 (world dev0)).trace.filter Call.isStamp =
      [Call.g2d_stamp_task none 10, Call.g2d_stamp_task none 11] :=
  ⟨⟨by decide, by decide⟩,
    (g2d_shutdown_drains env 2 (world dev0) (by decide) (by decide)).2.1,
    (g2d_shutdown_drains env 2 (world dev0) (by decide) (by decide)).2.2.2.1 2 (le_refl _)
      (by decide),
    (g2d_shutdown_drains env 2 (world dev0) (by decide) (by decide)).2.2.1⟩

/-- After `g2d_init_debug` and 2000 stamps for task 0 with the values
100..2099, none of which makes `g2d_stamp_task` read or dump its task, the
counter is at 1999 and the file shows the values of the last 1024 of the
stamps, in their order. -/
theorem g2d_stamp_show_chronological_witness :
    ((0 : Int) ≤ ({ (world dev0).mem with p_stamp := 0 } : Mem Dev).p_stamp ∧ 1024 ≤ 1024 ∧
      1024 ≤ ((List.range 2000).map fun k => (some 0, 100 + k)).length ∧
      0 ≤ (g2d_stamp_tasks env (g2d_init_debug env (world dev0))
        ((List.range 2000).map fun k => (some 0, 100 + k))).mem.p_stamp) ∧
    (∀ a ∈ (List.range 2000).map fun k => ((some 0 : Option TaskRef), 100 + k),
      a.1 = some 0 ∧ ¬ g2d_stamp_reads_task env a.2) ∧
    (g2d_stamp_show
        (g2d_stamp_tasks env (g2d_init_debug env (world dev0))
          ((List.range 2000).map fun k => (some 0, 100 + k))).mem 1024).map
        (fun r => r.2.map ShowLine.val) =
      some ((((List.range 2000).map fun k => ((some 0 : Option TaskRef), 100 + k)).drop
        (((List.range 2000).map fun k => ((some 0 : Option TaskRef), 100 + k)).length -
          1024)).map fun a => u32 a.2) := by
  have hpos : 0 ≤ (g2d_stamp_tasks env (g2d_init_debug env (world dev0))
      ((List.range 2000).map fun k => (some 0, 100 + k))).mem.p_stamp := by
    rw [init_stamp_tasks_p_stamp env _ _ (by simp) (by simp)]
    simp
  refine ⟨⟨le_refl _, le_refl _, by simp, hpos⟩, ?_,
    (g2d_stamp_show_chronological env (world dev0)
      { (world dev0).mem with p_stamp := 0 }
      ((List.range 2000).map fun k => (some 0, 100 + k)) 1024
      (le_refl _) (le_refl _) (by simp) hpos).2.2.2.2⟩
  intro a ha
  simp only [List.mem_map, List.mem_range] at ha
  obtain ⟨k, hk, rfl⟩ := ha
  refine ⟨rfl, ?_⟩
  simp only [g2d_stamp_reads_task, u32, env]
  omega

/-- Task 0 of `dev0` runs job 0 past its deadline and is killed; the kill has
no effect on the job, and at the next expiry the memory is the one the first
run left with the hardware still reporting job 0 RUNNING: reset and flush. -/
theorem g2d_hw_timeout_handler_kill_then_reset_witness :
    (env.G2D_JOB_STATE_RUNNING ≠ env.G2D_JOB_STATE_DONE ∧
      env.is_task_state_active (world dev0).mem.dev 0 = true ∧
      env.is_task_state_killed (world dev0).mem.dev 0 = false ∧
      g2d_timeout_job_state env (world dev0) 0 = env.G2D_JOB_STATE_RUNNING ∧
      (∀ d, env.is_task_state_killed (env.mark_task_state_killed d 0) 0 = true) ∧
      (∀ m id, env.is_task_state_killed (env.g2d_hw_kill_task m id).dev 0 =
        env.is_task_state_killed m.dev 0) ∧
      (∀ d, env.is_task_state_active (env.mod_timer d 0 env.G2D_HW_TIMEOUT_MSEC) 0 =
        env.is_task_state_active d 0) ∧
      (∀ d, env.is_task_state_active (env.mark_task_state_killed d 0) 0 =
        env.is_task_state_active d 0) ∧
      (∀ m id, env.is_task_state_active (env.g2d_hw_kill_task m id).dev 0 =
        env.is_task_state_active m.dev 0) ∧
      env.is_task_state_active
          (stillRunning (g2d_hw_timeout_handler env (world dev0) 0).mem).dev 0 =
        env.is_task_state_active (g2d_hw_timeout_handler env (world dev0) 0).mem.dev 0 ∧
      env.is_task_state_killed
          (stillRunning (g2d_hw_timeout_handler env (world dev0) 0).mem).dev 0 =
        env.is_task_state_killed (g2d_hw_timeout_handler env (world dev0) 0).mem.dev 0 ∧
      g2d_timeout_job_state env
          { mem := stillRunning (g2d_hw_timeout_handler env (world dev0) 0).mem, trace := [] }
          0 ≠
        env.G2D_JOB_STATE_DONE) ∧
    (g2d_hw_timeout_handler env (world dev0) 0).value = some () ∧
    env.is_task_state_killed (g2d_hw_timeout_handler env (world dev0) 0).mem.dev 0 = true ∧
    (g2d_hw_timeout_handler env
        { mem := stillRunning (g2d_hw_timeout_handler env (world dev0) 0).mem,
          trace := (g2d_hw_timeout_handler env (world dev0) 0).trace } 0).value = some () ∧
    (g2d_hw_timeout_handler env
        { mem := stillRunning (g2d_hw_timeout_handler env (world dev0) 0).mem,
          trace := (g2d_hw_timeout_handler env (world dev0) 0).trace } 0).trace.filter
        Call.isTimeoutAction =
      [Call.mod_timer 0 500, Call.mark_task_state_killed 0, Call.g2d_hw_kill_task 0,
       Call.g2d_hw_global_reset, Call.g2d_flush_all_tasks] :=
  ⟨⟨by decide, rfl, rfl, by decide, fun _ => rfl, fun _ _ => rfl, fun _ => rfl, fun _ => rfl,
      fun _ _ => rfl, rfl, rfl, by decide⟩,
    g2d_hw_timeout_handler_kill_then_reset env (world dev0)
      (stillRunning (g2d_hw_timeout_handler env (world dev0) 0).mem) 0
      (by decide) rfl rfl (by decide) (fun _ => rfl) (fun _ _ => rfl) (fun _ => rfl)
      (fun _ => rfl) (fun _ _ => rfl) rfl rfl (by decide)⟩

end Witnesses

end G2D

namespace S2mpg10

section Regulator

variable {ρ : Type}

/-- The loop of `get_ramp_delay` on a value that is not negative: it leaves
after `Nat.log 2 q + 1` iterations with the counter advanced by `Nat.log 2 q`,
as long as the counter stays below 256. -/
theorem get_ramp_delay_loop_log (fuel : Nat) (q cnt : Nat) (hfuel : Nat.log 2 q < fuel)
    (hcnt : cnt + Nat.log 2 q < 256) :
    get_ramp_delay_loop fuel (q : Int) cnt = some (cnt + Nat.log 2 q) := by
  induction fuel generalizing q cnt with
  | zero => omega
  | succ n ih =>
    have hshift : ((q : Int) >>> (1 : Nat)) = ((q / 2 : Nat) : Int) := by
      show ((q >>> 1 : Nat) : Int) = _
      rw [Nat.shiftRight_eq_div_pow]
    rw [get_ramp_delay_loop, hshift]
    by_cases hq : q / 2 = 0
    · have hlt : q < 2 := by omega
      have hlog : Nat.log 2 q = 0 := Nat.log_of_lt hlt
      simp [hq, hlog]
    · have hge : 2 ≤ q := by omega
      have hlog : Nat.log 2 q = Nat.log 2 (q / 2) + 1 :=
        Nat.log_of_one_lt_of_le (by norm_num) hge
      have hne : ((q / 2 : Nat) : Int) ≠ 0 := by exact_mod_cast hq
      rw [if_neg hne]
      have hmod : (cnt + 1) % 256 = cnt + 1 := Nat.mod_eq_of_lt (by omega)
      rw [hmod, ih (q / 2) (cnt + 1) (by omega) (by omega), hlog]
      congr 1
      omega

/-- The quotient by 6 of a 32-bit `int` that is not negative has a binary
logarithm of at most 28. -/
theorem log_div_six_le (ramp_delay : Int) (hint : ramp_delay < 2147483648) :
    Nat.log 2 (ramp_delay.toNat / 6) ≤ 28 := by
  have hlt : ramp_delay.toNat / 6 < 2 ^ 29 := by omega
  by_cases hq : ramp_delay.toNat / 6 = 0
  · rw [hq]
    simp
  · have := Nat.log_lt_of_lt_pow hq hlt
    omega

/-- The function `get_ramp_delay` on a 32-bit `int` that is not negative, with
fuel for 29 iterations. -/
theorem get_ramp_delay_eq (fuel : Nat) (ramp_delay : Int) (h0 : 0 ≤ ramp_delay)
    (hint : ramp_delay < 2147483648) (hfuel : 29 ≤ fuel) :
    get_ramp_delay fuel ramp_delay = some ((Nat.log 2 (ramp_delay.toNat / 6) : Nat) : Int) := by
  have hle := log_div_six_le ramp_delay hint
  have hdiv : Int.tdiv ramp_delay 6 = ((ramp_delay.toNat / 6 : Nat) : Int) := by
    obtain ⟨n, rfl⟩ := Int.eq_ofNat_of_zero_le h0
    rfl
  unfold get_ramp_delay
  dsimp only
  rw [hdiv, get_ramp_delay_loop_log fuel _ 0 (by omega) (by omega)]
  simp

/-- C30: `get_ramp_delay` on every `ramp_delay >= 0` of type `int`.  The loop
leaves within 29 iterations (with any fuel from 29 on the function returns);
the result is the floor of the binary logarithm of `q = ramp_delay / 6` when
`q >= 1`, and 0 when `q = 0` (`Nat.log 2 0 = 0`); the result is at most 28, so
the `unsigned char` counter does not wrap; and the result does not decrease
when `ramp_delay` grows. -/
theorem get_ramp_delay_floor_log2 (fuel : Nat) (ramp_delay : Int) (h0 : 0 ≤ ramp_delay)
    (hint : ramp_delay < 2147483648) (hfuel : 29 ≤ fuel) :
    get_ramp_delay fuel ramp_delay = some ((Nat.log 2 (ramp_delay.toNat / 6) : Nat) : Int) ∧
      (ramp_delay.toNat / 6 = 0 → get_ramp_delay fuel ramp_delay = some 0) ∧
      Nat.log 2 (ramp_delay.toNat / 6) ≤ 28 ∧
      ∀ smaller : Int, 0 ≤ smaller → smaller ≤ ramp_delay →
        ∃ c d : Int, get_ramp_delay fuel smaller = some c ∧
          get_ramp_delay fuel ramp_delay = some d ∧ c ≤ d := by
  have heq := get_ramp_delay_eq fuel ramp_delay h0 hint hfuel
  refine ⟨heq, ?_, log_div_six_le ramp_delay hint, ?_⟩
  · intro hq
    rw [heq, hq]
    simp
  · intro smaller hs hle
    refine ⟨_, _, get_ramp_delay_eq fuel smaller hs (by omega) hfuel, heq, ?_⟩
    have hmono : smaller.toNat / 6 ≤ ramp_delay.toNat / 6 :=
      Nat.div_le_div_right (by omega)
    exact_mod_cast Nat.log_mono_right hmono

/-- A `ramp_delay` of 6000 gives `q = 1000` and the result 9 (512 <= 1000 < 1024). -/
theorem get_ramp_delay_floor_log2_witness :
    ((0 : Int) ≤ 6000 ∧ (6000 : Int) < 2147483648 ∧ 29 ≤ 29) ∧
      get_ramp_delay 29 6000 = some 9 := by
  refine ⟨⟨by decide, by decide, by decide⟩, ?_⟩
  have h := (get_ramp_delay_floor_log2 29 6000 (by decide) (by decide) (by decide)).1
  have hlog : Nat.log 2 ((6000 : Int).toNat / 6) = 9 := by
    have : (6000 : Int).toNat / 6 = 1000 := by decide
    rw [this]
    exact (Nat.log_eq_iff (by norm_num)).2 (by norm_num)
  rw [h, hlog]
  rfl

/-- The register writes of one block of `s2mpg10_ocp_warn`. -/
theorem ocp_warn_write_trace (env : PmicEnv ρ) (w : World ρ) (channel : OcpChannel)
    (reg val : Nat) :
    (ocp_warn_write env w channel reg val).trace.filter Call.isRegisterUpdate =
      w.trace.filter Call.isRegisterUpdate ++ [Call.s2mpg10_write_reg reg val] := by
  unfold ocp_warn_write
  dsimp only
  split_ifs <;> simp [World.call, Call.isRegisterUpdate]

/-- C28, as the code has it: the six register writes of `s2mpg10_ocp_warn`, in
their order, for every platform data.  The values for B2M, B3M, B10M,
B2M_SOFT and B3M_SOFT are built from the four fields of their own channel;
the value for B10M_SOFT takes its enable bit from `b10_ocp_warn_en`, the
enable of the B10M channel, and `b10_soft_ocp_warn_en` is not read. -/
theorem s2mpg10_ocp_warn_writes (env : PmicEnv ρ) (w : World ρ) (pdata : PlatformData) :
    (s2mpg10_ocp_warn env w pdata).trace.filter Call.isRegisterUpdate =
      w.trace.filter Call.isRegisterUpdate ++
        [Call.s2mpg10_write_reg env.S2MPG10_PM_B2M_OCP_WARN
           (ocp_warn_val env pdata.b2_ocp_warn_en pdata.b2_ocp_warn_cnt
             pdata.b2_ocp_warn_dvs_mask pdata.b2_ocp_warn_lvl),
         Call.s2mpg10_write_reg env.S2MPG10_PM_B3M_OCP_WARN
           (ocp_warn_val env pdata.b3_ocp_warn_en pdata.b3_ocp_warn_cnt
             pdata.b3_ocp_warn_dvs_mask pdata.b3_ocp_warn_lvl),
         Call.s2mpg10_write_reg env.S2MPG10_PM_B10M_OCP_WARN
           (ocp_warn_val env pdata.b10_ocp_warn_en pdata.b10_ocp_warn_cnt
             pdata.b10_ocp_warn_dvs_mask pdata.b10_ocp_warn_lvl),
         Call.s2mpg10_write_reg env.S2MPG10_PM_B2M_SOFT_OCP_WARN
           (ocp_warn_val env pdata.b2_soft_ocp_warn_en pdata.b2_soft_ocp_warn_cnt
             pdata.b2_soft_ocp_warn_dvs_mask pdata.b2_soft_ocp_warn_lvl),
         Call.s2mpg10_write_reg env.S2MPG10_PM_B3M_SOFT_OCP_WARN
           (ocp_warn_val env pdata.b3_soft_ocp_warn_en pdata.b3_soft_ocp_warn_cnt
             pdata.b3_soft_ocp_warn_dvs_mask pdata.b3_soft_ocp_warn_lvl),
         Call.s2mpg10_write_reg env.S2MPG10_PM_B10M_SOFT_OCP_WARN
           (ocp_warn_val env pdata.b10_ocp_warn_en pdata.b10_soft_ocp_warn_cnt
             pdata.b10_soft_ocp_warn_dvs_mask pdata.b10_soft_ocp_warn_lvl)] := by
  unfold s2mpg10_ocp_warn ocp_warn_val
  dsimp only
  simp only [ocp_warn_write_trace, List.append_assoc, List.singleton_append, List.cons_append,
    List.nil_append]

/-- The register B10M_SOFT follows the enable of the B10M channel: with
`b10_ocp_warn_en = 1` and `b10_soft_ocp_warn_en = 0` it is written with the
enable bit set (128), with `b10_ocp_warn_en = 0` and
`b10_soft_ocp_warn_en = 1` it is written with 0. -/
theorem s2mpg10_ocp_warn_b10m_soft_at_demo :
    (s2mpg10_ocp_warn Demo.env Demo.world Demo.pdataHard).chip.regs
        Demo.env.S2MPG10_PM_B10M_SOFT_OCP_WARN = 128 ∧
      (s2mpg10_ocp_warn Demo.env Demo.world Demo.pdataSoft).chip.regs
        Demo.env.S2MPG10_PM_B10M_SOFT_OCP_WARN = 0 ∧
      (s2mpg10_ocp_warn Demo.env Demo.world Demo.pdataSoft).trace =
        (s2mpg10_ocp_warn Demo.env Demo.world Demo.pdata0).trace := by
  decide

/-- The loop of `get_ramp_delay` on a negative value never leaves: the
arithmetic shift of a negative value is negative. -/
theorem get_ramp_delay_loop_negative (fuel : Nat) (q : Int) (cnt : Nat) (hq : q < 0) :
    get_ramp_delay_loop fuel q cnt = none := by
  induction fuel generalizing q cnt with
  | zero => rfl
  | succ n ih =>
    have hshift : q >>> (1 : Nat) < 0 := by
      rw [Int.shiftRight_eq_div_pow]
      norm_num
      omega
    rw [get_ramp_delay_loop, if_neg (ne_of_lt hshift)]
    exact ih _ _ hshift

/-- The function `get_ramp_delay` does not return on a `ramp_delay` of -6 or
below, with whatever fuel: the quotient by 6 is negative. -/
theorem get_ramp_delay_negative (fuel : Nat) (ramp_delay : Int) (h : ramp_delay ≤ -6) :
    get_ramp_delay fuel ramp_delay = none := by
  obtain ⟨m, hm⟩ : ∃ m : Nat, ramp_delay = -(m : Int) := ⟨(-ramp_delay).toNat, by omega⟩
  subst hm
  have hdiv : Int.tdiv (m : Int) 6 = ((m / 6 : Nat) : Int) := rfl
  have hneg : Int.tdiv (-(m : Int)) 6 < 0 := by
    rw [Int.neg_tdiv, hdiv]
    omega
  unfold get_ramp_delay
  dsimp only
  rw [get_ramp_delay_loop_negative fuel _ 0 hneg]

/-- The call `get_ramp_delay(ramp_delay / 1000)` of `s2m_set_ramp_delay` on a
32-bit `ramp_delay` above -6000: these are the values on which the call
returns. -/
theorem get_ramp_delay_msec (fuel : Nat) (ramp_delay : Int) (h0 : -6000 < ramp_delay)
    (hint : ramp_delay < 2147483648) (hfuel : 29 ≤ fuel) :
    get_ramp_delay fuel (Int.tdiv ramp_delay 1000) =
      some ((Nat.log 2 (ramp_delay.toNat / 1000 / 6) : Nat) : Int) := by
  by_cases hpos : 0 ≤ ramp_delay
  · obtain ⟨n, rfl⟩ := Int.eq_ofNat_of_zero_le hpos
    have hdiv : Int.tdiv (n : Int) 1000 = ((n / 1000 : Nat) : Int) := rfl
    rw [hdiv, get_ramp_delay_eq fuel _ (by omega) (by omega) hfuel, Int.toNat_ofNat,
      Int.toNat_ofNat]
  · obtain ⟨m, hm⟩ : ∃ m : Nat, ramp_delay = -(m : Int) := ⟨(-ramp_delay).toNat, by omega⟩
    subst hm
    have hdiv : Int.tdiv (m : Int) 1000 = ((m / 1000 : Nat) : Int) := rfl
    have hdiv6 : Int.tdiv ((m / 1000 : Nat) : Int) 6 = ((m / 1000 / 6 : Nat) : Int) := rfl
    have hzero : m / 1000 / 6 = 0 := by omega
    have hq : Int.tdiv (Int.tdiv (-(m : Int)) 1000) 6 = 0 := by
      rw [Int.neg_tdiv, hdiv, Int.neg_tdiv, hdiv6, hzero]
      rfl
    have htoNat : (-(m : Int)).toNat = 0 := by omega
    have hloop := get_ramp_delay_loop_log fuel 0 0 (by simp; omega) (by simp)
    unfold get_ramp_delay
    dsimp only
    rw [hq, htoNat]
    simp only [Nat.cast_zero] at hloop
    rw [hloop]
    simp

/-- The function `s2m_set_ramp_delay` does not return for an id outside the LDO
range on a `ramp_delay` of -6000 or below, with whatever fuel: its call of
`get_ramp_delay` does not return. -/
theorem set_ramp_delay_negative (env : PmicEnv ρ) (fuel : Nat) (w : World ρ)
    (reg_id ramp_delay : Int)
    (hldo : ¬ (env.S2MPG10_LDO1 ≤ reg_id ∧ reg_id ≤ env.S2MPG10_LDO31))
    (h : ramp_delay ≤ -6000) :
    s2m_set_ramp_delay env fuel w reg_id ramp_delay = none := by
  obtain ⟨m, hm⟩ : ∃ m : Nat, ramp_delay = -(m : Int) := ⟨(-ramp_delay).toNat, by omega⟩
  subst hm
  have hdiv : Int.tdiv (m : Int) 1000 = ((m / 1000 : Nat) : Int) := rfl
  have hle : Int.tdiv (-(m : Int)) 1000 ≤ -6 := by
    rw [Int.neg_tdiv, hdiv]
    omega
  unfold s2m_set_ramp_delay
  simp only [if_neg hldo, get_ramp_delay_negative fuel _ hle]

/-- The function `s2m_set_ramp_delay` for an id outside the LDO range on which
both `switch` statements find a label, once `get_ramp_delay` has returned
`v`. -/
theorem set_ramp_delay_update (env : PmicEnv ρ) (fuel : Nat) (w : World ρ)
    (reg_id ramp_delay : Int) (v shift addr : Nat)
    (hldo : ¬ (env.S2MPG10_LDO1 ≤ reg_id ∧ reg_id ≤ env.S2MPG10_LDO31))
    (hget : get_ramp_delay fuel (Int.tdiv ramp_delay 1000) = some (v : Int))
    (hv : v < 4294967296)
    (hshift : ramp_shift_switch env reg_id = some shift)
    (haddr : ramp_addr_switch env reg_id = some addr) :
    ∃ w' : World ρ,
      s2m_set_ramp_delay env fuel w reg_id ramp_delay =
        some ((env.s2mpg10_update_reg w.chip addr ((v <<< shift) % 4294967296)
          (0x03 <<< shift)).1, w') ∧
      w'.trace.filter Call.isRegisterUpdate =
        w.trace.filter Call.isRegisterUpdate ++
          [Call.s2mpg10_update_reg addr ((v <<< shift) % 4294967296) (0x03 <<< shift)] ∧
      w'.chip =
        (env.s2mpg10_update_reg w.chip addr ((v <<< shift) % 4294967296)
          (0x03 <<< shift)).2 := by
  have hval : (((v : Int) % 4294967296).toNat) = v := by omega
  unfold s2m_set_ramp_delay
  simp only [if_neg hldo, hget, hshift, haddr, hval]
  by_cases hgt : v > 4
  · simp only [if_pos hgt, World.call]
    exact ⟨_, rfl, by simp [Call.isRegisterUpdate], rfl⟩
  · simp only [if_neg hgt, World.call]
    exact ⟨_, rfl, by simp [Call.isRegisterUpdate], rfl⟩

/-- The function `s2m_set_ramp_delay` for an id outside the LDO range on which
the first `switch` takes the `default` label, once `get_ramp_delay` has
returned. -/
theorem set_ramp_delay_default (env : PmicEnv ρ) (fuel : Nat) (w : World ρ)
    (reg_id ramp_delay : Int) (v : Int)
    (hldo : ¬ (env.S2MPG10_LDO1 ≤ reg_id ∧ reg_id ≤ env.S2MPG10_LDO31))
    (hget : get_ramp_delay fuel (Int.tdiv ramp_delay 1000) = some v)
    (hshift : ramp_shift_switch env reg_id = none) :
    ∃ w' : World ρ,
      s2m_set_ramp_delay env fuel w reg_id ramp_delay = some (-EINVAL, w') ∧
      w'.trace.filter Call.isRegisterUpdate = w.trace.filter Call.isRegisterUpdate ∧
      w'.chip = w.chip := by
  unfold s2m_set_ramp_delay
  simp only [if_neg hldo, hget, hshift]
  refine ⟨_, rfl, ?_, ?_⟩
  · split_ifs <;> simp [World.call, Call.isRegisterUpdate]
  · split_ifs <;> rfl

/-- C29: the ramp field that `s2m_set_ramp_delay` programs, for a 32-bit
`ramp_delay` above -6000 (every value on which the function returns for an
id that is not an LDO) and fuel for the 29 iterations that `get_ramp_delay`
may need.  The ids `S2MPG10_BUCK1` to `S2MPG10_BUCK10` are
taken to be distinct and outside the range `S2MPG10_LDO1..S2MPG10_LDO31`,
and the three ramp registers to be distinct.
For buck `n` from 1 to 10 the function returns what the one
`s2mpg10_update_reg` returns, and that call goes to `DVS_RAMP1` for `n` in
1..4, `DVS_RAMP2` for 5..8, `DVS_RAMP3` for 9..10, with the value shifted by
`2 * ((n - 1) mod 4)` and the mask `0x03` shifted likewise; two different
bucks never have the same register and shift; for an LDO id the function
returns 0 and for any id that is neither an LDO nor a buck it returns
`-EINVAL`, both without a register update and with the chip untouched. -/
theorem s2m_set_ramp_delay_fields (env : PmicEnv ρ) (fuel : Nat) (w : World ρ)
    (ramp_delay : Int)
    (hdistinct : [env.S2MPG10_BUCK1, env.S2MPG10_BUCK2, env.S2MPG10_BUCK3, env.S2MPG10_BUCK4,
      env.S2MPG10_BUCK5, env.S2MPG10_BUCK6, env.S2MPG10_BUCK7, env.S2MPG10_BUCK8,
      env.S2MPG10_BUCK9, env.S2MPG10_BUCK10].Nodup)
    (hldo : ∀ n, 1 ≤ n → n ≤ 10 →
      ¬ (env.S2MPG10_LDO1 ≤ env.buck n ∧ env.buck n ≤ env.S2MPG10_LDO31))
    (hregs : [env.S2MPG10_PM_DVS_RAMP1, env.S2MPG10_PM_DVS_RAMP2,
      env.S2MPG10_PM_DVS_RAMP3].Nodup)
    (h0 : -6000 < ramp_delay) (hint : ramp_delay < 2147483648) (hfuel : 29 ≤ fuel) :
    (∀ n, 1 ≤ n → n ≤ 10 →
      ∃ w' : World ρ,
        s2m_set_ramp_delay env fuel w (env.buck n) ramp_delay =
          some ((env.s2mpg10_update_reg w.chip (env.buck_ramp_reg n)
            ((Nat.log 2 (ramp_delay.toNat / 1000 / 6) <<< buck_ramp_shift n) % 4294967296)
            (0x03 <<< buck_ramp_shift n)).1, w') ∧
        w'.trace.filter Call.isRegisterUpdate =
          w.trace.filter Call.isRegisterUpdate ++
            [Call.s2mpg10_update_reg (env.buck_ramp_reg n)
              ((Nat.log 2 (ramp_delay.toNat / 1000 / 6) <<< buck_ramp_shift n) % 4294967296)
              (0x03 <<< buck_ramp_shift n)] ∧
        w'.chip =
          (env.s2mpg10_update_reg w.chip (env.buck_ramp_reg n)
            ((Nat.log 2 (ramp_delay.toNat / 1000 / 6) <<< buck_ramp_shift n) % 4294967296)
            (0x03 <<< buck_ramp_shift n)).2) ∧
    (∀ n n', 1 ≤ n → n ≤ 10 → 1 ≤ n' → n' ≤ 10 → n ≠ n' →
      (env.buck_ramp_reg n, buck_ramp_shift n) ≠ (env.buck_ramp_reg n', buck_ramp_shift n')) ∧
    (∀ reg_id, env.S2MPG10_LDO1 ≤ reg_id → reg_id ≤ env.S2MPG10_LDO31 →
      ∃ w' : World ρ,
        s2m_set_ramp_delay env fuel w reg_id ramp_delay = some (0, w') ∧
        w'.trace.filter Call.isRegisterUpdate = w.trace.filter Call.isRegisterUpdate ∧
        w'.chip = w.chip) ∧
    (∀ reg_id, ¬ (env.S2MPG10_LDO1 ≤ reg_id ∧ reg_id ≤ env.S2MPG10_LDO31) →
      (∀ n, 1 ≤ n → n ≤ 10 → reg_id ≠ env.buck n) →
      ∃ w' : World ρ,
        s2m_set_ramp_delay env fuel w reg_id ramp_delay = some (-EINVAL, w') ∧
        w'.trace.filter Call.isRegisterUpdate = w.trace.filter Call.isRegisterUpdate ∧
        w'.chip = w.chip) := by
  have hget := get_ramp_delay_msec fuel ramp_delay h0 hint hfuel
  have hv : Nat.log 2 (ramp_delay.toNat / 1000 / 6) < 4294967296 :=
    lt_of_le_of_lt (Nat.log_le_self 2 _) (by omega)
  clear h0 hint hfuel
  generalize Nat.log 2 (ramp_delay.toNat / 1000 / 6) = v at hget hv ⊢
  simp only [List.nodup_cons, List.mem_cons, List.mem_singleton, not_or, List.not_mem_nil,
    not_false_eq_true, List.nodup_nil, and_true] at hdistinct hregs
  refine ⟨?_, ?_, ?_, ?_⟩
  · intro n h1 h10
    refine set_ramp_delay_update env fuel w _ ramp_delay v _ _ (hldo n h1 h10) hget hv ?_ ?_
    · clear hget hv hldo hregs
      interval_cases n <;>
        simp_all [ramp_shift_switch, PmicEnv.buck, buck_ramp_shift, eq_comm]
    · clear hget hv hldo hregs
      interval_cases n <;>
        simp_all [ramp_addr_switch, PmicEnv.buck, PmicEnv.buck_ramp_reg, eq_comm]
  · intro n n' h1 h10 h1' h10' hne
    clear hget hv hldo hdistinct
    interval_cases n <;> interval_cases n' <;>
      simp_all [PmicEnv.buck_ramp_reg, buck_ramp_shift, eq_comm]
  · intro reg_id hlo hhi
    refine ⟨w.call (Call.pr_info_ldo_no_ramp reg_id), ?_, ?_, rfl⟩
    · simp only [s2m_set_ramp_delay, hlo, hhi, and_self, if_true]
    · simp [World.call, Call.isRegisterUpdate]
  · intro reg_id hnot hbuck
    refine set_ramp_delay_default env fuel w reg_id ramp_delay _ hnot hget ?_
    have b1 := hbuck 1 (by norm_num) (by norm_num)
    have b2 := hbuck 2 (by norm_num) (by norm_num)
    have b3 := hbuck 3 (by norm_num) (by norm_num)
    have b4 := hbuck 4 (by norm_num) (by norm_num)
    have b5 := hbuck 5 (by norm_num) (by norm_num)
    have b6 := hbuck 6 (by norm_num) (by norm_num)
    have b7 := hbuck 7 (by norm_num) (by norm_num)
    have b8 := hbuck 8 (by norm_num) (by norm_num)
    have b9 := hbuck 9 (by norm_num) (by norm_num)
    have b10 := hbuck 10 (by norm_num) (by norm_num)
    simp only [PmicEnv.buck] at b1 b2 b3 b4 b5 b6 b7 b8 b9 b10
    simp [ramp_shift_switch, b1, b2, b3, b4, b5, b6, b7, b8, b9, b10]

/-- In `Demo.env` the ten buck ids are distinct and follow the LDO ids, and
the ramp registers are distinct: buck 7 with a ramp delay of 12000 gets the
value 1 in bits 5:4 of `DVS_RAMP2`. -/
theorem s2m_set_ramp_delay_fields_witness :
    ([Demo.env.S2MPG10_BUCK1, Demo.env.S2MPG10_BUCK2, Demo.env.S2MPG10_BUCK3,
        Demo.env.S2MPG10_BUCK4, Demo.env.S2MPG10_BUCK5, Demo.env.S2MPG10_BUCK6,
        Demo.env.S2MPG10_BUCK7, Demo.env.S2MPG10_BUCK8, Demo.env.S2MPG10_BUCK9,
        Demo.env.S2MPG10_BUCK10].Nodup ∧
      (∀ n, 1 ≤ n → n ≤ 10 →
        ¬ (Demo.env.S2MPG10_LDO1 ≤ Demo.env.buck n ∧
          Demo.env.buck n ≤ Demo.env.S2MPG10_LDO31)) ∧
      [Demo.env.S2MPG10_PM_DVS_RAMP1, Demo.env.S2MPG10_PM_DVS_RAMP2,
        Demo.env.S2MPG10_PM_DVS_RAMP3].Nodup ∧
      (-6000 : Int) < 12000 ∧ (12000 : Int) < 2147483648 ∧ 29 ≤ 29) ∧
    (∃ w' : World Demo.Chip,
      s2m_set_ramp_delay Demo.env 29 Demo.world (Demo.env.buck 7) 12000 =
        some ((Demo.env.s2mpg10_update_reg Demo.world.chip (Demo.env.buck_ramp_reg 7)
          ((Nat.log 2 ((12000 : Int).toNat / 1000 / 6) <<< buck_ramp_shift 7) % 4294967296)
          (0x03 <<< buck_ramp_shift 7)).1, w') ∧
      w'.trace.filter Call.isRegisterUpdate =
        Demo.world.trace.filter Call.isRegisterUpdate ++
          [Call.s2mpg10_update_reg (Demo.env.buck_ramp_reg 7)
            ((Nat.log 2 ((12000 : Int).toNat / 1000 / 6) <<< buck_ramp_shift 7) % 4294967296)
            (0x03 <<< buck_ramp_shift 7)] ∧
      w'.chip =
        (Demo.env.s2mpg10_update_reg Demo.world.chip (Demo.env.buck_ramp_reg 7)
          ((Nat.log 2 ((12000 : Int).toNat / 1000 / 6) <<< buck_ramp_shift 7) % 4294967296)
          (0x03 <<< buck_ramp_shift 7)).2) ∧
    (s2m_set_ramp_delay Demo.env 29 Demo.world (Demo.env.buck 7) 12000).map
        (fun r => (r.1, r.2.trace, r.2.chip.regs 18)) =
      some (0, [Call.s2mpg10_update_reg 18 16 48], 16) := by
  have hldo : ∀ n, 1 ≤ n → n ≤ 10 →
      ¬ (Demo.env.S2MPG10_LDO1 ≤ Demo.env.buck n ∧
        Demo.env.buck n ≤ Demo.env.S2MPG10_LDO31) := by
    intro n h1 h10
    interval_cases n <;> decide
  exact ⟨⟨by decide, hldo, by decide, by decide, by decide, by decide⟩,
    (s2m_set_ramp_delay_fields Demo.env 29 Demo.world 12000 (by decide) hldo (by decide)
      (by decide) (by decide) (by decide)).1 7 (by decide) (by decide),
    by decide⟩

end Regulator

end S2mpg10

namespace Max77759

section Contaminant

variable {ρ : Type} (env : TcpcEnv ρ)

/-! ### The record of calls and the stored state across the helpers -/

@[simp] theorem tcpc_call_trace (w : World ρ) (c : Call) : (w.call c).trace = w.trace ++ [c] := rfl

@[simp] theorem tcpc_call_state (w : World ρ) (c : Call) : (w.call c).state = w.state := rfl

@[simp] theorem update_bits8_reads (w : World ρ) (reg mask val : Nat) :
    (update_bits8 env w reg mask val).2.trace.filter Call.isResistanceRead =
      w.trace.filter Call.isResistanceRead := by
  simp [update_bits8, Call.isResistanceRead]

@[simp] theorem read8_reads (w : World ρ) (reg old : Nat) :
    (read8 env w reg old).2.2.trace.filter Call.isResistanceRead =
      w.trace.filter Call.isResistanceRead := by
  simp [read8, Call.isResistanceRead]

@[simp] theorem write8_reads (w : World ρ) (reg val : Nat) :
    (write8 env w reg val).2.trace.filter Call.isResistanceRead =
      w.trace.filter Call.isResistanceRead := by
  simp [write8, Call.isResistanceRead]

@[simp] theorem log_register_reads (w : World ρ) (reg : Nat) :
    (log_register env w reg).trace.filter Call.isResistanceRead =
      w.trace.filter Call.isResistanceRead := by
  simp [log_register, Call.isResistanceRead]

@[simp] theorem usleep_range_reads (w : World ρ) (a b : Int) :
    (usleep_range env w a b).trace.filter Call.isResistanceRead =
      w.trace.filter Call.isResistanceRead := by
  simp [usleep_range, Call.isResistanceRead]

@[simp] theorem logbuffer_log_reads (w : World ρ) (msg : LogMsg) :
    (logbuffer_log w msg).trace.filter Call.isResistanceRead =
      w.trace.filter Call.isResistanceRead := by
  simp [logbuffer_log, Call.isResistanceRead]

@[simp] theorem adc_to_mv_reads (w : World ρ) (channel : Nat) (ua_src : Bool) (fladc : Nat) :
    (adc_to_mv w channel ua_src fladc).2.trace.filter Call.isResistanceRead =
      w.trace.filter Call.isResistanceRead := by
  unfold adc_to_mv
  split_ifs <;> simp

@[simp] theorem read_adc_mv_reads (w : World ρ) (channel : Nat) (sleep_msec : Int)
    (raw ua_src : Bool) :
    (read_adc_mv env w channel sleep_msec raw ua_src).2.trace.filter Call.isResistanceRead =
      w.trace.filter Call.isResistanceRead := by
  unfold read_adc_mv
  dsimp only
  split_ifs <;> simp

/-- The function `read_resistance_kohm` enters itself once and no further. -/
theorem read_resistance_kohm_reads (w : World ρ) (channel : Nat) (sleep_msec : Int)
    (raw : Bool) :
    (read_resistance_kohm env w channel sleep_msec raw).2.trace.filter Call.isResistanceRead =
      w.trace.filter Call.isResistanceRead ++
        [Call.read_resistance_kohm channel sleep_msec raw] := by
  unfold read_resistance_kohm
  dsimp only
  split_ifs <;> simp [Call.isResistanceRead]

/-- The function `read_comparators` reads no resistance. -/
theorem read_comparators_reads (w : World ρ) (cc1 cc2 : Nat) :
    (read_comparators env w cc1 cc2).2.2.trace.filter Call.isResistanceRead =
      w.trace.filter Call.isResistanceRead := by
  unfold read_comparators
  dsimp only
  split_ifs <;> simp [Call.isResistanceRead]

/-- The function `detect_contaminant` in terms of the readings it takes. -/
theorem detect_contaminant_eq (w : World ρ) :
    detect_contaminant env w =
      if ¬ (detect_cc1_rd env w ∧ detect_cc2_rd env w) then
        (SINK,
          logbuffer_log
            (logbuffer_log (detect_comparators env w).2.2
              (LogMsg.vcc2 (detect_comparators env w).1 (detect_comparators env w).2.1))
            LogMsg.ap_sink_detected)
      else if (detect_cc1 env w).1 < 1000 ∨ (detect_cc2 env w).1 < 1000 then
        if (detect_sbu1 env w).1 < 1000 ∨ (detect_sbu2 env w).1 < 1000 then
          (DETECTED,
            logbuffer_log
              (logbuffer_log (detect_sbu2 env w).2
                (LogMsg.sbu_k (detect_sbu1 env w).1 (detect_sbu2 env w).1))
              LogMsg.ap_contaminant_detected)
        else
          (FLOATING_CABLE,
            logbuffer_log
              (logbuffer_log (detect_sbu2 env w).2
                (LogMsg.sbu_k (detect_sbu1 env w).1 (detect_sbu2 env w).1))
              LogMsg.ap_floating_cable_detected)
      else
        (NOT_DETECTED,
          logbuffer_log
            (logbuffer_log (detect_cc2 env w).2
              (LogMsg.cc_k (detect_cc1 env w).1 (detect_cc2 env w).1))
            LogMsg.ap_contaminant_not_detected) := by
  unfold detect_contaminant
  dsimp only
  by_cases h1 : detect_cc1_rd env w <;> by_cases h2 : detect_cc2_rd env w
  · have hsink : ¬ ((env.CC1_VUFP_RD0P5 &&&
          (read_comparators env (w.call Call.detect_contaminant) 255 255).1 = 0 ∨
        env.CC2_VUFP_RD0P5 &&&
          (read_comparators env (w.call Call.detect_contaminant) 255 255).2.1 = 0) ∧
        ¬ (env.CC1_VUFP_RD0P5 &&&
            (read_comparators env (w.call Call.detect_contaminant) 255 255).1 ≠ 0 ∧
          env.CC2_VUFP_RD0P5 &&&
            (read_comparators env (w.call Call.detect_contaminant) 255 255).2.1 ≠ 0)) :=
      fun h => h.2 ⟨h1, h2⟩
    rw [if_neg hsink, if_neg (not_not.mpr ⟨h1, h2⟩)]
    rfl
  · have hsink : (env.CC1_VUFP_RD0P5 &&&
          (read_comparators env (w.call Call.detect_contaminant) 255 255).1 = 0 ∨
        env.CC2_VUFP_RD0P5 &&&
          (read_comparators env (w.call Call.detect_contaminant) 255 255).2.1 = 0) ∧
        ¬ (env.CC1_VUFP_RD0P5 &&&
            (read_comparators env (w.call Call.detect_contaminant) 255 255).1 ≠ 0 ∧
          env.CC2_VUFP_RD0P5 &&&
            (read_comparators env (w.call Call.detect_contaminant) 255 255).2.1 ≠ 0) :=
      ⟨Or.inr (not_not.mp h2), fun h => h2 h.2⟩
    rw [if_pos hsink, if_pos (fun h => h2 h.2)]
    rfl
  · have hsink : (env.CC1_VUFP_RD0P5 &&&
          (read_comparators env (w.call Call.detect_contaminant) 255 255).1 = 0 ∨
        env.CC2_VUFP_RD0P5 &&&
          (read_comparators env (w.call Call.detect_contaminant) 255 255).2.1 = 0) ∧
        ¬ (env.CC1_VUFP_RD0P5 &&&
            (read_comparators env (w.call Call.detect_contaminant) 255 255).1 ≠ 0 ∧
          env.CC2_VUFP_RD0P5 &&&
            (read_comparators env (w.call Call.detect_contaminant) 255 255).2.1 ≠ 0) :=
      ⟨Or.inl (not_not.mp h1), fun h => h1 h.1⟩
    rw [if_pos hsink, if_pos (fun h => h1 h.1)]
    rfl
  · have hsink : (env.CC1_VUFP_RD0P5 &&&
          (read_comparators env (w.call Call.detect_contaminant) 255 255).1 = 0 ∨
        env.CC2_VUFP_RD0P5 &&&
          (read_comparators env (w.call Call.detect_contaminant) 255 255).2.1 = 0) ∧
        ¬ (env.CC1_VUFP_RD0P5 &&&
            (read_comparators env (w.call Call.detect_contaminant) 255 255).1 ≠ 0 ∧
          env.CC2_VUFP_RD0P5 &&&
            (read_comparators env (w.call Call.detect_contaminant) 255 255).2.1 ≠ 0) :=
      ⟨Or.inl (not_not.mp h1), fun h => h1 h.1⟩
    rw [if_pos hsink, if_pos (fun h => h1 h.1)]
    rfl

/-- The sink check of `detect_contaminant` reads no resistance. -/
theorem detect_comparators_reads (w : World ρ) :
    (detect_comparators env w).2.2.trace.filter Call.isResistanceRead =
      w.trace.filter Call.isResistanceRead := by
  unfold detect_comparators
  rw [read_comparators_reads]
  simp [Call.isResistanceRead]

/-- The resistance reads of `detect_contaminant` up to the read of CC2. -/
theorem detect_cc2_reads (w : World ρ) :
    (detect_cc2 env w).2.trace.filter Call.isResistanceRead =
      w.trace.filter Call.isResistanceRead ++
        [Call.read_resistance_kohm CC1_SCALE1 READ1_SLEEP_MS false,
         Call.read_resistance_kohm CC2_SCALE1 READ2_SLEEP_MS false] := by
  unfold detect_cc2 detect_cc1
  rw [read_resistance_kohm_reads, read_resistance_kohm_reads, logbuffer_log_reads,
    detect_comparators_reads]
  simp

/-- The resistance reads of `detect_contaminant` up to the read of SBU2. -/
theorem detect_sbu2_reads (w : World ρ) :
    (detect_sbu2 env w).2.trace.filter Call.isResistanceRead =
      w.trace.filter Call.isResistanceRead ++
        [Call.read_resistance_kohm CC1_SCALE1 READ1_SLEEP_MS false,
         Call.read_resistance_kohm CC2_SCALE1 READ2_SLEEP_MS false,
         Call.read_resistance_kohm SBU1 READ1_SLEEP_MS false,
         Call.read_resistance_kohm SBU2 READ2_SLEEP_MS false] := by
  unfold detect_sbu2 detect_sbu1
  rw [read_resistance_kohm_reads, read_resistance_kohm_reads, logbuffer_log_reads,
    detect_cc2_reads]
  simp

/-- C23, as the code has it: `detect_contaminant` returns `SINK` exactly when
the bits `CC1_VUFP_RD0P5` of the CC1 reading and `CC2_VUFP_RD0P5` of the CC2
reading are not both set: when exactly one of them is set, and also when both
are clear.  Only when both are set does it go on to the resistance
measurement; when both are clear it returns `SINK` and has read no
resistance. -/
theorem detect_contaminant_sink_unless_both_set (env : TcpcEnv ρ) (w : World ρ) :
    ((detect_contaminant env w).1 = SINK ↔ ¬ (detect_cc1_rd env w ∧ detect_cc2_rd env w)) ∧
      (¬ detect_cc1_rd env w ∧ ¬ detect_cc2_rd env w →
        (detect_contaminant env w).1 = SINK ∧
        (detect_contaminant env w).2.trace.filter Call.isResistanceRead =
          w.trace.filter Call.isResistanceRead) := by
  rw [detect_contaminant_eq]
  constructor
  · split_ifs with h1 h2 h3 <;> simp_all [SINK, DETECTED, FLOATING_CABLE, NOT_DETECTED]
  · rintro ⟨h1, h2⟩
    rw [if_pos (fun h => h1 h.1)]
    exact ⟨rfl, by simp [detect_comparators_reads]⟩

/-- C24: the classification of `detect_contaminant` when the sink check does
not return, that is when both `VUFP_RD0P5` bits are set.  With `cc1_k`,
`cc2_k`, `sbu1_k`, `sbu2_k` the values that `read_resistance_kohm` returns for
the four channels (signed, error codes included) and the thresholds both
1000: the result is `NOT_DETECTED` exactly when both CC readings are at least
1000; `DETECTED` exactly when a CC reading and an SBU reading are below 1000;
`FLOATING_CABLE` exactly when a CC reading is below 1000 and both SBU
readings are at least 1000; never `DISABLED`.  The two CC channels are read
in every such run, and the two SBU channels only when a CC reading is below
1000. -/
theorem detect_contaminant_classification (env : TcpcEnv ρ) (w : World ρ)
    (hcc1 : detect_cc1_rd env w) (hcc2 : detect_cc2_rd env w) :
    ((detect_contaminant env w).1 = NOT_DETECTED ↔
        1000 ≤ (detect_cc1 env w).1 ∧ 1000 ≤ (detect_cc2 env w).1) ∧
      ((detect_contaminant env w).1 = DETECTED ↔
        ((detect_cc1 env w).1 < 1000 ∨ (detect_cc2 env w).1 < 1000) ∧
          ((detect_sbu1 env w).1 < 1000 ∨ (detect_sbu2 env w).1 < 1000)) ∧
      ((detect_contaminant env w).1 = FLOATING_CABLE ↔
        ((detect_cc1 env w).1 < 1000 ∨ (detect_cc2 env w).1 < 1000) ∧
          1000 ≤ (detect_sbu1 env w).1 ∧ 1000 ≤ (detect_sbu2 env w).1) ∧
      (detect_contaminant env w).1 ≠ DISABLED ∧
      (detect_contaminant env w).2.trace.filter Call.isResistanceRead =
        w.trace.filter Call.isResistanceRead ++
          [Call.read_resistance_kohm CC1_SCALE1 READ1_SLEEP_MS false,
           Call.read_resistance_kohm CC2_SCALE1 READ2_SLEEP_MS false] ++
          (if (detect_cc1 env w).1 < 1000 ∨ (detect_cc2 env w).1 < 1000 then
            [Call.read_resistance_kohm SBU1 READ1_SLEEP_MS false,
             Call.read_resistance_kohm SBU2 READ2_SLEEP_MS false]
           else []) := by
  rw [detect_contaminant_eq, if_neg (not_not.mpr ⟨hcc1, hcc2⟩)]
  split_ifs with h1 h2
  · simp [h1, h2, NOT_DETECTED, DETECTED, FLOATING_CABLE, DISABLED, detect_sbu2_reads]
    omega
  · have h2' := h2
    rw [not_or, not_lt, not_lt] at h2'
    simp [h1, h2', NOT_DETECTED, DETECTED, FLOATING_CABLE, DISABLED, detect_sbu2_reads]
    omega
  · have h1' := h1
    rw [not_or, not_lt, not_lt] at h1'
    simp [h1', NOT_DETECTED, DETECTED, FLOATING_CABLE, DISABLED, detect_cc2_reads]

@[simp] theorem update_bits8_state (w : World ρ) (reg mask val : Nat) :
    (update_bits8 env w reg mask val).2.state = w.state := rfl

@[simp] theorem read8_state (w : World ρ) (reg old : Nat) :
    (read8 env w reg old).2.2.state = w.state := rfl

@[simp] theorem write8_state (w : World ρ) (reg val : Nat) :
    (write8 env w reg val).2.state = w.state := rfl

@[simp] theorem logbuffer_log_state (w : World ρ) (msg : LogMsg) :
    (logbuffer_log w msg).state = w.state := rfl

/-- The function `enable_dry_detection` does not store to `contaminant->state`. -/
theorem enable_dry_detection_state (w : World ρ) :
    (enable_dry_detection env w).2.state = w.state := by
  unfold enable_dry_detection
  simp only [apply_ite Prod.snd, apply_ite World.state, update_bits8_state, read8_state,
    write8_state, logbuffer_log_state, tcpc_call_state, ite_self]

/-- The function `enable_contaminant_detection` does not store to
`contaminant->state`. -/
theorem enable_contaminant_detection_state (w : World ρ) :
    (enable_contaminant_detection env w).2.state = w.state := by
  unfold enable_contaminant_detection
  simp only [apply_ite Prod.snd, apply_ite World.state, update_bits8_state, read8_state,
    write8_state, logbuffer_log_state, tcpc_call_state, ite_self]

/-- C25, as the code has it: the state that `process_contaminant_alert` leaves
in `contaminant->state`, for every state and every CC status it may find.
After a wet check the stored state is the state that the detection returned.
After a dry check the stored state is `NOT_DETECTED`, whatever the detection
returned, also when it returned `DETECTED` or `FLOATING_CABLE` and dry
detection is enabled again.  In every other run the stored state is as it
was. -/
theorem process_contaminant_alert_stored_state (env : TcpcEnv ρ) (w : World ρ) :
    (process_contaminant_alert env w).2.state =
      if alert_wet_check env w then (alert_detection env w LogMsg.check_if_wet).1
      else if alert_dry_check env w then NOT_DETECTED
      else w.state := by
  unfold alert_wet_check alert_dry_check alert_toggling alert_detection alert_cc_status
  unfold process_contaminant_alert
  dsimp only
  by_cases htog : (read8 env w env.TCPC_CC_STATUS (env.indeterminate w.chip)).2.1 &&&
      env.TCPC_CC_STATUS_TOGGLING ≠ 0
  · simp [htog]
  · simp only [htog, if_false, not_false_eq_true, true_and, read8_state, logbuffer_log_state]
    by_cases hwet : w.state = NOT_DETECTED ∨ w.state = SINK
    · simp only [hwet, if_true, true_and, not_true_eq_false, false_and, if_false]
      split_ifs <;>
        simp [enable_dry_detection_state, enable_contaminant_detection_state]
    · simp only [hwet, if_false, false_and, not_false_eq_true, true_and]
      by_cases hdry : w.state = DETECTED ∨ w.state = FLOATING_CABLE
      · simp only [hdry, if_true, true_and]
        split_ifs <;>
          simp [enable_dry_detection_state, enable_contaminant_detection_state]
      · simp [hdry]

set_option maxRecDepth 100000 in
/-- C25 on a concrete chip: the port of `Demo.chipStillWet` is in state
`DETECTED` and the CC status asks for a dry check; the detection returns
`DETECTED` again and `enable_dry_detection` is entered, and the stored state
is `NOT_DETECTED`. -/
theorem process_contaminant_alert_dry_check_at_demo :
    alert_dry_check Demo.env (Demo.world Demo.chipStillWet DETECTED) ∧
      (alert_detection Demo.env (Demo.world Demo.chipStillWet DETECTED)
        LogMsg.check_if_dry).1 = DETECTED ∧
      (process_contaminant_alert Demo.env (Demo.world Demo.chipStillWet DETECTED)).1 = true ∧
      Call.enable_dry_detection ∈
        (process_contaminant_alert Demo.env (Demo.world Demo.chipStillWet DETECTED)).2.trace ∧
      (process_contaminant_alert Demo.env (Demo.world Demo.chipStillWet DETECTED)).2.state =
        NOT_DETECTED := by
  decide

/-- C23 on a concrete chip: with both `VUFP_RD0P5` bits clear in the readings
of `Demo.chipBothClear`, `detect_contaminant` returns `SINK`. -/
theorem detect_contaminant_sink_at_both_clear :
    (detect_comparators Demo.env (Demo.world Demo.chipBothClear NOT_DETECTED)).1 = 0 ∧
      (detect_comparators Demo.env (Demo.world Demo.chipBothClear NOT_DETECTED)).2.1 = 0 ∧
      (detect_contaminant Demo.env (Demo.world Demo.chipBothClear NOT_DETECTED)).1 = SINK := by
  decide

/-- On `Demo.chipWet` both comparators report their bit, CC1 reads 600 kOhm and
SBU1 reads 500 kOhm: the port is classified `DETECTED` after four reads. -/
theorem detect_contaminant_classification_witness :
    (detect_cc1_rd Demo.env (Demo.world Demo.chipWet NOT_DETECTED) ∧
      detect_cc2_rd Demo.env (Demo.world Demo.chipWet NOT_DETECTED)) ∧
    (detect_cc1 Demo.env (Demo.world Demo.chipWet NOT_DETECTED)).1 = 600 ∧
    (detect_cc2 Demo.env (Demo.world Demo.chipWet NOT_DETECTED)).1 = 2300 ∧
    (detect_sbu1 Demo.env (Demo.world Demo.chipWet NOT_DETECTED)).1 = 500 ∧
    (detect_sbu2 Demo.env (Demo.world Demo.chipWet NOT_DETECTED)).1 = 3300 ∧
    (detect_contaminant Demo.env (Demo.world Demo.chipWet NOT_DETECTED)).1 = DETECTED :=
  ⟨⟨by decide, by decide⟩, by decide, by decide, by decide, by decide,
    ((detect_contaminant_classification Demo.env (Demo.world Demo.chipWet NOT_DETECTED)
      (by decide) (by decide)).2.1).2 ⟨Or.inl (by decide), Or.inl (by decide)⟩⟩

end Contaminant

end Max77759
